import Mathlib

/-!
# WeatherExplorer: the statistical analysis engine of the dashboard

A shallow embedding of the analysis functions of `client/src/pages/Dashboard.jsx`
(`calculateProbabilities`, `computeAutoThresholds`, `getDatasetForStats`,
`getConditionTags` and the effect that recomputes the probabilities), of the risk label
of `components/ProbabilityChart.jsx` and of the table of `components/DataDownload.jsx`,
with the properties of the specification stated and proved about them.

Modelling conventions.

* A JavaScript number is `JSNum`: `NaN` or a finite value, the finite values being
  carried as the rationals they denote. The operations `+`, `-`, `*`, `/` and the
  decimal literals round their exact result to binary64 (`fl`, round to nearest, ties
  to even, 53-bit significand), as the language does; comparisons, `Math.abs`, unary
  minus and `Math.floor` are exact. The exponent range is not bounded and the
  infinities are left out (no division by zero is reachable: the only divisors are a
  positive length and literals). Integer literals are below `2 ^ 53`, hence exact.
* A record field is a `JSVal`: `undefined` (key absent), `null` or a number, which
  is what the JSON sent by the server can hold for the four measured variables.
* A React state variable read inside a function is the value of the render that
  created the closure; a state setter only determines the next state.
-/

namespace WeatherExplorer

/-! ## Binary64 rounding -/

/-- Rounding of a rational to the nearest integer, a tie going to the even one. -/
def roundTiesEven (x : ℚ) : ℤ :=
  if x - ⌊x⌋ < 1 / 2 then ⌊x⌋
  else if 1 / 2 < x - ⌊x⌋ then ⌊x⌋ + 1
  else if ⌊x⌋ % 2 = 0 then ⌊x⌋ else ⌊x⌋ + 1

/-- The binary64 value of an exact result `x` (round to nearest, ties to even, 53-bit
significand): with `2 ^ e ≤ |x| < 2 ^ (e + 1)` the result is the multiple of
`2 ^ (e - 52)` nearest to `x`. The exponent range is not bounded: overflow to an
infinity and the subnormal numbers are not modelled. -/
def fl (x : ℚ) : ℚ :=
  if x = 0 then 0
  else (roundTiesEven (x / (2 : ℚ) ^ (Int.log 2 |x| - 52)) : ℚ) * (2 : ℚ) ^ (Int.log 2 |x| - 52)

/-! ## JavaScript values -/

/-- A JavaScript number: `NaN` or a finite value. -/
inductive JSNum where
  | nan : JSNum
  | fin (q : ℚ) : JSNum
  deriving DecidableEq

namespace JSNum

/-- Addition `a + b` of numbers, rounded to binary64 (`NaN` is absorbing). -/
def add : JSNum → JSNum → JSNum
  | fin a, fin b => fin (fl (a + b))
  | _, _ => nan

/-- Subtraction `a - b` of numbers, rounded to binary64. -/
def sub : JSNum → JSNum → JSNum
  | fin a, fin b => fin (fl (a - b))
  | _, _ => nan

/-- Multiplication `a * b` of numbers, rounded to binary64. -/
def mul : JSNum → JSNum → JSNum
  | fin a, fin b => fin (fl (a * b))
  | _, _ => nan

/-- Division `a / b` of numbers, rounded to binary64; a zero divisor (an infinity or `NaN`
in JavaScript) is outside the model and mapped to `NaN`. -/
def div : JSNum → JSNum → JSNum
  | fin a, fin b => if b = 0 then nan else fin (fl (a / b))
  | _, _ => nan

/-- The unary minus `-a`, which is exact. -/
def neg : JSNum → JSNum
  | fin a => fin (-a)
  | nan => nan

/-- The function `Math.abs`. -/
def abs : JSNum → JSNum
  | fin a => fin |a|
  | nan => nan

/-- The comparison `a > b`: false as soon as one side is `NaN`. -/
def gt : JSNum → JSNum → Bool
  | fin a, fin b => decide (b < a)
  | _, _ => false

/-- The comparison `a >= b`: false as soon as one side is `NaN`. -/
def ge : JSNum → JSNum → Bool
  | fin a, fin b => decide (b ≤ a)
  | _, _ => false

/-- The comparison `a <= b`: false as soon as one side is `NaN`. -/
def le : JSNum → JSNum → Bool
  | fin a, fin b => decide (a ≤ b)
  | _, _ => false

/-- The global `isFinite` on a number, returning the finite value when there is one. -/
def finite? : JSNum → Option ℚ
  | fin a => some a
  | nan => none

/-- A natural number (a length, a count) as a JavaScript number. -/
def ofNat (n : ℕ) : JSNum := fin (n : ℚ)

end JSNum

/-- A JavaScript value as the analysis meets it: `undefined`, `null` or a number. -/
inductive JSVal where
  | undefined : JSVal
  | null : JSVal
  | number (x : JSNum) : JSVal
  deriving DecidableEq

namespace JSVal

/-- The coercion `Number(v)`: `Number(undefined)` is `NaN` and `Number(null)` is `0`. -/
def toNumber : JSVal → JSNum
  | undefined => JSNum.nan
  | null => JSNum.fin 0
  | number x => x

/-- The nullish coalescing `v ?? d`. -/
def orElse (v d : JSVal) : JSVal :=
  match v with
  | undefined => d
  | null => d
  | number x => number x

/-- The test `v !== null && v !== undefined`. -/
def notNullish (v : JSVal) : Bool :=
  decide (v ≠ null) && decide (v ≠ undefined)

/-- A finite number as a value. -/
def ofRat (q : ℚ) : JSVal := number (JSNum.fin q)

end JSVal

/-! ## Data model -/

/-- The `dateFormatted` field of a record, by what the seasonal filter does with it. -/
inductive DateFormatted where
  /-- The field is falsy: absent, `null` or the empty string. -/
  | missing : DateFormatted
  /-- A non-empty string `s` for which `new Date(s + 'T00:00:00Z')` is an Invalid Date. -/
  | unparsable : DateFormatted
  /-- The string `YYYY-MM-DD` of the calendar day `d` of month `m` (1 to 12) of year `y`. -/
  | ymd (y m d : ℕ) : DateFormatted
  deriving DecidableEq

/-- One daily observation, as sent by the server. -/
structure WeatherRecord where
  dateFormatted : DateFormatted
  temperature : JSVal
  humidity : JSVal
  precipitation : JSVal
  windSpeed : JSVal
  deriving DecidableEq

/-- An entry of `weatherVariables`. -/
structure VariableConfig where
  id : String
  name : String
  unit : String
  threshold : JSVal
  deriving DecidableEq

/-- The constant `weatherVariables` of the dashboard. -/
def weatherVariables : List VariableConfig :=
  [ { id := "temperature", name := "Temperature", unit := "°C", threshold := JSVal.ofRat 35 },
    { id := "humidity", name := "Humidity", unit := "%", threshold := JSVal.ofRat 80 },
    { id := "precipitation", name := "Precipitation", unit := "mm", threshold := JSVal.ofRat 10 },
    { id := "windSpeed", name := "Wind Speed", unit := "km/h", threshold := JSVal.ofRat 25 },
    { id := "airQuality", name := "Air Quality Index", unit := "AQI",
      threshold := JSVal.ofRat 100 } ]

/-- The constant `allVariableIds`. -/
def allVariableIds : List String := weatherVariables.map (fun v => v.id)

/-- An object mapping variable ids to thresholds; an absent key reads `undefined`.
An entry typed into a threshold input (a numeric string) is carried as the number
that `Number` makes of it. -/
abbrev ThresholdSet := String → JSVal

/-- The empty object `{}`. -/
def ThresholdSet.empty : ThresholdSet := fun _ => JSVal.undefined

/-- The initial value of the `thresholds` state. -/
def initialThresholds : ThresholdSet := fun k =>
  if k = "temperature" then JSVal.ofRat 35
  else if k = "humidity" then JSVal.ofRat 80
  else if k = "precipitation" then JSVal.ofRat 10
  else if k = "windSpeed" then JSVal.ofRat 25
  else if k = "airQuality" then JSVal.ofRat 100
  else JSVal.undefined

/-- The object stored under a variable id by `calculateProbabilities`. -/
structure ProbabilityResult where
  mean : JSNum
  threshold : JSNum
  exceedanceProbability : JSNum
  values : List JSVal
  config : VariableConfig
  deriving DecidableEq

/-- The object `probabilities`: keys in insertion order. -/
abbrev ProbMap := List (String × ProbabilityResult)

/-- The read `m[k]`, `none` standing for `undefined`. -/
def ProbMap.get (m : ProbMap) (k : String) : Option ProbabilityResult :=
  match m with
  | [] => none
  | (k', r) :: rest => if k' = k then some r else ProbMap.get rest k

/-- The assignment `m[k] = r`: an existing key keeps its place and takes the new value. -/
def ProbMap.set (m : ProbMap) (k : String) (r : ProbabilityResult) : ProbMap :=
  match m with
  | [] => [(k, r)]
  | (k', r') :: rest => if k' = k then (k, r) :: rest else (k', r') :: ProbMap.set rest k r

/-- The `selectedDate` state, a string, by what `getDatasetForStats` does with it. -/
inductive SelectedDate where
  /-- The empty string. -/
  | empty : SelectedDate
  /-- A non-empty string `s`, with `Number(s)`. -/
  | text (n : JSNum) : SelectedDate
  deriving DecidableEq

/-- The state of the `Dashboard` component that the analysis reads and writes. -/
structure DashboardState where
  selectedDate : SelectedDate
  selectedVariables : List String
  historicalData : List WeatherRecord
  probabilityData : Option ProbMap
  thresholds : ThresholdSet
  useAutoThresholds : Bool
  autoThresholdValues : ThresholdSet
  useSeasonalWindow : Bool

/-- The constant `seasonalWindowDays`. -/
def seasonalWindowDays : ℚ := 30

/-! ## calculateProbabilities -/

/-- The callback of `data.map` in `calculateProbabilities`: the `switch` on the variable id. -/
def sampleOf (variableId : String) (d : WeatherRecord) : JSVal :=
  if variableId = "temperature" then JSVal.number d.temperature.toNumber
  else if variableId = "humidity" then JSVal.number d.humidity.toNumber
  else if variableId = "precipitation" then JSVal.number d.precipitation.toNumber
  else if variableId = "windSpeed" then JSVal.number d.windSpeed.toNumber
  else JSVal.null

/-- The array `values` of `calculateProbabilities`. -/
def sampleValues (data : List WeatherRecord) (variableId : String) : List JSVal :=
  (data.map (sampleOf variableId)).filter JSVal.notNullish

/-- The sum `values.reduce((sum, val) => sum + val, 0)`. -/
def sumValues (values : List JSVal) : JSNum :=
  values.foldl (fun sum val => JSNum.add sum val.toNumber) (JSNum.fin 0)

/-- The count `values.filter(v => v > threshold).length`. -/
def exceedanceCount (values : List JSVal) (threshold : JSNum) : ℕ :=
  (values.filter (fun v => JSNum.gt v.toNumber threshold)).length

/-- The threshold that `calculateProbabilities` reads for a variable. -/
def thresholdFor (st : DashboardState) (variableId : String) (config : VariableConfig) : JSNum :=
  if st.useAutoThresholds
  then ((st.autoThresholdValues variableId).orElse config.threshold).toNumber
  else ((st.thresholds variableId).orElse config.threshold).toNumber

/-- The object that the `forEach` callback of `calculateProbabilities` stores for a
variable with configuration `config` and non-empty sample array `values`. -/
def resultFor (st : DashboardState) (values : List JSVal) (variableId : String)
    (config : VariableConfig) : ProbabilityResult :=
  let mean := JSNum.div (sumValues values) (JSNum.ofNat values.length)
  let threshold := thresholdFor st variableId config
  let exceedanceCount := exceedanceCount values threshold
  let exceedanceProbability :=
    JSNum.mul (JSNum.div (JSNum.ofNat exceedanceCount) (JSNum.ofNat values.length))
      (JSNum.fin 100)
  { mean := mean, threshold := threshold, exceedanceProbability := exceedanceProbability,
    values := values, config := config }

/-- The body of the `forEach` callback of `calculateProbabilities` for one variable:
the object it stores, or `none` when it stores nothing. -/
def analyzeVariable (st : DashboardState) (data : List WeatherRecord)
    (variableConfigs : List VariableConfig) (variableId : String) : Option ProbabilityResult :=
  match variableConfigs.find? (fun v => decide (v.id = variableId)) with
  | none => none
  | some config =>
    let values := sampleValues data variableId
    if values.length > 0 then some (resultFor st values variableId config) else none

/-- The function `calculateProbabilities(data, variables, variableConfigs)`, in the
closure of a render with state `st`. -/
def calculateProbabilities (st : DashboardState) (data : List WeatherRecord)
    (variableIds : List String) (variableConfigs : List VariableConfig) : ProbMap :=
  variableIds.foldl
    (fun probabilities variableId =>
      match analyzeVariable st data variableConfigs variableId with
      | none => probabilities
      | some r => ProbMap.set probabilities variableId r)
    []

/-! ## computeAutoThresholds -/

/-- The subscript `Math.floor((p/100) * (a.length-1))` of `pct` for an array of length `n`,
as binary64 arithmetic evaluates it. -/
def pctIndex (p : ℚ) (n : ℕ) : ℤ :=
  ⌊fl (fl (p / 100) * ((n : ℚ) - 1))⌋

/-- The array `data.map(d => Number(d.field)).filter(isFinite)` of `computeAutoThresholds`,
its elements, all finite, carried as rationals. -/
def finiteSeries (data : List WeatherRecord) (field : WeatherRecord → JSVal) : List ℚ :=
  (data.map (fun d => (field d).toNumber)).filterMap JSNum.finite?

/-- The copy `[...arr].sort((a,b)=>a-b)`: ascending numeric order. -/
def sortAscending (arr : List ℚ) : List ℚ :=
  arr.insertionSort (fun a b => a ≤ b)

/-- The array read `a[idx]` for an integral subscript. -/
def arrayAt (a : List ℚ) (idx : ℤ) : JSVal :=
  if idx < 0 then JSVal.undefined
  else match a[idx.toNat]? with
    | some q => JSVal.ofRat q
    | none => JSVal.undefined

/-- The local function `pct(arr, p)` of `computeAutoThresholds`. -/
def pct (arr : List ℚ) (p : ℚ) : JSVal :=
  if arr.length = 0 then JSVal.undefined
  else arrayAt (sortAscending arr) (pctIndex p (sortAscending arr).length)

/-- The function `computeAutoThresholds(data)`: the object it returns, read by key. -/
def computeAutoThresholds (data : List WeatherRecord) : ThresholdSet := fun k =>
  if k = "temperature" then pct (finiteSeries data (fun d => d.temperature)) 80
  else if k = "humidity" then pct (finiteSeries data (fun d => d.humidity)) 70
  else if k = "precipitation" then pct (finiteSeries data (fun d => d.precipitation)) 80
  else if k = "windSpeed" then pct (finiteSeries data (fun d => d.windSpeed)) 80
  else JSVal.undefined

/-! ## getDatasetForStats -/

/-- The constant `1000*60*60*24`: milliseconds in a day. -/
def msPerDay : ℤ := 1000 * 60 * 60 * 24

/-- The day number of the first day of year `y`, counted from 1 January 1970
(`DayFromYear` of the language specification). -/
def dayFromYear (y : ℤ) : ℤ :=
  365 * (y - 1970) + (y - 1969) / 4 - (y - 1901) / 100 + (y - 1601) / 400

/-- Whether year `y` is a leap year of the Gregorian calendar. -/
def inLeapYear (y : ℤ) : Bool :=
  decide (y % 4 = 0) && (decide (y % 100 ≠ 0) || decide (y % 400 = 0))

/-- The length of the month of zero-based index `mn`. -/
def daysInMonth (leap : Bool) (mn : ℕ) : ℕ :=
  if mn = 1 then (if leap then 29 else 28)
  else if mn = 3 ∨ mn = 5 ∨ mn = 8 ∨ mn = 10 then 30
  else 31

/-- The number of days of the year before the month of zero-based index `mn`. -/
def daysBeforeMonth (leap : Bool) (mn : ℕ) : ℕ :=
  ((List.range mn).map (daysInMonth leap)).sum

/-- The day number of day `date` of the month of zero-based index `month` (0 to 11) of
`year` (`MakeDay`); `date` 0 is the last day of the month before. -/
def makeDay (year : ℤ) (month : ℕ) (date : ℤ) : ℤ :=
  dayFromYear year + daysBeforeMonth (inLeapYear year) month + date - 1

/-- The time value of `new Date(s + 'T00:00:00Z')` for the string `s` of the
calendar day `y`-`m`-`d`: midnight UTC of that day, in milliseconds. -/
def utcMidnight (y m d : ℕ) : ℤ :=
  makeDay y (m - 1) d * msPerDay

/-- The time value of `new Date(year, 0, 0)`: midnight in LOCAL time of the day before
1 January (a year from 0 to 99 is read as 1900 + year). The local time `t` is the
instant `t - tza t`, where `tza t` is the offset of local time from UTC, in
milliseconds, in force at `t`. -/
def localDayZero (tza : ℤ → ℤ) (year : ℤ) : ℤ :=
  let yr := if 0 ≤ year ∧ year ≤ 99 then 1900 + year else year
  makeDay yr 0 0 * msPerDay - tza (makeDay yr 0 0 * msPerDay)

/-- The value `doy` computed by the filter callback of `getDatasetForStats` for a truthy
`dateFormatted`: `Math.floor((date - new Date(date.getUTCFullYear(), 0, 0)) / msPerDay)`,
`NaN` for an Invalid Date. The difference of the two time values is an integer; its
quotient is taken exactly, which gives the floor of the binary64 quotient
(`floor_fl_div_msPerDay`). -/
def dayOfYear (tza : ℤ → ℤ) (df : DateFormatted) : JSNum :=
  match df with
  | DateFormatted.ymd y m d =>
    JSNum.fin (((utcMidnight y m d - localDayZero tza y) / msPerDay : ℤ) : ℚ)
  | _ => JSNum.nan

/-- The local function `inWindow(doy)` of `getDatasetForStats`, for a given `target`. -/
def inWindow (target : JSNum) (doy : JSNum) : Bool :=
  let diff := JSNum.abs (JSNum.sub doy target)
  JSNum.le diff (JSNum.fin seasonalWindowDays) ||
    JSNum.le (JSNum.sub (JSNum.fin 365) diff) (JSNum.fin seasonalWindowDays)

/-- The filter callback of `getDatasetForStats`. -/
def keepRecord (tza : ℤ → ℤ) (target : JSNum) (d : WeatherRecord) : Bool :=
  match d.dateFormatted with
  | DateFormatted.missing => true
  | df => inWindow target (dayOfYear tza df)

/-- The function `getDatasetForStats(data)`, in the closure of a render with state `st`,
on a machine whose local time has offset `tza`. -/
def getDatasetForStats (tza : ℤ → ℤ) (st : DashboardState) (data : List WeatherRecord) :
    List WeatherRecord :=
  if !st.useSeasonalWindow then data
  else match st.selectedDate with
    | SelectedDate.empty => data
    | SelectedDate.text n => data.filter (keepRecord tza n)

/-! ## getConditionTags -/

instance : Add JSNum := ⟨JSNum.add⟩
instance : Sub JSNum := ⟨JSNum.sub⟩
instance : Mul JSNum := ⟨JSNum.mul⟩
instance : Div JSNum := ⟨JSNum.div⟩
instance : OfScientific JSNum := ⟨fun m s e => JSNum.fin (fl (OfScientific.ofScientific m s e))⟩
instance (n : ℕ) : OfNat JSNum n := ⟨JSNum.fin (n : ℚ)⟩
instance : Neg JSNum := ⟨JSNum.neg⟩

/-- The heat index `HI` computed by `getConditionTags` from the mean temperature `tC`
and the mean humidity `rh`. -/
def heatIndex (tC rh : JSNum) : JSNum :=
  let tF := tC * 9 / 5 + 32;
  -42.379 + 2.04901523 * tF + 10.14333127 * rh - 0.22475541 * tF * rh - 0.00683783 * tF * tF
    - 0.05481717 * rh * rh + 0.00122874 * tF * tF * rh + 0.00085282 * tF * rh * rh
    - 0.00000199 * tF * tF * rh * rh

/-- The function `getConditionTags()`, in the closure of a render with state `st`. -/
def getConditionTags (st : DashboardState) : List String :=
  match st.probabilityData with
  | none => []
  | some probabilityData =>
    let temp := probabilityData.get "temperature"
    let hum := probabilityData.get "humidity"
    let precip := probabilityData.get "precipitation"
    let wind := probabilityData.get "windSpeed"
    let hot : List String :=
      match temp with
      | some t => if JSNum.ge t.mean (st.thresholds "temperature").toNumber then ["very hot"] else []
      | none => []
    let cold : List String :=
      match temp with
      | some t => if JSNum.le t.mean 10 then ["very cold"] else []
      | none => []
    let windy : List String :=
      match wind with
      | some w =>
        if JSNum.ge w.exceedanceProbability 40 ||
            JSNum.ge w.mean (st.thresholds "windSpeed").toNumber then ["very windy"] else []
      | none => []
    let wet : List String :=
      match precip with
      | some r =>
        if JSNum.ge r.exceedanceProbability 40 ||
            JSNum.ge r.mean (st.thresholds "precipitation").toNumber then ["very wet"] else []
      | none => []
    let uncomfortable : List String :=
      match temp, hum with
      | some t, some h => if JSNum.ge (heatIndex t.mean h.mean) 100 then ["very uncomfortable"] else []
      | _, _ => []
    hot ++ cold ++ windy ++ wet ++ uncomfortable

/-! ## The effect that recomputes the probabilities -/

/-- The value `varsToUse` of the effect. -/
def varsToUse (st : DashboardState) : List String :=
  if st.selectedVariables.length > 0 then st.selectedVariables
  else allVariableIds.filter
    (fun id => ["temperature", "humidity", "precipitation", "windSpeed"].contains id)

/-- One run of the effect `useEffect(() => ..., [historicalData, selectedVariables,
useAutoThresholds])` in the closure of a render with state `st`: the state after the
setters it calls have taken effect. Every state variable the body reads, the
`autoThresholdValues` read by `calculateProbabilities` included, is the one of `st`. -/
def recalculate (tza : ℤ → ℤ) (st : DashboardState) : DashboardState :=
  if st.historicalData.length = 0 then st
  else
    let autoThresholdValues :=
      if st.useAutoThresholds
      then computeAutoThresholds (getDatasetForStats tza st st.historicalData)
      else st.autoThresholdValues
    let dataset := getDatasetForStats tza st st.historicalData
    let probabilities := calculateProbabilities st dataset (varsToUse st) weatherVariables
    { st with autoThresholdValues := autoThresholdValues, probabilityData := some probabilities }

/-! ## Example inputs -/

/-- The entry of `weatherVariables` for the temperature. -/
def temperatureConfig : VariableConfig :=
  { id := "temperature", name := "Temperature", unit := "°C", threshold := JSVal.ofRat 35 }

/-- The entry of `weatherVariables` for the humidity. -/
def humidityConfig : VariableConfig :=
  { id := "humidity", name := "Humidity", unit := "%", threshold := JSVal.ofRat 80 }

/-- The state of the first render, with the day of the year set to `day`. -/
def initialStateAt (day : ℚ) : DashboardState :=
  { selectedDate := SelectedDate.text (JSNum.fin day),
    selectedVariables := ["temperature", "humidity", "precipitation", "windSpeed"],
    historicalData := [],
    probabilityData := none,
    thresholds := initialThresholds,
    useAutoThresholds := false,
    autoThresholdValues := ThresholdSet.empty,
    useSeasonalWindow := true }

/-- The state of the first render on 1 January. -/
def initialState : DashboardState := initialStateAt 1

/-- A record without date that carries `t` as temperature and `null` elsewhere. -/
def recordOfTemperature (t : JSVal) : WeatherRecord :=
  { dateFormatted := DateFormatted.missing, temperature := t, humidity := JSVal.null,
    precipitation := JSVal.null, windSpeed := JSVal.null }

/-- A record dated `df` that carries `null` in every measured field. -/
def recordDated (df : DateFormatted) : WeatherRecord :=
  { dateFormatted := df, temperature := JSVal.null, humidity := JSVal.null,
    precipitation := JSVal.null, windSpeed := JSVal.null }

/-- The offset of a machine whose local time is UTC. -/
def utcZone : ℤ → ℤ := fun _ => 0

/-- A record without date that carries `h` as humidity and `null` elsewhere. -/
def recordOfHumidity (h : JSVal) : WeatherRecord :=
  { dateFormatted := DateFormatted.missing, temperature := JSVal.null, humidity := h,
    precipitation := JSVal.null, windSpeed := JSVal.null }

/-- Ninety-one records whose humidities are 0, 1, ..., 90. -/
def humidityRamp : List WeatherRecord :=
  (List.range 91).map (fun (i : ℕ) => recordOfHumidity (JSVal.ofRat (i : ℚ)))

/-- What the specification asks of the auto-threshold `v` of a variable with percentile `p`
and series `s` of finite values, the subscript being the one binary64 arithmetic gives:
`undefined` for an empty series, and otherwise the element of the ascending sort of `s`
at the subscript `pctIndex p n`, which lies in `0..n-1`. -/
def IsPercentileOf (p : ℚ) (s : List ℚ) (v : JSVal) : Prop :=
  (s = [] → v = JSVal.undefined) ∧
  (s ≠ [] → ∃ (i : ℕ) (q : ℚ), (i : ℤ) = pctIndex p s.length ∧ i < s.length ∧
    (sortAscending s)[i]? = some q ∧ v = JSVal.ofRat q)

/-- The Rothfusz regression as the specification writes it, for the temperature `tF` in
degrees Fahrenheit and the relative humidity `rh` in percent. -/
def rothfusz (tF rh : ℚ) : ℚ :=
  -42.379 + 2.04901523 * tF + 10.14333127 * rh - 0.22475541 * tF * rh - 0.00683783 * tF ^ 2
    - 0.05481717 * rh ^ 2 + 0.00122874 * tF ^ 2 * rh + 0.00085282 * tF * rh ^ 2
    - 0.00000199 * tF ^ 2 * rh ^ 2

/-- A result object with the given configuration and mean, over no sample. -/
def resultWithMean (config : VariableConfig) (mean : ℚ) : ProbabilityResult :=
  { mean := JSNum.fin mean, threshold := config.threshold.toNumber,
    exceedanceProbability := JSNum.fin 0, values := [], config := config }

/-- A state whose results hold a mean temperature of 40 and a mean humidity of 70. -/
def hotHumidState : DashboardState :=
  { initialState with
    probabilityData := some [("temperature", resultWithMean temperatureConfig 40),
                             ("humidity", resultWithMean humidityConfig 70)] }

/-- A state whose results hold a mean temperature of 35.29884821719117, the double
`4967871239923433 / 2 ^ 47`, and a mean humidity of 40. -/
def warmDryState : DashboardState :=
  { initialState with
    probabilityData :=
      some [("temperature",
              resultWithMean temperatureConfig (4967871239923433 / 140737488355328)),
            ("humidity", resultWithMean humidityConfig 40)] }

/-- Five records without date whose temperatures are 10, 20, 30, 40 and 50. -/
def fiveTemperatures : List WeatherRecord :=
  [recordOfTemperature (JSVal.ofRat 10), recordOfTemperature (JSVal.ofRat 20),
   recordOfTemperature (JSVal.ofRat 30), recordOfTemperature (JSVal.ofRat 40),
   recordOfTemperature (JSVal.ofRat 50)]

/-- The state of a render in auto-threshold mode, with the five temperatures loaded, the
temperature selected and `held` as the auto thresholds stored so far. -/
def autoModeState (held : ThresholdSet) : DashboardState :=
  { initialState with
    selectedVariables := ["temperature"],
    historicalData := fiveTemperatures,
    useAutoThresholds := true,
    autoThresholdValues := held }

/-- The threshold of the temperature entry of the results stored in a state. -/
def storedTemperatureThreshold (st : DashboardState) : Option JSNum :=
  match st.probabilityData with
  | none => none
  | some pd => (pd.get "temperature").map (fun r => r.threshold)

/-- The ThresholdSet in force in a render: the auto thresholds in auto mode, the manual
thresholds otherwise. -/
def activeThresholds (st : DashboardState) : ThresholdSet :=
  if st.useAutoThresholds then st.autoThresholdValues else st.thresholds

/-- The 1-based ordinal, within year `y`, of the calendar day `d` of month `m` (1 to 12). -/
def ordinalDay (y m d : ℕ) : ℕ :=
  daysBeforeMonth (inLeapYear y) (m - 1) + d

/-- The fixed order in which `getConditionTags` pushes its tags. -/
def tagVocabulary : List String :=
  ["very hot", "very cold", "very windy", "very wet", "very uncomfortable"]

/-- The entry of `weatherVariables` for the wind speed. -/
def windSpeedConfig : VariableConfig :=
  { id := "windSpeed", name := "Wind Speed", unit := "km/h", threshold := JSVal.ofRat 25 }

/-- The entry of `weatherVariables` for the precipitation. -/
def precipitationConfig : VariableConfig :=
  { id := "precipitation", name := "Precipitation", unit := "mm", threshold := JSVal.ofRat 10 }

/-- A state with the initial manual thresholds whose results hold the temperature mean
`mean` and nothing else. -/
def temperatureMeanState (mean : ℚ) : DashboardState :=
  { initialState with
    probabilityData := some [("temperature", resultWithMean temperatureConfig mean)] }

/-- A state with the initial manual thresholds whose results hold the wind speed mean 30
and nothing else. -/
def windyState : DashboardState :=
  { initialState with
    probabilityData := some [("windSpeed", resultWithMean windSpeedConfig 30)] }

/-- A state whose manual temperature threshold is 8 and whose results hold the temperature
mean 9 and nothing else. -/
def contradictoryState : DashboardState :=
  { initialState with
    thresholds := fun k => if k = "temperature" then JSVal.ofRat 8 else initialThresholds k,
    probabilityData := some [("temperature", resultWithMean temperatureConfig 9)] }

/-- The offset of a machine whose local time is five hours behind UTC. -/
def fiveHoursWest : ℤ → ℤ := fun _ => -(5 * 60 * 60 * 1000)

/-! ## The controls of the dashboard and the renders they cause -/

/-- A change of one of the inputs of the analysis, made through a control of the page
or by the arrival of the historical data. -/
inductive Event where
  /-- The day-of-year input: `setSelectedDate(e.target.value)`. -/
  | setSelectedDate (value : SelectedDate) : Event
  /-- The auto-threshold checkbox: `setUseAutoThresholds(e.target.checked)`. -/
  | setUseAutoThresholds (checked : Bool) : Event
  /-- The seasonal-window checkbox: `setUseSeasonalWindow(e.target.checked)`. -/
  | setUseSeasonalWindow (checked : Bool) : Event
  /-- The checkbox of a variable: `handleVariableToggle(variable.id)`. -/
  | handleVariableToggle (variableId : String) : Event
  /-- A threshold input: `setThresholds(t => ({ ...t, [variable.id]: e.target.value }))`. -/
  | setThreshold (variableId : String) (value : JSVal) : Event
  /-- The success branch of `fetchWeatherAnalysis` with the array `data` of the response. -/
  | setHistoricalData (data : List WeatherRecord) : Event

/-- The state after the setters called for an event have taken effect; what the handler
reads is the state `st` of the render that created it. -/
def applySetters (e : Event) (st : DashboardState) : DashboardState :=
  match e with
  | Event.setSelectedDate value => { st with selectedDate := value }
  | Event.setUseAutoThresholds checked => { st with useAutoThresholds := checked }
  | Event.setUseSeasonalWindow checked => { st with useSeasonalWindow := checked }
  | Event.handleVariableToggle variableId =>
    { st with selectedVariables :=
        if st.selectedVariables.contains variableId
        then st.selectedVariables.filter (fun v => v != variableId)
        else st.selectedVariables ++ [variableId] }
  | Event.setThreshold variableId value =>
    { st with thresholds := fun k => if k = variableId then value else st.thresholds k }
  | Event.setHistoricalData data =>
    { st with historicalData := data,
              probabilityData := some (calculateProbabilities st data (varsToUse st)
                weatherVariables) }

/-- Whether a dependency of the effect, `[historicalData, selectedVariables,
useAutoThresholds]`, differs after the event: the two arrays are new objects whenever
they are set, the boolean differs when its value does. -/
def effectRuns (e : Event) (st : DashboardState) : Bool :=
  match e with
  | Event.setSelectedDate _ => false
  | Event.setUseAutoThresholds checked => checked != st.useAutoThresholds
  | Event.setUseSeasonalWindow _ => false
  | Event.handleVariableToggle _ => true
  | Event.setThreshold _ _ => false
  | Event.setHistoricalData _ => true

/-- The state of the page once an event has been handled: the setters take effect, the
component renders again, and the effect runs in the new render when one of its
dependencies differs. -/
def dispatch (tza : ℤ → ℤ) (e : Event) (st : DashboardState) : DashboardState :=
  if effectRuns e st then recalculate tza (applySetters e st) else applySetters e st

/-- The stored results are up to date: they are those of `calculateProbabilities` on the
dataset filtered with the current settings, for the current selection and thresholds. -/
def ResultsCurrent (tza : ℤ → ℤ) (st : DashboardState) : Prop :=
  st.probabilityData
    = some (calculateProbabilities st (getDatasetForStats tza st st.historicalData)
        (varsToUse st) weatherVariables)

/-- The state of a render in manual mode, target day 1, with `data` loaded and the
temperature selected, before the effect has run. -/
def manualStateWith (data : List WeatherRecord) : DashboardState :=
  { initialState with selectedVariables := ["temperature"], historicalData := data }

/-- The state of a render in manual mode with the five temperatures loaded, the
temperature selected and the results of the effect stored. -/
def manualLoadedState : DashboardState :=
  recalculate utcZone (manualStateWith fiveTemperatures)

/-- A record dated 1 July 2023 with temperature 40. -/
def julyRecord : WeatherRecord :=
  { dateFormatted := DateFormatted.ymd 2023 7 1, temperature := JSVal.ofRat 40,
    humidity := JSVal.null, precipitation := JSVal.null, windSpeed := JSVal.null }

/-- The state of a render in manual mode, target day 1, with the record of 1 July loaded,
the temperature selected and the results of the effect stored. -/
def julyLoadedState : DashboardState :=
  recalculate utcZone (manualStateWith [julyRecord])

/-! ## Risk labels -/

/-- The function `getProbabilityText(probability)` of the dashboard page. -/
def getProbabilityText (probability : JSNum) : String :=
  if JSNum.ge probability 70 then "High Risk"
  else if JSNum.ge probability 40 then "Moderate Risk"
  else "Low Risk"

/-- The function `getRiskLevel(probability)` of the `ProbabilityChart` component. -/
def getRiskLevel (probability : JSNum) : String :=
  if JSNum.ge probability 70 then "High Risk"
  else if JSNum.ge probability 40 then "Moderate Risk"
  else "Low Risk"

/-- The legend of the `ProbabilityChart` component, "Low Risk (0-39%)", "Moderate Risk
(40-69%)", "High Risk (70-100%)": each label with the bounds, in percent, it is shown with. -/
def riskLegend : List (String × ℚ × ℚ) :=
  [("Low Risk", 0, 39), ("Moderate Risk", 40, 69), ("High Risk", 70, 100)]

/-! ## downloadCSV -/

/-- A record as the `DataDownload` component reads it: the fields of the analysis and the
two more that the export reads, `date` and `airQuality`. -/
structure ExportItem extends WeatherRecord where
  date : String
  airQuality : JSVal

/-- A field of a row of the CSV table, before it is put between quotes. -/
inductive CsvField where
  /-- A string. -/
  | text (s : String) : CsvField
  /-- The `dateFormatted` of a record. -/
  | dateText (d : DateFormatted) : CsvField
  /-- A value read from a record. -/
  | value (v : JSVal) : CsvField
  deriving DecidableEq

/-- The expression `v || ""`: the empty string for a falsy value (`undefined`, `null`, 0 or
`NaN`). -/
def orEmptyString (v : JSVal) : CsvField :=
  match v with
  | JSVal.undefined => CsvField.text ""
  | JSVal.null => CsvField.text ""
  | JSVal.number JSNum.nan => CsvField.text ""
  | JSVal.number (JSNum.fin q) => if q = 0 then CsvField.text "" else CsvField.value v

/-- The array `headers` of `downloadCSV`: each variable id with its first letter in upper
case. -/
def csvHeaders (variableIds : List String) : List CsvField :=
  [CsvField.text "Date", CsvField.text "Date_Formatted", CsvField.text "Location"] ++
    variableIds.map (fun v => CsvField.text v.capitalize)

/-- The callback of `data.map` that builds a row of `downloadCSV`. -/
def csvRow (location : String) (item : ExportItem) : List CsvField :=
  [CsvField.text item.date,
   CsvField.dateText item.dateFormatted,
   CsvField.text location,
   orEmptyString item.temperature,
   orEmptyString item.humidity,
   orEmptyString item.precipitation,
   orEmptyString item.windSpeed,
   orEmptyString item.airQuality]

/-- The table `[headers, ...rows]` that `downloadCSV` writes, or `none` when it returns at
once because there is no data. -/
def downloadCSV (data : List ExportItem) (location : String) (variableIds : List String) :
    Option (List (List CsvField)) :=
  if data.length = 0 then none
  else some (csvHeaders variableIds :: data.map (csvRow location))

/-- An item of 1 July 2023 with temperature 40 and nothing else. -/
def julyItem : ExportItem :=
  { toWeatherRecord := julyRecord, date := "20230701", airQuality := JSVal.undefined }

/-! # Properties -/

/-! ## Lemmas on binary64 rounding -/

theorem roundTiesEven_sub_le (x : ℚ) : |(roundTiesEven x : ℚ) - x| ≤ 1 / 2 := by
  have h1 : (⌊x⌋ : ℚ) ≤ x := Int.floor_le x
  have h2 : x < (⌊x⌋ : ℚ) + 1 := Int.lt_floor_add_one x
  unfold roundTiesEven
  split_ifs with ha hb hc
  · rw [abs_le]; constructor <;> linarith
  · push_cast; rw [abs_le]; constructor <;> linarith
  · rw [abs_le]; constructor <;> linarith
  · push_cast; rw [abs_le]; constructor <;> linarith

theorem roundTiesEven_nonneg {x : ℚ} (hx : 0 ≤ x) : 0 ≤ roundTiesEven x := by
  have h0 : (0 : ℤ) ≤ ⌊x⌋ := Int.floor_nonneg.mpr hx
  unfold roundTiesEven
  split_ifs <;> omega

theorem roundTiesEven_intCast (z : ℤ) : roundTiesEven (z : ℚ) = z := by
  unfold roundTiesEven
  simp

theorem fl_nonneg {x : ℚ} (hx : 0 ≤ x) : 0 ≤ fl x := by
  unfold fl
  split_ifs with h
  · exact le_refl 0
  · apply mul_nonneg
    · exact_mod_cast roundTiesEven_nonneg (div_nonneg hx (zpow_nonneg (by norm_num) _))
    · exact zpow_nonneg (by norm_num) _

theorem fl_le {x : ℚ} (hx : 0 < x) : fl x ≤ x + x / 2 ^ 53 := by
  have hne : x ≠ 0 := ne_of_gt hx
  have habs : |x| = x := abs_of_pos hx
  have hu : (0 : ℚ) < (2 : ℚ) ^ (Int.log 2 x - 52) := zpow_pos (by norm_num) _
  have hlog : (2 : ℚ) ^ (Int.log 2 x) ≤ x := by
    have := Int.zpow_log_le_self (b := 2) (by norm_num) hx
    simpa using this
  have hr := roundTiesEven_sub_le (x / (2 : ℚ) ^ (Int.log 2 x - 52))
  rw [abs_le] at hr
  have hsplit : (2 : ℚ) ^ (Int.log 2 x) = (2 : ℚ) ^ (Int.log 2 x - 52) * 2 ^ 52 := by
    rw [zpow_sub₀ (by norm_num : (2 : ℚ) ≠ 0)]
    have h52 : ((2 : ℚ) ^ (52 : ℤ)) = 2 ^ 52 := by norm_cast
    rw [h52]
    field_simp
  unfold fl
  rw [if_neg hne, habs]
  generalize (2 : ℚ) ^ (Int.log 2 x - 52) = u at hu hr hsplit
  generalize (roundTiesEven (x / u) : ℚ) = m at hr
  rw [hsplit] at hlog
  have h3 : m ≤ x / u + 1 / 2 := by linarith [hr.2]
  have h4 : m * u ≤ (x / u + 1 / 2) * u := mul_le_mul_of_nonneg_right h3 (le_of_lt hu)
  have h5 : (x / u + 1 / 2) * u = x + u / 2 := by field_simp; ring
  have h6 : u / 2 ≤ x / 2 ^ 53 := by
    rw [div_le_div_iff₀ (by norm_num) (by norm_num)]
    nlinarith [hlog]
  linarith

theorem fl_eq_of_bounds {x : ℚ} {e m : ℤ} (hx : 0 < x) (hlo : (2 : ℚ) ^ e ≤ x)
    (hhi : x < (2 : ℚ) ^ (e + 1)) (hm : roundTiesEven (x / (2 : ℚ) ^ (e - 52)) = m) :
    fl x = (m : ℚ) * (2 : ℚ) ^ (e - 52) := by
  have hlog : Int.log 2 x = e := by
    apply le_antisymm
    · have := (Int.lt_zpow_iff_log_lt (b := 2) (by norm_num) hx (x := e + 1)).mp (by simpa using hhi)
      omega
    · exact (Int.zpow_le_iff_le_log (b := 2) (by norm_num) hx).mp (by simpa using hlo)
  unfold fl
  rw [if_neg (ne_of_gt hx), abs_of_pos hx, hlog, hm]

theorem fl_seventy : fl (70 / 100) = 3152519739159347 / 4503599627370496 := by
  rw [fl_eq_of_bounds (e := -1) (m := 6305039478318694) (by norm_num) (by norm_num) (by norm_num)]
  · norm_num
  · unfold roundTiesEven
    norm_num

theorem fl_zero : fl 0 = 0 := by
  simp [fl]

theorem fl_eighty : fl (80 / 100) = 3602879701896397 / 4503599627370496 := by
  rw [fl_eq_of_bounds (e := -1) (m := 7205759403792794) (by norm_num) (by norm_num) (by norm_num)]
  · norm_num
  · unfold roundTiesEven
    norm_num

theorem le_roundTiesEven {w : ℤ} {y : ℚ} (h : (w : ℚ) ≤ y) : w ≤ roundTiesEven y := by
  have hf : w ≤ ⌊y⌋ := Int.le_floor.mpr h
  unfold roundTiesEven
  split_ifs <;> omega

theorem le_fl_of_nat (z : ℕ) {x : ℚ} (hpos : 0 < x) (hz : (z : ℚ) ≤ x) (hx : x < 2 ^ 53) :
    (z : ℚ) ≤ fl x := by
  have he : Int.log 2 x < 53 := by
    apply (Int.lt_zpow_iff_log_lt (b := 2) (by norm_num) hpos).mp
    have : ((2 : ℕ) : ℚ) ^ (53 : ℤ) = 2 ^ 53 := by norm_cast
    rw [this]
    exact hx
  obtain ⟨j, hj⟩ : ∃ j : ℕ, Int.log 2 x - 52 = -(j : ℤ) := ⟨(52 - Int.log 2 x).toNat, by omega⟩
  have hu : (2 : ℚ) ^ (Int.log 2 x - 52) = 1 / 2 ^ j := by
    rw [hj, zpow_neg, zpow_natCast, one_div]
  have h2 : (0 : ℚ) < 2 ^ j := pow_pos (by norm_num) j
  unfold fl
  rw [if_neg (ne_of_gt hpos), abs_of_pos hpos, hu]
  have hw : (((z * 2 ^ j : ℕ) : ℤ) : ℚ) ≤ x / (1 / 2 ^ j) := by
    rw [div_div_eq_mul_div, div_one]
    push_cast
    exact mul_le_mul_of_nonneg_right hz (le_of_lt h2)
  have hr := le_roundTiesEven hw
  have hr' : ((z * 2 ^ j : ℕ) : ℚ) ≤ (roundTiesEven (x / (1 / 2 ^ j)) : ℚ) := by
    exact_mod_cast hr
  calc (z : ℚ) = ((z * 2 ^ j : ℕ) : ℚ) * (1 / 2 ^ j) := by
        push_cast
        field_simp
    _ ≤ (roundTiesEven (x / (1 / 2 ^ j)) : ℚ) * (1 / 2 ^ j) :=
        mul_le_mul_of_nonneg_right hr' (by positivity)

theorem roundTiesEven_le {w : ℤ} {y : ℚ} (h : y ≤ (w : ℚ)) : roundTiesEven y ≤ w := by
  have hf : ⌊y⌋ ≤ w := Int.floor_le_iff.mpr (by have := Int.floor_le y; linarith [Int.lt_floor_add_one y])
  rcases eq_or_lt_of_le h with heq | hlt
  · rw [heq, roundTiesEven_intCast]
  · have hfl : ⌊y⌋ < w := Int.floor_lt.mpr hlt
    unfold roundTiesEven
    split_ifs <;> omega

theorem fl_ge {x : ℚ} (hx : 0 < x) : x - x / 2 ^ 53 ≤ fl x := by
  have hne : x ≠ 0 := ne_of_gt hx
  have habs : |x| = x := abs_of_pos hx
  have hu : (0 : ℚ) < (2 : ℚ) ^ (Int.log 2 x - 52) := zpow_pos (by norm_num) _
  have hlog : (2 : ℚ) ^ (Int.log 2 x) ≤ x := by
    have := Int.zpow_log_le_self (b := 2) (by norm_num) hx
    simpa using this
  have hr := roundTiesEven_sub_le (x / (2 : ℚ) ^ (Int.log 2 x - 52))
  rw [abs_le] at hr
  have hsplit : (2 : ℚ) ^ (Int.log 2 x) = (2 : ℚ) ^ (Int.log 2 x - 52) * 2 ^ 52 := by
    rw [zpow_sub₀ (by norm_num : (2 : ℚ) ≠ 0)]
    have h52 : ((2 : ℚ) ^ (52 : ℤ)) = 2 ^ 52 := by norm_cast
    rw [h52]
    field_simp
  unfold fl
  rw [if_neg hne, habs]
  generalize (2 : ℚ) ^ (Int.log 2 x - 52) = u at hu hr hsplit
  generalize (roundTiesEven (x / u) : ℚ) = m at hr
  rw [hsplit] at hlog
  have h3 : x / u - 1 / 2 ≤ m := by linarith [hr.1]
  have h4 : (x / u - 1 / 2) * u ≤ m * u := mul_le_mul_of_nonneg_right h3 (le_of_lt hu)
  have h5 : (x / u - 1 / 2) * u = x - u / 2 := by field_simp; ring
  have h6 : u / 2 ≤ x / 2 ^ 53 := by
    rw [div_le_div_iff₀ (by norm_num) (by norm_num)]
    nlinarith [hlog]
  linarith

theorem fl_nonpos {x : ℚ} (hx : x ≤ 0) : fl x ≤ 0 := by
  unfold fl
  split_ifs with h
  · exact le_refl 0
  · apply mul_nonpos_of_nonpos_of_nonneg
    · have hu : (0 : ℚ) < (2 : ℚ) ^ (Int.log 2 |x| - 52) := zpow_pos (by norm_num) _
      have hq : x / (2 : ℚ) ^ (Int.log 2 |x| - 52) ≤ ((0 : ℤ) : ℚ) := by
        rw [Int.cast_zero]
        exact div_nonpos_of_nonpos_of_nonneg hx (le_of_lt hu)
      exact_mod_cast roundTiesEven_le hq
    · exact zpow_nonneg (by norm_num) _

/-- The unit of the binade of a positive number below `2 ^ 53` is a negative power of two. -/
theorem binade_unit {x : ℚ} (hpos : 0 < x) (hx : x < 2 ^ 53) :
    ∃ j : ℕ, (2 : ℚ) ^ (Int.log 2 x - 52) = 1 / 2 ^ j := by
  have he : Int.log 2 x < 53 := by
    apply (Int.lt_zpow_iff_log_lt (b := 2) (by norm_num) hpos).mp
    have : ((2 : ℕ) : ℚ) ^ (53 : ℤ) = 2 ^ 53 := by norm_cast
    rw [this]
    exact hx
  obtain ⟨j, hj⟩ : ∃ j : ℕ, Int.log 2 x - 52 = -(j : ℤ) := ⟨(52 - Int.log 2 x).toNat, by omega⟩
  exact ⟨j, by rw [hj, zpow_neg, zpow_natCast, one_div]⟩

theorem fl_le_of_le_nat (z : ℕ) {x : ℚ} (hxz : x ≤ (z : ℚ)) (hz : (z : ℚ) < 2 ^ 53) :
    fl x ≤ (z : ℚ) := by
  rcases le_or_lt x 0 with h0 | hpos
  · exact le_trans (fl_nonpos h0) (Nat.cast_nonneg z)
  · obtain ⟨j, hu⟩ := binade_unit hpos (lt_of_le_of_lt hxz hz)
    have h2 : (0 : ℚ) < 2 ^ j := pow_pos (by norm_num) j
    unfold fl
    rw [if_neg (ne_of_gt hpos), abs_of_pos hpos, hu]
    have hw : x / (1 / 2 ^ j) ≤ (((z * 2 ^ j : ℕ) : ℤ) : ℚ) := by
      rw [div_div_eq_mul_div, div_one]
      push_cast
      exact mul_le_mul_of_nonneg_right hxz (le_of_lt h2)
    have hr := roundTiesEven_le hw
    have hr' : (roundTiesEven (x / (1 / 2 ^ j)) : ℚ) ≤ ((z * 2 ^ j : ℕ) : ℚ) := by
      exact_mod_cast hr
    calc (roundTiesEven (x / (1 / 2 ^ j)) : ℚ) * (1 / 2 ^ j)
        ≤ ((z * 2 ^ j : ℕ) : ℚ) * (1 / 2 ^ j) :=
          mul_le_mul_of_nonneg_right hr' (by positivity)
      _ = (z : ℚ) := by
          push_cast
          field_simp

theorem fl_intCast (z : ℤ) (hz : |(z : ℚ)| < 2 ^ 53) : fl (z : ℚ) = (z : ℚ) := by
  rcases eq_or_ne z 0 with h0 | hne
  · subst h0
    simp [fl_zero]
  · have hzq : (z : ℚ) ≠ 0 := by exact_mod_cast hne
    have hpos : (0 : ℚ) < |(z : ℚ)| := abs_pos.mpr hzq
    obtain ⟨j, hu⟩ := binade_unit hpos hz
    unfold fl
    rw [if_neg hzq, hu]
    have hq : (z : ℚ) / (1 / 2 ^ j) = ((z * 2 ^ j : ℤ) : ℚ) := by
      rw [div_div_eq_mul_div, div_one]
      push_cast
      ring
    rw [hq, roundTiesEven_intCast]
    push_cast
    field_simp

theorem roundTiesEven_eq_of_near {y : ℚ} {m : ℤ} (h1 : (m : ℚ) - 1 / 2 < y)
    (h2 : y < (m : ℚ) + 1 / 2) : roundTiesEven y = m := by
  have hr := roundTiesEven_sub_le y
  rw [abs_le] at hr
  have h3 : ((roundTiesEven y : ℤ) : ℚ) < ((m + 1 : ℤ) : ℚ) := by push_cast; linarith
  have h4 : ((m : ℤ) : ℚ) < ((roundTiesEven y + 1 : ℤ) : ℚ) := by push_cast; linarith
  have h3' : roundTiesEven y < m + 1 := by exact_mod_cast h3
  have h4' : m < roundTiesEven y + 1 := by exact_mod_cast h4
  omega

theorem log_abs_eq {x : ℚ} {e : ℤ} (hlo : (2 : ℚ) ^ e ≤ |x|) (hhi : |x| < (2 : ℚ) ^ (e + 1)) :
    Int.log 2 |x| = e := by
  have hpos : 0 < |x| := lt_of_lt_of_le (zpow_pos (by norm_num) e) hlo
  apply le_antisymm
  · have := (Int.lt_zpow_iff_log_lt (b := 2) (by norm_num) hpos (x := e + 1)).mp (by simpa using hhi)
    omega
  · exact (Int.zpow_le_iff_le_log (b := 2) (by norm_num) hpos).mp (by simpa using hlo)

/-- The rounding of a positive number, from its binade and the nearest multiple of the
unit of that binade. -/
theorem fl_eq_of_pos {x : ℚ} {e m : ℤ} (hlo : (2 : ℚ) ^ e ≤ x) (hhi : x < (2 : ℚ) ^ (e + 1))
    (h1 : (m : ℚ) - 1 / 2 < x / (2 : ℚ) ^ (e - 52))
    (h2 : x / (2 : ℚ) ^ (e - 52) < (m : ℚ) + 1 / 2) :
    fl x = (m : ℚ) * (2 : ℚ) ^ (e - 52) := by
  have hpos : 0 < x := lt_of_lt_of_le (zpow_pos (by norm_num) e) hlo
  have habs : |x| = x := abs_of_pos hpos
  have hlog : Int.log 2 |x| = e := log_abs_eq (by rw [habs]; exact hlo) (by rw [habs]; exact hhi)
  unfold fl
  rw [if_neg (ne_of_gt hpos), hlog, roundTiesEven_eq_of_near h1 h2]

/-- The rounding of a negative number, from its binade and the nearest multiple of the
unit of that binade. -/
theorem fl_eq_of_neg {x : ℚ} {e m : ℤ} (hlo : (2 : ℚ) ^ e ≤ -x) (hhi : -x < (2 : ℚ) ^ (e + 1))
    (h1 : (m : ℚ) - 1 / 2 < x / (2 : ℚ) ^ (e - 52))
    (h2 : x / (2 : ℚ) ^ (e - 52) < (m : ℚ) + 1 / 2) :
    fl x = (m : ℚ) * (2 : ℚ) ^ (e - 52) := by
  have hpos : 0 < -x := lt_of_lt_of_le (zpow_pos (by norm_num) e) hlo
  have hneg : x < 0 := by linarith
  have habs : |x| = -x := abs_of_neg hneg
  have hlog : Int.log 2 |x| = e := log_abs_eq (by rw [habs]; exact hlo) (by rw [habs]; exact hhi)
  unfold fl
  rw [if_neg (ne_of_lt hneg), hlog, roundTiesEven_eq_of_near h1 h2]

theorem abs_fl_ge_of_large {x : ℚ} (h : (2 : ℚ) ^ 53 ≤ |x|) : (2 : ℚ) ^ 53 ≤ |fl x| := by
  have hpos : 0 < |x| := lt_of_lt_of_le (by norm_num) h
  have hne : x ≠ 0 := abs_pos.mp hpos
  have he : (53 : ℤ) ≤ Int.log 2 |x| := by
    apply (Int.zpow_le_iff_le_log (b := 2) (by norm_num) hpos).mp
    have : ((2 : ℕ) : ℚ) ^ (53 : ℤ) = 2 ^ 53 := by norm_cast
    rw [this]
    exact h
  have hlog : (2 : ℚ) ^ (Int.log 2 |x|) ≤ |x| := by
    have := Int.zpow_log_le_self (b := 2) (by norm_num) hpos
    simpa using this
  have hu : (0 : ℚ) < (2 : ℚ) ^ (Int.log 2 |x| - 52) := zpow_pos (by norm_num) _
  have hsplit : (2 : ℚ) ^ (Int.log 2 |x|) = (2 : ℚ) ^ (Int.log 2 |x| - 52) * 2 ^ 52 := by
    rw [zpow_sub₀ (by norm_num : (2 : ℚ) ≠ 0)]
    have h52 : ((2 : ℚ) ^ (52 : ℤ)) = 2 ^ 52 := by norm_cast
    rw [h52]
    field_simp
  have hbig : (2 : ℚ) ^ 53 ≤ (2 : ℚ) ^ (Int.log 2 |x|) := by
    have h53 : ((2 : ℚ) ^ (53 : ℤ)) = 2 ^ 53 := by norm_cast
    rw [← h53]
    exact zpow_le_zpow_right₀ (by norm_num) he
  unfold fl
  rw [if_neg hne]
  generalize (2 : ℚ) ^ (Int.log 2 |x| - 52) = u at hu hsplit
  rw [hsplit] at hlog hbig
  rw [abs_mul, abs_of_pos hu]
  have hq : (2 : ℚ) ^ 52 ≤ |x / u| := by
    rw [abs_div, abs_of_pos hu, le_div_iff₀ hu]
    linarith
  have hm : (2 : ℚ) ^ 52 ≤ |(roundTiesEven (x / u) : ℚ)| := by
    rcases le_abs.mp hq with hp | hn
    · have h0 : (((2 ^ 52 : ℤ)) : ℚ) ≤ x / u := by push_cast; exact hp
      have h1 := le_roundTiesEven h0
      have h2 : (((2 ^ 52 : ℤ)) : ℚ) ≤ (roundTiesEven (x / u) : ℚ) := by exact_mod_cast h1
      push_cast at h2
      exact le_trans h2 (le_abs_self _)
    · have h0 : x / u ≤ (((-(2 ^ 52) : ℤ)) : ℚ) := by push_cast; linarith
      have h1 := roundTiesEven_le h0
      have h2 : (roundTiesEven (x / u) : ℚ) ≤ (((-(2 ^ 52) : ℤ)) : ℚ) := by exact_mod_cast h1
      push_cast at h2
      have h3 : (2 : ℚ) ^ 52 ≤ -(roundTiesEven (x / u) : ℚ) := by linarith
      exact le_trans h3 (neg_le_abs _)
  calc (2 : ℚ) ^ 53 ≤ u * 2 ^ 52 := hbig
    _ = 2 ^ 52 * u := by ring
    _ ≤ |(roundTiesEven (x / u) : ℚ)| * u := mul_le_mul_of_nonneg_right hm (le_of_lt hu)

theorem roundTiesEven_of_tie (f m : ℤ) {y : ℚ} (hy : y = (f : ℚ) + 1 / 2)
    (hm : (if f % 2 = 0 then f else f + 1) = m) : roundTiesEven y = m := by
  have hfl : ⌊y⌋ = f := by
    rw [Int.floor_eq_iff, hy]
    constructor <;> linarith
  unfold roundTiesEven
  rw [hfl, hy]
  have h1 : ¬ ((f : ℚ) + 1 / 2 - (f : ℚ) < 1 / 2) := by
    rw [add_sub_cancel_left]
    exact lt_irrefl _
  have h2 : ¬ ((1 : ℚ) / 2 < (f : ℚ) + 1 / 2 - (f : ℚ)) := by
    rw [add_sub_cancel_left]
    exact lt_irrefl _
  rw [if_neg h1, if_neg h2]
  exact hm

/-! ## Lemmas on the result mapping -/

theorem ProbMap.get_set_same (m : ProbMap) (k : String) (r : ProbabilityResult) :
    (ProbMap.set m k r).get k = some r := by
  induction m with
  | nil => simp [ProbMap.set, ProbMap.get]
  | cons hd tl ih =>
    obtain ⟨k', r'⟩ := hd
    by_cases h : k' = k
    · simp [ProbMap.set, ProbMap.get, h]
    · simp [ProbMap.set, ProbMap.get, h, ih]

theorem ProbMap.get_set_other (m : ProbMap) {k j : String} (r : ProbabilityResult) (h : j ≠ k) :
    (ProbMap.set m k r).get j = m.get j := by
  induction m with
  | nil => simp [ProbMap.set, ProbMap.get, Ne.symm h]
  | cons hd tl ih =>
    obtain ⟨k', r'⟩ := hd
    by_cases hk : k' = k
    · subst hk
      simp [ProbMap.set, ProbMap.get, Ne.symm h]
    · by_cases hj : k' = j
      · subst hj
        simp [ProbMap.set, ProbMap.get, h]
      · simp [ProbMap.set, ProbMap.get, hk, hj, ih]

/-- The loop of `calculateProbabilities` from an accumulator `m`. -/
theorem get_foldl_analyze (st : DashboardState) (data : List WeatherRecord)
    (cfgs : List VariableConfig) (vars : List String) (m : ProbMap) (v : String) :
    (vars.foldl
      (fun probabilities variableId =>
        match analyzeVariable st data cfgs variableId with
        | none => probabilities
        | some r => ProbMap.set probabilities variableId r) m).get v
      = if v ∈ vars ∧ (analyzeVariable st data cfgs v).isSome
        then analyzeVariable st data cfgs v else m.get v := by
  induction vars generalizing m with
  | nil => simp
  | cons w ws ih =>
    rw [List.foldl_cons, ih]
    by_cases hv : v ∈ ws ∧ (analyzeVariable st data cfgs v).isSome
    · have : v ∈ w :: ws ∧ (analyzeVariable st data cfgs v).isSome :=
        ⟨List.mem_cons_of_mem _ hv.1, hv.2⟩
      rw [if_pos hv, if_pos this]
    · rw [if_neg hv]
      by_cases hw : v = w
      · subst hw
        cases ha : analyzeVariable st data cfgs v with
        | none => simp [ha]
        | some r => simp [ha, ProbMap.get_set_same]
      · have hne : ¬ (v ∈ w :: ws ∧ (analyzeVariable st data cfgs v).isSome) := by
          rintro ⟨hmem, hs⟩
          rcases List.mem_cons.mp hmem with h | h
          · exact hw h
          · exact hv ⟨h, hs⟩
        rw [if_neg hne]
        cases ha : analyzeVariable st data cfgs w with
        | none => rfl
        | some r => exact ProbMap.get_set_other m r hw

theorem get_calculateProbabilities (st : DashboardState) (data : List WeatherRecord)
    (vars : List String) (cfgs : List VariableConfig) (v : String) :
    (calculateProbabilities st data vars cfgs).get v
      = if v ∈ vars then analyzeVariable st data cfgs v else none := by
  unfold calculateProbabilities
  rw [get_foldl_analyze]
  by_cases hv : v ∈ vars
  · cases ha : analyzeVariable st data cfgs v <;> simp [hv, ProbMap.get]
  · simp [hv, ProbMap.get]
/-! ## calculateProbabilities: the statistics of one variable -/

theorem analyzeVariable_of_config {st : DashboardState} {data : List WeatherRecord}
    {cfgs : List VariableConfig} {v : String} {c : VariableConfig}
    (hc : cfgs.find? (fun x => decide (x.id = v)) = some c) (hne : sampleValues data v ≠ []) :
    analyzeVariable st data cfgs v = some (resultFor st (sampleValues data v) v c) := by
  have hlen : (sampleValues data v).length > 0 := List.length_pos.mpr hne
  unfold analyzeVariable
  rw [hc]
  simp only [hlen, if_true]

theorem notNullish_number (x : JSNum) : JSVal.notNullish (JSVal.number x) = true := by
  simp [JSVal.notNullish]

theorem sampleValues_eq_map (data : List WeatherRecord) (v : String) (field : WeatherRecord → JSVal)
    (hf : ∀ d, sampleOf v d = JSVal.number (field d).toNumber) :
    sampleValues data v = data.map (fun d => JSVal.number (field d).toNumber) := by
  unfold sampleValues
  have : sampleOf v = fun d => JSVal.number (field d).toNumber := funext hf
  rw [this, List.filter_eq_self]
  intro a ha
  obtain ⟨d, _, rfl⟩ := List.mem_map.mp ha
  exact notNullish_number _

theorem ratio_times_hundred (k n : ℕ) (hn : 0 < n) :
    JSNum.mul (JSNum.div (JSNum.ofNat k) (JSNum.ofNat n)) (JSNum.fin 100)
      = JSNum.fin (fl (fl ((k : ℚ) / (n : ℚ)) * 100)) := by
  have hn0 : (n : ℚ) ≠ 0 := by exact_mod_cast (Nat.pos_iff_ne_zero.mp hn)
  simp only [JSNum.ofNat, JSNum.div, hn0, if_false, JSNum.mul]

theorem exceedanceProbability_resultFor (st : DashboardState) (values : List JSVal)
    (v : String) (c : VariableConfig) (hlen : 0 < values.length) :
    (resultFor st values v c).exceedanceProbability
      = JSNum.fin (fl (fl (((values.filter
          (fun x => JSNum.gt x.toNumber (thresholdFor st v c))).length : ℚ)
            / (values.length : ℚ)) * 100)) :=
  ratio_times_hundred _ _ hlen

theorem fl_one : fl 1 = 1 := by
  have h := fl_intCast 1 (by norm_num)
  simpa using h

theorem fl_hundred : fl 100 = 100 := by
  have h := fl_intCast 100 (by norm_num)
  simpa using h

/-- The value `(k / n) * 100` of binary64 arithmetic, for `k <= n`: between 0 and 100, and
within the relative distance `2 ^ -51` of the exact `100 * k / n`. -/
theorem fl_ratio_bounds (k n : ℕ) (hn : 0 < n) (hk : k ≤ n) :
    0 ≤ fl (fl ((k : ℚ) / (n : ℚ)) * 100) ∧ fl (fl ((k : ℚ) / (n : ℚ)) * 100) ≤ 100 ∧
    |fl (fl ((k : ℚ) / (n : ℚ)) * 100) - 100 * (k : ℚ) / (n : ℚ)|
      ≤ 100 * (k : ℚ) / (n : ℚ) / 2 ^ 51 := by
  have hq : (0 : ℚ) < (n : ℚ) := by exact_mod_cast hn
  have hk' : (k : ℚ) ≤ (n : ℚ) := by exact_mod_cast hk
  have hq0 : (0 : ℚ) ≤ (k : ℚ) / (n : ℚ) := div_nonneg (Nat.cast_nonneg _) (le_of_lt hq)
  have hq1 : (k : ℚ) / (n : ℚ) ≤ ((1 : ℕ) : ℚ) := by
    rw [Nat.cast_one, div_le_one hq]
    exact hk'
  have ha0 : 0 ≤ fl ((k : ℚ) / (n : ℚ)) := fl_nonneg hq0
  have ha1 : fl ((k : ℚ) / (n : ℚ)) ≤ ((1 : ℕ) : ℚ) := fl_le_of_le_nat 1 hq1 (by norm_num)
  have hb1 : fl ((k : ℚ) / (n : ℚ)) * 100 ≤ ((100 : ℕ) : ℚ) := by
    push_cast at ha1 ⊢
    linarith
  refine ⟨fl_nonneg (mul_nonneg ha0 (by norm_num)), ?_, ?_⟩
  · have := fl_le_of_le_nat 100 hb1 (by norm_num)
    exact_mod_cast this
  · have he : 100 * (k : ℚ) / (n : ℚ) = 100 * ((k : ℚ) / (n : ℚ)) := by ring
    rw [he]
    generalize (k : ℚ) / (n : ℚ) = q at hq0 ha0 ⊢
    rcases eq_or_lt_of_le hq0 with h0 | hpos
    · rw [← h0]
      simp [fl_zero]
    · have h1 := fl_le hpos
      have h2 := fl_ge hpos
      have h53 : ((2 : ℚ) ^ 53) = 9007199254740992 := by norm_num
      have h51 : ((2 : ℚ) ^ 51) = 2251799813685248 := by norm_num
      rw [h53] at h1 h2
      have hapos : 0 < fl q * 100 := by linarith
      have h3 := fl_le hapos
      have h4 := fl_ge hapos
      rw [h53] at h3 h4
      rw [h51, abs_le]
      constructor <;> linarith

/-- C1 (as the code computes it): for a selected variable with a configuration and a
non-empty sample sequence of `n` values, of which `k` are numbers strictly greater than the
threshold (no comparison with `NaN` holds), `calculateProbabilities` stores a result whose
`values` is that sequence and whose `exceedanceProbability` is `(k / n) * 100` as binary64
arithmetic evaluates it: the quotient rounded, then the product rounded. That number lies
between 0 and 100, is within the relative distance `2 ^ -51` of `100 * k / n`, and is 0 for
`k = 0` and 100 for `k = n`. -/
theorem exceedanceProbability_binary64 (st : DashboardState) (data : List WeatherRecord)
    (vars : List String) (cfgs : List VariableConfig) (v : String) (c : VariableConfig)
    (hv : v ∈ vars) (hc : cfgs.find? (fun x => decide (x.id = v)) = some c)
    (hne : sampleValues data v ≠ []) :
    ∃ (r : ProbabilityResult) (k : ℕ),
      (calculateProbabilities st data vars cfgs).get v = some r ∧
      r.values = sampleValues data v ∧
      k = (r.values.filter (fun x =>
            match x.toNumber, r.threshold with
            | JSNum.fin a, JSNum.fin T => decide (T < a)
            | _, _ => false)).length ∧
      k ≤ r.values.length ∧
      r.exceedanceProbability
        = JSNum.fin (fl (fl ((k : ℚ) / (r.values.length : ℚ)) * 100)) ∧
      0 ≤ fl (fl ((k : ℚ) / (r.values.length : ℚ)) * 100) ∧
      fl (fl ((k : ℚ) / (r.values.length : ℚ)) * 100) ≤ 100 ∧
      |fl (fl ((k : ℚ) / (r.values.length : ℚ)) * 100)
          - 100 * (k : ℚ) / (r.values.length : ℚ)|
        ≤ 100 * (k : ℚ) / (r.values.length : ℚ) / 2 ^ 51 ∧
      (k = 0 → r.exceedanceProbability = JSNum.fin 0) ∧
      (k = r.values.length → r.exceedanceProbability = JSNum.fin 100) := by
  have hlen : 0 < (sampleValues data v).length := List.length_pos.mpr hne
  have hq : ((sampleValues data v).length : ℚ) ≠ 0 := by exact_mod_cast (ne_of_gt hlen)
  obtain ⟨r, hr⟩ : ∃ r, r = resultFor st (sampleValues data v) v c := ⟨_, rfl⟩
  have hvals : r.values = sampleValues data v := by rw [hr]; rfl
  have hthr : r.threshold = thresholdFor st v c := by rw [hr]; rfl
  have hle : ((sampleValues data v).filter
      (fun x => JSNum.gt x.toNumber (thresholdFor st v c))).length
        ≤ (sampleValues data v).length := List.length_filter_le _ _
  have hex : r.exceedanceProbability
      = JSNum.fin (fl (fl ((((sampleValues data v).filter
          (fun x => JSNum.gt x.toNumber (thresholdFor st v c))).length : ℚ)
            / ((sampleValues data v).length : ℚ)) * 100)) := by
    rw [hr]
    exact exceedanceProbability_resultFor st (sampleValues data v) v c hlen
  have hb := fl_ratio_bounds _ _ hlen hle
  refine ⟨r, ((sampleValues data v).filter
      (fun x => JSNum.gt x.toNumber (thresholdFor st v c))).length, ?_, hvals, ?_, ?_⟩
  · rw [get_calculateProbabilities, if_pos hv, hr]
    exact analyzeVariable_of_config hc hne
  · rw [hvals, hthr]
    congr 1
  · rw [hvals]
    refine ⟨hle, hex, hb.1, hb.2.1, hb.2.2, ?_, ?_⟩
    · intro h0
      rw [hex, h0]
      simp [fl_zero]
    · intro hn
      rw [hex, hn, div_self hq, fl_one, one_mul, fl_hundred]

theorem fl_half : fl (1 / 2) = 1 / 2 := by
  rw [fl_eq_of_pos (e := -1) (m := 4503599627370496) (by norm_num) (by norm_num)
    (by norm_num) (by norm_num)]
  norm_num

theorem fl_fifty : fl 50 = 50 := by
  have h := fl_intCast 50 (by norm_num)
  simpa using h

theorem exceedanceProbability_binary64_witness :
    ("temperature" ∈ ["temperature"] ∧
      weatherVariables.find? (fun x => decide (x.id = "temperature")) = some temperatureConfig ∧
      sampleValues [recordOfTemperature (JSVal.ofRat 40), recordOfTemperature (JSVal.ofRat 30)]
        "temperature" ≠ []) ∧
    ∃ r : ProbabilityResult,
      (calculateProbabilities initialState
        [recordOfTemperature (JSVal.ofRat 40), recordOfTemperature (JSVal.ofRat 30)]
        ["temperature"] weatherVariables).get "temperature" = some r ∧
      r.threshold = JSNum.fin 35 ∧
      r.values = [JSVal.number (JSNum.fin 40), JSVal.number (JSNum.fin 30)] ∧
      r.exceedanceProbability = JSNum.fin 50 :=
  ⟨⟨by decide, by decide, by decide⟩, by
    obtain ⟨r, k, hget, hvals, hk, _, hp, _⟩ :=
      exceedanceProbability_binary64 initialState
        [recordOfTemperature (JSVal.ofRat 40), recordOfTemperature (JSVal.ofRat 30)]
        ["temperature"] weatherVariables "temperature"
        temperatureConfig (by decide) (by decide) (by decide)
    have hget' := hget
    rw [get_calculateProbabilities, if_pos (by simp),
      analyzeVariable_of_config (c := temperatureConfig) (by decide) (by decide)] at hget'
    have hr : r = resultFor initialState (sampleValues
        [recordOfTemperature (JSVal.ofRat 40), recordOfTemperature (JSVal.ofRat 30)]
        "temperature") "temperature" temperatureConfig := (Option.some.inj hget').symm
    have hthr : r.threshold = JSNum.fin 35 := by
      rw [hr]
      simp [resultFor, thresholdFor, initialState, initialStateAt, initialThresholds,
        JSVal.orElse, JSVal.ofRat, JSVal.toNumber]
    have hvals' : r.values = [JSVal.number (JSNum.fin 40), JSVal.number (JSNum.fin 30)] := by
      rw [hvals, sampleValues_eq_map _ _ (fun d => d.temperature) (fun d => by simp [sampleOf])]
      simp [recordOfTemperature, JSVal.ofRat, JSVal.toNumber]
    have hk1 : k = 1 := by
      rw [hk, hvals', hthr]
      simp [JSVal.toNumber]
      norm_num
    refine ⟨r, hget, hthr, hvals', ?_⟩
    rw [hp, hk1, hvals']
    norm_num [fl_half, fl_fifty]⟩

/-- C1 fails as stated: with the temperatures 36, 1 and 2 and the threshold 35, one value
of three exceeds the threshold and the stored `exceedanceProbability` is `(1 / 3) * 100` as
binary64 arithmetic evaluates it, 33.33333333333333 (`2345624805922133 / 2 ^ 46`), which is
neither `100 * 1 / 3` nor the double nearest to it, 33.333333333333336
(`4691249611844267 / 2 ^ 47`). -/
theorem exceedanceProbability_one_third :
    ∃ r : ProbabilityResult,
      (calculateProbabilities initialState
        [recordOfTemperature (JSVal.ofRat 36), recordOfTemperature (JSVal.ofRat 1),
         recordOfTemperature (JSVal.ofRat 2)]
        ["temperature"] weatherVariables).get "temperature" = some r ∧
      r.threshold = JSNum.fin 35 ∧
      r.values = [JSVal.number (JSNum.fin 36), JSVal.number (JSNum.fin 1),
        JSVal.number (JSNum.fin 2)] ∧
      r.exceedanceProbability = JSNum.fin (2345624805922133 / 70368744177664) ∧
      r.exceedanceProbability ≠ JSNum.fin (100 * 1 / 3) ∧
      fl (100 * 1 / 3) = 4691249611844267 / 140737488355328 ∧
      r.exceedanceProbability ≠ JSNum.fin (fl (100 * 1 / 3)) := by
  have hvals : sampleValues
      [recordOfTemperature (JSVal.ofRat 36), recordOfTemperature (JSVal.ofRat 1),
        recordOfTemperature (JSVal.ofRat 2)] "temperature"
      = [JSVal.number (JSNum.fin 36), JSVal.number (JSNum.fin 1),
        JSVal.number (JSNum.fin 2)] := by
    rw [sampleValues_eq_map _ _ (fun d => d.temperature) (fun d => by simp [sampleOf])]
    simp [recordOfTemperature, JSVal.ofRat, JSVal.toNumber]
  have hthr : thresholdFor initialState "temperature" temperatureConfig = JSNum.fin 35 := by
    simp [thresholdFor, initialState, initialStateAt, initialThresholds,
      JSVal.orElse, JSVal.ofRat, JSVal.toNumber]
  have h1 : fl ((1 : ℚ) / 3) = 6004799503160661 / 18014398509481984 := by
    rw [fl_eq_of_pos (e := -2) (m := 6004799503160661) (by norm_num) (by norm_num)
      (by norm_num) (by norm_num)]
    norm_num
  have h2 : fl ((6004799503160661 : ℚ) / 18014398509481984 * 100)
      = 2345624805922133 / 70368744177664 := by
    rw [fl_eq_of_pos (e := 5) (m := 4691249611844266) (by norm_num) (by norm_num)
      (by norm_num) (by norm_num)]
    norm_num
  have hp : (resultFor initialState [JSVal.number (JSNum.fin 36), JSVal.number (JSNum.fin 1),
      JSVal.number (JSNum.fin 2)] "temperature" temperatureConfig).exceedanceProbability
      = JSNum.fin (2345624805922133 / 70368744177664) := by
    rw [exceedanceProbability_resultFor _ _ _ _ (by simp), hthr]
    have hk : (([JSVal.number (JSNum.fin 36), JSVal.number (JSNum.fin 1),
        JSVal.number (JSNum.fin 2)].filter
          (fun x => JSNum.gt x.toNumber (JSNum.fin 35))).length : ℚ) = 1 := by
      simp [JSVal.toNumber, JSNum.gt]
      norm_num
    rw [hk]
    simp only [List.length_cons, List.length_nil]
    norm_num
    rw [h1, h2]
  have h3 : fl ((100 : ℚ) * 1 / 3) = 4691249611844267 / 140737488355328 := by
    rw [fl_eq_of_pos (e := 5) (m := 4691249611844267) (by norm_num) (by norm_num)
      (by norm_num) (by norm_num)]
    norm_num
  refine ⟨_, ?_, hthr, rfl, hp, ?_, h3, ?_⟩
  · rw [get_calculateProbabilities, if_pos (by simp),
      analyzeVariable_of_config (c := temperatureConfig) (by decide) (by rw [hvals]; simp),
      hvals]
  · rw [hp]
    intro h
    rw [JSNum.fin.injEq] at h
    norm_num at h
  · rw [hp, h3]
    intro h
    rw [JSNum.fin.injEq] at h
    norm_num at h

/-! ## getDatasetForStats: the seasonal window -/

/-- The window test on integers: binary64 arithmetic is exact on the integers that
matter, and a difference too large to be exact is far outside the first disjunct and
inside the second. -/
theorem inWindow_int (t d : ℤ) :
    inWindow (JSNum.fin (t : ℚ)) (JSNum.fin (d : ℚ)) = true ↔
      (|d - t| ≤ 30 ∨ 335 ≤ |d - t|) := by
  have hz : (d : ℚ) - (t : ℚ) = ((d - t : ℤ) : ℚ) := by push_cast; ring
  simp only [inWindow, JSNum.sub, JSNum.abs, JSNum.le, seasonalWindowDays, Bool.or_eq_true,
    decide_eq_true_eq, hz]
  rcases lt_or_le |((d - t : ℤ) : ℚ)| ((2 : ℚ) ^ 53) with hsmall | hlarge
  · rw [fl_intCast _ hsmall]
    have habs : |((d - t : ℤ) : ℚ)| = ((|d - t| : ℤ) : ℚ) := by push_cast; rfl
    rw [habs] at hsmall ⊢
    have hw : (365 : ℚ) - ((|d - t| : ℤ) : ℚ) = ((365 - |d - t| : ℤ) : ℚ) := by push_cast; ring
    have hnn : (0 : ℤ) ≤ |d - t| := abs_nonneg _
    have hs' : |d - t| < 2 ^ 53 := by exact_mod_cast hsmall
    have hsm2 : |((365 - |d - t| : ℤ) : ℚ)| < 2 ^ 53 := by
      have : |(365 - |d - t| : ℤ)| < 2 ^ 53 := by
        rw [abs_lt]
        constructor <;> omega
      exact_mod_cast this
    rw [hw, fl_intCast _ hsm2]
    constructor
    · rintro (h | h)
      · left; exact_mod_cast h
      · right
        have : (365 - |d - t| : ℤ) ≤ 30 := by exact_mod_cast h
        omega
    · rintro (h | h)
      · left; exact_mod_cast h
      · right
        have : (365 - |d - t| : ℤ) ≤ 30 := by omega
        exact_mod_cast this
  · have hfl := abs_fl_ge_of_large hlarge
    have hneg : (365 : ℚ) - |fl ((d - t : ℤ) : ℚ)| ≤ 0 := by
      have : (365 : ℚ) ≤ 2 ^ 53 := by norm_num
      linarith
    have h1 := fl_nonpos hneg
    have hr : (335 : ℤ) ≤ |d - t| := by
      have habs : |((d - t : ℤ) : ℚ)| = ((|d - t| : ℤ) : ℚ) := by push_cast; rfl
      rw [habs] at hlarge
      have : ((335 : ℤ) : ℚ) ≤ ((|d - t| : ℤ) : ℚ) := by
        push_cast
        have : (335 : ℚ) ≤ 2 ^ 53 := by norm_num
        push_cast at hlarge
        linarith
      exact_mod_cast this
    constructor
    · intro _; right; exact hr
    · intro _; right; linarith

theorem inWindow_nan (target : JSNum) : inWindow target JSNum.nan = false := by
  cases target <;> simp [inWindow, JSNum.sub, JSNum.abs, JSNum.le]

theorem mem_getDatasetForStats_of_target (tza : ℤ → ℤ) (st : DashboardState) (n : JSNum)
    (data : List WeatherRecord) (r : WeatherRecord)
    (hs : st.useSeasonalWindow = true) (hd : st.selectedDate = SelectedDate.text n) :
    r ∈ getDatasetForStats tza st data ↔ r ∈ data ∧ keepRecord tza n r = true := by
  simp [getDatasetForStats, hs, hd, List.mem_filter]

/-- The quotient of `dayOfYear`: for a non-negative difference of less than `2 ^ 53`
milliseconds, the floor of the binary64 quotient by the milliseconds of a day is the
integer quotient, so that taking the quotient exactly loses nothing. -/
theorem floor_fl_div_msPerDay (x : ℕ) (hx : x < 2 ^ 53) :
    ⌊fl ((x : ℚ) / 86400000)⌋ = ((x / 86400000 : ℕ) : ℤ) := by
  rcases Nat.eq_zero_or_pos x with h0 | hpos
  · subst h0
    simp [fl_zero]
  · have hxq : (0 : ℚ) < (x : ℚ) := by exact_mod_cast hpos
    have hx53 : (x : ℚ) < 2 ^ 53 := by exact_mod_cast hx
    have hq : (0 : ℚ) < (x : ℚ) / 86400000 := by positivity
    have hdm := Nat.div_add_mod x 86400000
    have hmod := Nat.mod_lt x (by norm_num : 86400000 > 0)
    have hlow : ((x / 86400000 : ℕ) : ℚ) ≤ (x : ℚ) / 86400000 := by
      rw [le_div_iff₀ (by norm_num)]
      have : x / 86400000 * 86400000 ≤ x := Nat.div_mul_le_self x 86400000
      exact_mod_cast this
    have hup : (x : ℚ) / 86400000 ≤ ((x / 86400000 : ℕ) : ℚ) + 1 - 1 / 86400000 := by
      rw [div_le_iff₀ (by norm_num)]
      have h1 : x + 1 ≤ (x / 86400000 + 1) * 86400000 := by omega
      have h2 : ((x + 1 : ℕ) : ℚ) ≤ (((x / 86400000 + 1) * 86400000 : ℕ) : ℚ) := by
        exact_mod_cast h1
      push_cast at h2
      linarith
    have hq53 : (x : ℚ) / 86400000 < 2 ^ 53 := by
      rw [div_lt_iff₀ (by norm_num)]
      have : (2 : ℚ) ^ 53 ≤ 2 ^ 53 * 86400000 := by norm_num
      linarith
    have h1 := le_fl_of_nat (x / 86400000) hq hlow hq53
    have h2 := fl_le hq
    have h3 : (x : ℚ) / 86400000 / 2 ^ 53 < 1 / 86400000 := by
      rw [div_div, div_lt_div_iff₀ (by norm_num) (by norm_num)]
      have h53 : ((2 : ℚ) ^ 53) = 9007199254740992 := by norm_num
      rw [h53] at hx53 ⊢
      linarith
    rw [Int.floor_eq_iff, Int.cast_natCast]
    constructor
    · exact h1
    · linarith

theorem utcMidnight_sub_localDayZero (tza : ℤ → ℤ) (y m d : ℕ) (hy : 100 ≤ y) :
    utcMidnight y m d - localDayZero tza y
      = (ordinalDay y m d : ℤ) * msPerDay + tza (makeDay y 0 0 * msPerDay) := by
  have hyr : ¬ ((0 : ℤ) ≤ (y : ℤ) ∧ (y : ℤ) ≤ 99) := by omega
  unfold utcMidnight localDayZero
  simp only [hyr, if_false]
  unfold makeDay ordinalDay
  have h0 : daysBeforeMonth (inLeapYear (y : ℤ)) 0 = 0 := by simp [daysBeforeMonth]
  rw [h0]
  push_cast
  ring

theorem dayOfYear_of_offset (tza : ℤ → ℤ) (y m d : ℕ) (hy : 100 ≤ y) :
    dayOfYear tza (DateFormatted.ymd y m d)
      = JSNum.fin (((ordinalDay y m d : ℤ) + tza (makeDay y 0 0 * msPerDay) / msPerDay : ℤ) : ℚ) := by
  unfold dayOfYear
  simp only []
  rw [utcMidnight_sub_localDayZero tza y m d hy]
  have hms : msPerDay ≠ 0 := by decide
  rw [add_comm, Int.add_mul_ediv_right _ _ hms, add_comm]

theorem dayOfYear_east (tza : ℤ → ℤ) (y m d : ℕ) (hy : 100 ≤ y)
    (h0 : 0 ≤ tza (makeDay y 0 0 * msPerDay)) (h1 : tza (makeDay y 0 0 * msPerDay) < msPerDay) :
    dayOfYear tza (DateFormatted.ymd y m d) = JSNum.fin ((ordinalDay y m d : ℕ) : ℚ) := by
  rw [dayOfYear_of_offset tza y m d hy, Int.ediv_eq_zero_of_lt h0 h1]
  simp

theorem dayOfYear_west (tza : ℤ → ℤ) (y m d : ℕ) (hy : 100 ≤ y)
    (h0 : -msPerDay ≤ tza (makeDay y 0 0 * msPerDay)) (h1 : tza (makeDay y 0 0 * msPerDay) < 0) :
    dayOfYear tza (DateFormatted.ymd y m d) = JSNum.fin (((ordinalDay y m d : ℕ) : ℚ) - 1) := by
  rw [dayOfYear_of_offset tza y m d hy]
  have hdiv : tza (makeDay y 0 0 * msPerDay) / msPerDay = -1 := by
    have hms : (86400000 : ℤ) = msPerDay := by decide
    rw [← hms] at h0 h1 ⊢
    omega
  rw [hdiv]
  push_cast
  congr 1
  ring

theorem keepRecord_of_offset (tza : ℤ → ℤ) (t : ℤ) (r : WeatherRecord) (y m d : ℕ)
    (hr : r.dateFormatted = DateFormatted.ymd y m d) (hy : 100 ≤ y) :
    keepRecord tza (JSNum.fin (t : ℚ)) r = true ↔
      (|(ordinalDay y m d : ℤ) + tza (makeDay y 0 0 * msPerDay) / msPerDay - t| ≤ 30 ∨
        365 - |(ordinalDay y m d : ℤ) + tza (makeDay y 0 0 * msPerDay) / msPerDay - t| ≤ 30) := by
  have hk : keepRecord tza (JSNum.fin (t : ℚ)) r
      = inWindow (JSNum.fin (t : ℚ)) (dayOfYear tza (DateFormatted.ymd y m d)) := by
    simp [keepRecord, hr]
  rw [hk, dayOfYear_of_offset tza y m d hy, inWindow_int]
  constructor
  · rintro (h | h)
    · left; exact h
    · right; omega
  · rintro (h | h)
    · left; exact h
    · right; omega

theorem initialStateAt_selectedDate (t : ℤ) :
    (initialStateAt (t : ℚ)).selectedDate = SelectedDate.text (JSNum.fin (t : ℚ)) := rfl

/-- C2 at the failing input: on a machine whose local time is five hours behind UTC, with the
seasonal window enabled and target day 1, the record dated 2023-02-01 is kept by
`getDatasetForStats`, although its day-of-year is 32 and neither `|32 - 1| <= 30` nor
`365 - |32 - 1| <= 30` holds: the filter tests the value 31 it computes for the record.
Under UTC the same record is left out, and the record of 2023-12-31 (day-of-year 365) is kept
at target 1. For a year from 100 on and an integer target `t`, the record is kept if and only
if the test of the claim holds of its day-of-year when local time is UTC or up to a day ahead
of it, and if and only if it holds of the day-of-year less one when local time is behind UTC. -/
theorem seasonal_window_behind_utc :
    (ordinalDay 2023 2 1 = 32 ∧ ¬ (|(32 : ℤ) - 1| ≤ 30 ∨ 365 - |(32 : ℤ) - 1| ≤ 30)) ∧
    dayOfYear fiveHoursWest (DateFormatted.ymd 2023 2 1) = JSNum.fin 31 ∧
    recordDated (DateFormatted.ymd 2023 2 1) ∈
      getDatasetForStats fiveHoursWest (initialStateAt 1)
        [recordDated (DateFormatted.ymd 2023 2 1)] ∧
    recordDated (DateFormatted.ymd 2023 2 1) ∉
      getDatasetForStats utcZone (initialStateAt 1) [recordDated (DateFormatted.ymd 2023 2 1)] ∧
    (ordinalDay 2023 12 31 = 365 ∧
      recordDated (DateFormatted.ymd 2023 12 31) ∈
        getDatasetForStats utcZone (initialStateAt 1)
          [recordDated (DateFormatted.ymd 2023 12 31)]) ∧
    (∀ (tza : ℤ → ℤ) (st : DashboardState) (t : ℤ) (data : List WeatherRecord)
        (r : WeatherRecord) (y m d : ℕ),
      st.useSeasonalWindow = true → st.selectedDate = SelectedDate.text (JSNum.fin (t : ℚ)) →
      r.dateFormatted = DateFormatted.ymd y m d → 100 ≤ y →
      0 ≤ tza (makeDay y 0 0 * msPerDay) → tza (makeDay y 0 0 * msPerDay) < msPerDay →
      (r ∈ getDatasetForStats tza st data ↔
        r ∈ data ∧ (|(ordinalDay y m d : ℤ) - t| ≤ 30 ∨
          365 - |(ordinalDay y m d : ℤ) - t| ≤ 30))) ∧
    (∀ (tza : ℤ → ℤ) (st : DashboardState) (t : ℤ) (data : List WeatherRecord)
        (r : WeatherRecord) (y m d : ℕ),
      st.useSeasonalWindow = true → st.selectedDate = SelectedDate.text (JSNum.fin (t : ℚ)) →
      r.dateFormatted = DateFormatted.ymd y m d → 100 ≤ y →
      -msPerDay ≤ tza (makeDay y 0 0 * msPerDay) → tza (makeDay y 0 0 * msPerDay) < 0 →
      (r ∈ getDatasetForStats tza st data ↔
        r ∈ data ∧ (|(ordinalDay y m d : ℤ) - 1 - t| ≤ 30 ∨
          365 - |(ordinalDay y m d : ℤ) - 1 - t| ≤ 30))) := by
  have hgen : ∀ (tza : ℤ → ℤ) (st : DashboardState) (t : ℤ) (data : List WeatherRecord)
      (r : WeatherRecord) (y m d : ℕ) (k : ℤ),
      st.useSeasonalWindow = true → st.selectedDate = SelectedDate.text (JSNum.fin (t : ℚ)) →
      r.dateFormatted = DateFormatted.ymd y m d → 100 ≤ y →
      tza (makeDay y 0 0 * msPerDay) / msPerDay = k →
      (r ∈ getDatasetForStats tza st data ↔
        r ∈ data ∧ (|(ordinalDay y m d : ℤ) + k - t| ≤ 30 ∨
          365 - |(ordinalDay y m d : ℤ) + k - t| ≤ 30)) := by
    intro tza st t data r y m d k hs hd hr hy hk
    rw [mem_getDatasetForStats_of_target tza st _ data r hs hd,
      keepRecord_of_offset tza t r y m d hr hy, hk]
  have hwest : fiveHoursWest (makeDay 2023 0 0 * msPerDay) / msPerDay = -1 := by decide
  have hutc : utcZone (makeDay 2023 0 0 * msPerDay) / msPerDay = 0 := by decide
  have hfeb := hgen fiveHoursWest (initialStateAt 1) 1 [recordDated (DateFormatted.ymd 2023 2 1)]
    (recordDated (DateFormatted.ymd 2023 2 1)) 2023 2 1 (-1) rfl
    (initialStateAt_selectedDate 1) rfl (by norm_num) hwest
  have hfebU := hgen utcZone (initialStateAt 1) 1 [recordDated (DateFormatted.ymd 2023 2 1)]
    (recordDated (DateFormatted.ymd 2023 2 1)) 2023 2 1 0 rfl
    (initialStateAt_selectedDate 1) rfl (by norm_num) hutc
  have hdec := hgen utcZone (initialStateAt 1) 1 [recordDated (DateFormatted.ymd 2023 12 31)]
    (recordDated (DateFormatted.ymd 2023 12 31)) 2023 12 31 0 rfl
    (initialStateAt_selectedDate 1) rfl (by norm_num) hutc
  simp only [Int.cast_one] at hfeb hfebU hdec
  have o32 : ordinalDay 2023 2 1 = 32 := by decide
  have o365 : ordinalDay 2023 12 31 = 365 := by decide
  refine ⟨⟨o32, by decide⟩, by decide, ?_, ?_, ⟨o365, ?_⟩, ?_, ?_⟩
  · rw [hfeb, o32]
    exact ⟨by simp, by decide⟩
  · rw [hfebU, o32]
    rintro ⟨_, h⟩
    revert h
    decide
  · rw [hdec, o365]
    exact ⟨by simp, by decide⟩
  · intro tza st t data r y m d hs hd hr hy h0 h1
    have := hgen tza st t data r y m d 0 hs hd hr hy (Int.ediv_eq_zero_of_lt h0 h1)
    simpa using this
  · intro tza st t data r y m d hs hd hr hy h0 h1
    have hdiv : tza (makeDay y 0 0 * msPerDay) / msPerDay = -1 := by
      have hms : (86400000 : ℤ) = msPerDay := by decide
      rw [← hms] at h0 h1 ⊢
      omega
    have := hgen tza st t data r y m d (-1) hs hd hr hy hdiv
    simpa [sub_eq_add_neg] using this

/-- C7 (as the code has it): with any settings, a record whose `dateFormatted` is
missing (absent, `null` or the empty string) is kept by `getDatasetForStats`, whatever
the target day-of-year. -/
theorem missing_date_kept (tza : ℤ → ℤ) (st : DashboardState) (data : List WeatherRecord)
    (r : WeatherRecord) (hr : r.dateFormatted = DateFormatted.missing) (hmem : r ∈ data) :
    r ∈ getDatasetForStats tza st data := by
  unfold getDatasetForStats
  split_ifs
  · exact hmem
  · cases st.selectedDate with
    | empty => exact hmem
    | text n =>
      simp only [List.mem_filter]
      exact ⟨hmem, by simp [keepRecord, hr]⟩

theorem missing_date_kept_witness :
    ((recordDated DateFormatted.missing).dateFormatted = DateFormatted.missing ∧
      recordDated DateFormatted.missing ∈ [recordDated DateFormatted.missing]) ∧
    recordDated DateFormatted.missing ∈
      getDatasetForStats utcZone (initialStateAt 200) [recordDated DateFormatted.missing] :=
  ⟨⟨rfl, by simp⟩,
    missing_date_kept utcZone (initialStateAt 200) [recordDated DateFormatted.missing]
      (recordDated DateFormatted.missing) rfl (by simp)⟩

/-- C7 fails as stated: with the seasonal window enabled and target day 1, a record
whose `dateFormatted` is a non-empty string that is not a date is dropped. -/
theorem unparsable_date_dropped :
    (initialStateAt 1).useSeasonalWindow = true ∧
    recordDated DateFormatted.unparsable ∉
      getDatasetForStats utcZone (initialStateAt 1) [recordDated DateFormatted.unparsable] ∧
    getDatasetForStats utcZone (initialStateAt 1) [recordDated DateFormatted.unparsable] = [] := by
  refine ⟨rfl, ?_, ?_⟩ <;>
    simp [getDatasetForStats, initialStateAt, keepRecord, recordDated, dayOfYear, inWindow_nan]

/-! ## computeAutoThresholds: the percentile -/

theorem pctIndex_nonneg (p : ℚ) (n : ℕ) (hp : 0 ≤ p) (hn : 0 < n) : 0 ≤ pctIndex p n := by
  unfold pctIndex
  apply Int.floor_nonneg.mpr
  apply fl_nonneg
  apply mul_nonneg
  · exact fl_nonneg (div_nonneg hp (by norm_num))
  · have : (1 : ℚ) ≤ (n : ℚ) := by exact_mod_cast hn
    linarith

theorem pctIndex_lt_of_factor {p c : ℚ} (hc : fl (p / 100) = c) (hc0 : 0 ≤ c)
    (hc1 : c ≤ 9 / 10) (n : ℕ) (hn : 0 < n) : pctIndex p n < n := by
  unfold pctIndex
  rw [hc]
  have h1 : (1 : ℚ) ≤ (n : ℚ) := by exact_mod_cast hn
  rw [Int.floor_lt]
  rcases eq_or_lt_of_le (mul_nonneg hc0 (by linarith : (0 : ℚ) ≤ (n : ℚ) - 1)) with h0 | hpos
  · rw [← h0, fl_zero]
    push_cast
    linarith
  · have hle := fl_le hpos
    have hx : c * ((n : ℚ) - 1) ≤ 9 / 10 * ((n : ℚ) - 1) :=
      mul_le_mul_of_nonneg_right hc1 (by linarith)
    have h53 : c * ((n : ℚ) - 1) / 2 ^ 53 ≤ c * ((n : ℚ) - 1) / 16 := by
      apply div_le_div_of_nonneg_left (le_of_lt hpos) (by norm_num) (by norm_num)
    push_cast
    linarith

theorem pctIndex_seventy_lt (n : ℕ) (hn : 0 < n) : pctIndex 70 n < n :=
  pctIndex_lt_of_factor fl_seventy (by norm_num) (by norm_num) n hn

theorem pctIndex_eighty_lt (n : ℕ) (hn : 0 < n) : pctIndex 80 n < n :=
  pctIndex_lt_of_factor fl_eighty (by norm_num) (by norm_num) n hn

theorem sortAscending_sorted (s : List ℚ) : List.Sorted (fun a b => a ≤ b) (sortAscending s) :=
  List.sorted_insertionSort _ s

theorem sortAscending_perm (s : List ℚ) : List.Perm (sortAscending s) s :=
  List.perm_insertionSort _ s

theorem sortAscending_length (s : List ℚ) : (sortAscending s).length = s.length :=
  (sortAscending_perm s).length_eq

theorem pct_isPercentileOf (p : ℚ) (s : List ℚ) (hp : 0 ≤ p)
    (hlt : ∀ n : ℕ, 0 < n → pctIndex p n < n) : IsPercentileOf p s (pct s p) := by
  constructor
  · intro hs
    simp [pct, hs]
  · intro hs
    have hlen : 0 < s.length := List.length_pos.mpr hs
    have h0 := pctIndex_nonneg p s.length hp hlen
    have h1 := hlt s.length hlen
    have hi : (pctIndex p s.length).toNat < (sortAscending s).length := by
      rw [sortAscending_length]; omega
    refine ⟨(pctIndex p s.length).toNat, (sortAscending s)[(pctIndex p s.length).toNat], ?_, ?_, ?_, ?_⟩
    · omega
    · omega
    · exact List.getElem?_eq_getElem hi
    · have hne : s.length ≠ 0 := by omega
      simp only [pct, hne, if_false, arrayAt, sortAscending_length]
      rw [if_neg (by omega), List.getElem?_eq_getElem hi]

theorem pctIndex_eighty_five : pctIndex 80 5 = 3 := by
  unfold pctIndex
  rw [fl_eighty]
  rw [fl_eq_of_bounds (e := 1) (m := 7205759403792794) (by norm_num) (by norm_num) (by norm_num)]
  · rw [Int.floor_eq_iff]
    norm_num
  · unfold roundTiesEven
    norm_num

theorem pctIndex_seventy_ninetyOne : pctIndex 70 91 = 62 := by
  unfold pctIndex
  rw [fl_seventy]
  rw [fl_eq_of_bounds (e := 5) (m := 8866461766385663) (by norm_num) (by norm_num) (by norm_num)]
  · rw [Int.floor_eq_iff]
    norm_num
  · unfold roundTiesEven
    norm_num

theorem sortAscending_of_sorted {s : List ℚ} (h : List.Sorted (fun a b => a ≤ b) s) :
    sortAscending s = s :=
  List.Sorted.insertionSort_eq h

theorem finiteSeries_humidityRamp :
    finiteSeries humidityRamp (fun d => d.humidity) = (List.range 91).map (fun (i : ℕ) => (i : ℚ)) := by
  unfold finiteSeries humidityRamp
  rw [List.map_map, List.filterMap_map]
  have : (JSNum.finite? ∘ (fun d => JSVal.toNumber d.humidity) ∘
      fun i : ℕ => recordOfHumidity (JSVal.ofRat (i : ℚ))) = fun i : ℕ => some (i : ℚ) := by
    funext i
    rfl
  rw [this]
  exact List.filterMap_eq_map (fun (i : ℕ) => (i : ℚ)) ▸ rfl

theorem sorted_range_cast (n : ℕ) :
    List.Sorted (fun a b : ℚ => a ≤ b) ((List.range n).map (fun (i : ℕ) => (i : ℚ))) := by
  unfold List.Sorted
  rw [List.pairwise_map]
  exact (List.pairwise_lt_range n).imp (fun h => by exact_mod_cast le_of_lt h)

theorem pctIndex_eighty_exact (n : ℕ) (hn : 0 < n) (hmax : n ≤ 2 ^ 32) :
    pctIndex 80 n = ⌊((80 : ℚ) / 100) * ((n : ℚ) - 1)⌋ := by
  obtain ⟨k, rfl⟩ : ∃ k, n = k + 1 := ⟨n - 1, by omega⟩
  have hk : (k : ℚ) < 2 ^ 32 := by
    have : k < 2 ^ 32 := by omega
    exact_mod_cast this
  have hk0 : (0 : ℚ) ≤ (k : ℚ) := Nat.cast_nonneg k
  show pctIndex 80 (k + 1) = ⌊((80 : ℚ) / 100) * (((k + 1 : ℕ) : ℚ) - 1)⌋
  unfold pctIndex
  rw [fl_eighty]
  have hcast : ((k + 1 : ℕ) : ℚ) - 1 = (k : ℚ) := by push_cast; ring
  rw [hcast]
  rcases Nat.eq_zero_or_pos k with h0 | hkpos
  · subst h0
    simp [fl_zero]
  have hkq : (0 : ℚ) < (k : ℚ) := by exact_mod_cast hkpos
  have hxpos : (0 : ℚ) < 3602879701896397 / 4503599627370496 * (k : ℚ) := by positivity
  have hd1 : 4 * k / 5 * 5 ≤ 4 * k := by omega
  have hd2 : 4 * k ≤ 4 * k / 5 * 5 + 4 := by omega
  generalize 4 * k / 5 = q at hd1 hd2
  have hq1 : (q : ℚ) * 5 ≤ 4 * (k : ℚ) := by exact_mod_cast hd1
  have hq2 : 4 * (k : ℚ) ≤ (q : ℚ) * 5 + 4 := by exact_mod_cast hd2
  have hk' : (k : ℚ) < 4294967296 := by norm_num at hk; exact_mod_cast hk
  have hexact : (⌊((80 : ℚ) / 100) * (k : ℚ)⌋ : ℤ) = (q : ℤ) := by
    rw [Int.floor_eq_iff]
    constructor
    · rw [Int.cast_natCast]; linarith
    · rw [Int.cast_natCast]; linarith
  rw [hexact, Int.floor_eq_iff, Int.cast_natCast]
  constructor
  · have hlow : (q : ℚ) ≤ 3602879701896397 / 4503599627370496 * (k : ℚ) := by
      linarith
    have hup : 3602879701896397 / 4503599627370496 * (k : ℚ) < 2 ^ 53 := by
      norm_num
      linarith
    exact le_fl_of_nat _ hxpos hlow hup
  · have hle := fl_le hxpos
    norm_num at hle
    linarith

theorem pctIndex_seventy_near (n : ℕ) (hn : 0 < n) (hmax : n ≤ 2 ^ 32) :
    ⌊((70 : ℚ) / 100) * ((n : ℚ) - 1)⌋ - 1 ≤ pctIndex 70 n ∧
    pctIndex 70 n ≤ ⌊((70 : ℚ) / 100) * ((n : ℚ) - 1)⌋ ∧
    (¬ 10 ∣ (n - 1) → pctIndex 70 n = ⌊((70 : ℚ) / 100) * ((n : ℚ) - 1)⌋) := by
  obtain ⟨k, rfl⟩ : ∃ k, n = k + 1 := ⟨n - 1, by omega⟩
  have hk : k < 4294967296 := by norm_num at hmax; omega
  have hk' : (k : ℚ) < 4294967296 := by exact_mod_cast hk
  have hk0 : (0 : ℚ) ≤ (k : ℚ) := Nat.cast_nonneg k
  show ⌊((70 : ℚ) / 100) * (((k + 1 : ℕ) : ℚ) - 1)⌋ - 1 ≤ pctIndex 70 (k + 1) ∧
    pctIndex 70 (k + 1) ≤ ⌊((70 : ℚ) / 100) * (((k + 1 : ℕ) : ℚ) - 1)⌋ ∧
    (¬ 10 ∣ (k + 1 - 1) → pctIndex 70 (k + 1) = ⌊((70 : ℚ) / 100) * (((k + 1 : ℕ) : ℚ) - 1)⌋)
  unfold pctIndex
  rw [fl_seventy]
  have hcast : ((k + 1 : ℕ) : ℚ) - 1 = (k : ℚ) := by push_cast; ring
  rw [hcast, Nat.add_sub_cancel]
  rcases Nat.eq_zero_or_pos k with h0 | hkpos
  · subst h0
    simp [fl_zero]
  have hkq : (1 : ℚ) ≤ (k : ℚ) := by exact_mod_cast hkpos
  have hxpos : (0 : ℚ) < 3152519739159347 / 4503599627370496 * (k : ℚ) := by positivity
  have hup : 3152519739159347 / 4503599627370496 * (k : ℚ) < 2 ^ 53 := by
    norm_num
    linarith
  have hd1 : 7 * k / 10 * 10 ≤ 7 * k := by omega
  have hd2 : 7 * k ≤ 7 * k / 10 * 10 + 9 := by omega
  have hd3 : ¬ 10 ∣ k → 7 * k / 10 * 10 + 1 ≤ 7 * k := by omega
  have hd4 : 1 ≤ 7 * k / 10 ∨ k = 1 := by omega
  generalize 7 * k / 10 = q at hd1 hd2 hd3 hd4
  have hq1 : (q : ℚ) * 10 ≤ 7 * (k : ℚ) := by exact_mod_cast hd1
  have hq2 : 7 * (k : ℚ) ≤ (q : ℚ) * 10 + 9 := by exact_mod_cast hd2
  have hexact : (⌊((70 : ℚ) / 100) * (k : ℚ)⌋ : ℤ) = (q : ℤ) := by
    rw [Int.floor_eq_iff]
    constructor
    · rw [Int.cast_natCast]; linarith
    · rw [Int.cast_natCast]; linarith
  rw [hexact]
  have hle := fl_le hxpos
  norm_num at hle
  have hupper : fl (3152519739159347 / 4503599627370496 * (k : ℚ)) < (q : ℚ) + 1 := by
    linarith
  have hfloor_le : ⌊fl (3152519739159347 / 4503599627370496 * (k : ℚ))⌋ ≤ (q : ℤ) := by
    have : ⌊fl (3152519739159347 / 4503599627370496 * (k : ℚ))⌋ < (q : ℤ) + 1 := by
      rw [Int.floor_lt]
      push_cast
      exact hupper
    omega
  refine ⟨?_, hfloor_le, ?_⟩
  · rcases hd4 with h1 | h1
    · obtain ⟨j, rfl⟩ : ∃ j, q = j + 1 := ⟨q - 1, by omega⟩
      have hlow : (j : ℚ) ≤ 3152519739159347 / 4503599627370496 * (k : ℚ) := by
        push_cast at hq1
        linarith
      have := le_fl_of_nat j hxpos hlow hup
      have h2 : (j : ℤ) ≤ ⌊fl (3152519739159347 / 4503599627370496 * (k : ℚ))⌋ := by
        rw [Int.le_floor]
        exact_mod_cast this
      push_cast
      omega
    · have h2 : (0 : ℤ) ≤ ⌊fl (3152519739159347 / 4503599627370496 * (k : ℚ))⌋ :=
        Int.floor_nonneg.mpr (fl_nonneg (le_of_lt hxpos))
      have hq0 : q = 0 := by subst h1; omega
      subst hq0
      push_cast
      omega
  · intro hnd
    have hd3' : (q : ℚ) * 10 + 1 ≤ 7 * (k : ℚ) := by exact_mod_cast hd3 hnd
    have hlow : (q : ℚ) ≤ 3152519739159347 / 4503599627370496 * (k : ℚ) := by
      linarith
    have := le_fl_of_nat q hxpos hlow hup
    have h2 : (q : ℤ) ≤ ⌊fl (3152519739159347 / 4503599627370496 * (k : ℚ))⌋ := by
      rw [Int.le_floor]
      exact_mod_cast this
    omega

/-- C3 (as the code has it): for temperature (p = 80), humidity (p = 70), precipitation
(p = 80) and windSpeed (p = 80), `computeAutoThresholds` returns `undefined` when the
variable has no finite value and otherwise the element of the ascending sort of its `n`
finite values at the subscript `Math.floor((p/100) * (n - 1))` as binary64 arithmetic
evaluates it, a subscript within `0..n-1`, with no interpolation. For an array (at most
`2 ^ 32` elements) that subscript is the exact `floor((p/100) * (n - 1))` when p = 80,
and when p = 70 unless `n - 1` is a multiple of 10, where it is that floor or one less.
There is no airQuality entry; the values 10, 20, 30, 40, 50 at the 80th percentile
give 40. -/
theorem autoThresholds_percentile (data : List WeatherRecord) :
    IsPercentileOf 80 (finiteSeries data (fun d => d.temperature))
      (computeAutoThresholds data "temperature") ∧
    IsPercentileOf 70 (finiteSeries data (fun d => d.humidity))
      (computeAutoThresholds data "humidity") ∧
    IsPercentileOf 80 (finiteSeries data (fun d => d.precipitation))
      (computeAutoThresholds data "precipitation") ∧
    IsPercentileOf 80 (finiteSeries data (fun d => d.windSpeed))
      (computeAutoThresholds data "windSpeed") ∧
    computeAutoThresholds data "airQuality" = JSVal.undefined ∧
    (∀ s : List ℚ, List.Sorted (fun a b => a ≤ b) (sortAscending s) ∧
      List.Perm (sortAscending s) s) ∧
    (∀ n : ℕ, 0 < n → n ≤ 2 ^ 32 →
      pctIndex 80 n = ⌊((80 : ℚ) / 100) * ((n : ℚ) - 1)⌋) ∧
    (∀ n : ℕ, 0 < n → n ≤ 2 ^ 32 →
      ⌊((70 : ℚ) / 100) * ((n : ℚ) - 1)⌋ - 1 ≤ pctIndex 70 n ∧
      pctIndex 70 n ≤ ⌊((70 : ℚ) / 100) * ((n : ℚ) - 1)⌋ ∧
      (¬ 10 ∣ (n - 1) → pctIndex 70 n = ⌊((70 : ℚ) / 100) * ((n : ℚ) - 1)⌋)) ∧
    pct [10, 20, 30, 40, 50] 80 = JSVal.ofRat 40 := by
  refine ⟨?_, ?_, ?_, ?_, ?_, ?_, ?_, ?_, ?_⟩
  · exact pct_isPercentileOf 80 _ (by norm_num) pctIndex_eighty_lt
  · exact pct_isPercentileOf 70 _ (by norm_num) pctIndex_seventy_lt
  · exact pct_isPercentileOf 80 _ (by norm_num) pctIndex_eighty_lt
  · exact pct_isPercentileOf 80 _ (by norm_num) pctIndex_eighty_lt
  · simp [computeAutoThresholds]
  · exact fun s => ⟨sortAscending_sorted s, sortAscending_perm s⟩
  · exact pctIndex_eighty_exact
  · exact pctIndex_seventy_near
  · have hs : sortAscending [10, 20, 30, 40, 50] = [10, 20, 30, 40, 50] :=
      sortAscending_of_sorted (by simp [List.Sorted]; norm_num)
    simp [pct, hs, pctIndex_eighty_five, arrayAt]

/-- C3 fails as stated: for ninety-one records with humidities 0, 1, ..., 90 the code
returns 62, the element at subscript 62 of the sorted series, because the binary64
product `(70/100) * 90` is `62.99999999999999`, whereas the element at subscript
`floor((70/100) * (91 - 1)) = 63` is 63. -/
theorem percentile_subscript_rounds_down :
    (finiteSeries humidityRamp (fun d => d.humidity)).length = 91 ∧
    computeAutoThresholds humidityRamp "humidity" = JSVal.ofRat 62 ∧
    ⌊((70 : ℚ) / 100) * ((91 : ℚ) - 1)⌋ = 63 ∧
    (sortAscending (finiteSeries humidityRamp (fun d => d.humidity)))[63]? = some 63 ∧
    computeAutoThresholds humidityRamp "humidity" ≠ JSVal.ofRat 63 := by
  have hs : sortAscending ((List.range 91).map (fun (i : ℕ) => (i : ℚ)))
      = (List.range 91).map (fun (i : ℕ) => (i : ℚ)) :=
    sortAscending_of_sorted (sorted_range_cast 91)
  have hv : computeAutoThresholds humidityRamp "humidity" = JSVal.ofRat 62 := by
    simp [computeAutoThresholds, finiteSeries_humidityRamp, pct, hs,
      pctIndex_seventy_ninetyOne, arrayAt]
  refine ⟨?_, hv, ?_, ?_, ?_⟩
  · simp [finiteSeries_humidityRamp]
  · rw [Int.floor_eq_iff]
    norm_num
  · rw [finiteSeries_humidityRamp, hs]
    simp
  · rw [hv]
    simp [JSVal.ofRat]

/-! ## getConditionTags: the heat index -/

theorem JSNum.add_fin (a b : ℚ) :
    (JSNum.fin a + JSNum.fin b : JSNum) = JSNum.fin (fl (a + b)) := rfl

theorem JSNum.sub_fin (a b : ℚ) :
    (JSNum.fin a - JSNum.fin b : JSNum) = JSNum.fin (fl (a - b)) := rfl

theorem JSNum.mul_fin (a b : ℚ) :
    (JSNum.fin a * JSNum.fin b : JSNum) = JSNum.fin (fl (a * b)) := rfl

theorem JSNum.div_fin (a b : ℚ) (hb : b ≠ 0) :
    (JSNum.fin a / JSNum.fin b : JSNum) = JSNum.fin (fl (a / b)) := by
  show JSNum.div _ _ = _
  simp [JSNum.div, hb]

theorem JSNum.neg_fin (a : ℚ) : (-(JSNum.fin a) : JSNum) = JSNum.fin (-a) := rfl

theorem JSNum.ofNat_eq (n : ℕ) : (OfNat.ofNat n : JSNum) = JSNum.fin (n : ℚ) := rfl

theorem JSNum.ofScientific_eq (m : ℕ) (s : Bool) (e : ℕ) :
    (OfScientific.ofScientific m s e : JSNum)
      = JSNum.fin (fl (OfScientific.ofScientific m s e)) := rfl

/-- The heat index of two finite means: the expression of the code, each literal, product,
quotient, sum and difference rounded to binary64, in the order the code evaluates them. -/
theorem heatIndex_fin (tC rh tF : ℚ) (htF : tF = fl (fl (fl (tC * 9) / 5) + 32)) :
    heatIndex (JSNum.fin tC) (JSNum.fin rh) = JSNum.fin
      (fl (fl (fl (fl (fl (fl (fl (fl (-(fl 42.379) + fl (fl 2.04901523 * tF))
        + fl (fl 10.14333127 * rh))
        - fl (fl (fl 0.22475541 * tF) * rh))
        - fl (fl (fl 0.00683783 * tF) * tF))
        - fl (fl (fl 0.05481717 * rh) * rh))
        + fl (fl (fl (fl 0.00122874 * tF) * tF) * rh))
        + fl (fl (fl (fl 0.00085282 * tF) * rh) * rh))
        - fl (fl (fl (fl (fl 0.00000199 * tF) * tF) * rh) * rh))) := by
  unfold heatIndex
  simp only [JSNum.ofNat_eq, JSNum.ofScientific_eq, JSNum.neg_fin, JSNum.mul_fin,
    JSNum.div_fin _ _ (by norm_num : ((5 : ℕ) : ℚ) ≠ 0),
    JSNum.div_fin _ _ (by norm_num : (5 : ℚ) ≠ 0), JSNum.add_fin, JSNum.sub_fin,
    Nat.cast_ofNat, ← htF]

theorem fl_coefficient_constant : fl 42.379 = 5964314019010445 / 140737488355328 := by
  rw [fl_eq_of_pos (e := 5) (m := 5964314019010445) (by norm_num) (by norm_num)
    (by norm_num) (by norm_num)]
  norm_num

theorem fl_coefficient_t : fl 2.04901523 = 1153493028288059 / 562949953421312 := by
  rw [fl_eq_of_pos (e := 1) (m := 4613972113152236) (by norm_num) (by norm_num)
    (by norm_num) (by norm_num)]
  norm_num

theorem fl_coefficient_r : fl 10.14333127 = 5710187865983437 / 562949953421312 := by
  rw [fl_eq_of_pos (e := 3) (m := 5710187865983437) (by norm_num) (by norm_num)
    (by norm_num) (by norm_num)]
  norm_num

theorem fl_coefficient_tr : fl 0.22475541 = 1012208380725503 / 4503599627370496 := by
  rw [fl_eq_of_pos (e := (-3)) (m := 8097667045804024) (by norm_num) (by norm_num)
    (by norm_num) (by norm_num)]
  norm_num

theorem fl_coefficient_tt : fl 0.00683783 = 1970870312961459 / 288230376151711744 := by
  rw [fl_eq_of_pos (e := (-8)) (m := 7883481251845836) (by norm_num) (by norm_num)
    (by norm_num) (by norm_num)]
  norm_num

theorem fl_coefficient_rr : fl 0.05481717 = 1974996691084041 / 36028797018963968 := by
  rw [fl_eq_of_pos (e := (-5)) (m := 7899986764336164) (by norm_num) (by norm_num)
    (by norm_num) (by norm_num)]
  norm_num

theorem fl_coefficient_ttr : fl 0.00122874 = 5666563078282469 / 4611686018427387904 := by
  rw [fl_eq_of_pos (e := (-10)) (m := 5666563078282469) (by norm_num) (by norm_num)
    (by norm_num) (by norm_num)]
  norm_num

theorem fl_coefficient_trr : fl 0.00085282 = 3932938070235245 / 4611686018427387904 := by
  rw [fl_eq_of_pos (e := (-11)) (m := 7865876140470490) (by norm_num) (by norm_num)
    (by norm_num) (by norm_num)]
  norm_num

theorem fl_coefficient_ttrr : fl 0.00000199 = 4698754650455297 / 2361183241434822606848 := by
  rw [fl_eq_of_pos (e := (-19)) (m := 4698754650455297) (by norm_num) (by norm_num)
    (by norm_num) (by norm_num)]
  norm_num

/-- The heat index at the mean temperature 40 and the mean humidity 70, step by step in
binary64 arithmetic: `tF` is 104 and the index is 161.4041705400001. -/
theorem heatIndex_forty_seventy :
    fl (fl (fl (40 * 9) / 5) + 32) = 104 ∧
    heatIndex (JSNum.fin 40) (JSNum.fin 70)
      = JSNum.fin (1419726098242165 / 8796093022208) := by
  have h1 : fl (40 * 9) = 360 := by
    rw [fl_eq_of_pos (e := 8) (m := 6333186975989760) (by norm_num) (by norm_num)
      (by norm_num) (by norm_num)]
    norm_num
  have h2 : fl (360 / 5) = 72 := by
    rw [fl_eq_of_pos (e := 6) (m := 5066549580791808) (by norm_num) (by norm_num)
      (by norm_num) (by norm_num)]
    norm_num
  have h3 : fl (72 + 32) = 104 := by
    rw [fl_eq_of_pos (e := 6) (m := 7318349394477056) (by norm_num) (by norm_num)
      (by norm_num) (by norm_num)]
    norm_num
  have h4 : fl ((1153493028288059 / 562949953421312) * 104) = 58575817842753 / 274877906944 := by
    rw [fl_eq_of_bounds (e := 7) (m := 7497704683872384) (by norm_num) (by norm_num)
      (by norm_num) (roundTiesEven_of_tie 7497704683872383 7497704683872384 (by norm_num) (by decide))]
    norm_num
  have h5 : fl (-(5964314019010445 / 140737488355328) + (58575817842753 / 274877906944)) = 6006626179119773 / 35184372088832 := by
    rw [fl_eq_of_pos (e := 7) (m := 6006626179119773) (by norm_num) (by norm_num)
      (by norm_num) (by norm_num)]
    norm_num
  have h6 : fl ((5710187865983437 / 562949953421312) * 70) = 780689747302423 / 1099511627776 := by
    rw [fl_eq_of_pos (e := 9) (m := 6245517978419384) (by norm_num) (by norm_num)
      (by norm_num) (by norm_num)]
    norm_num
  have h7 : fl ((6006626179119773 / 35184372088832) + (780689747302423 / 1099511627776)) = 7747174523199327 / 8796093022208 := by
    rw [fl_eq_of_pos (e := 9) (m := 7747174523199327) (by norm_num) (by norm_num)
      (by norm_num) (by norm_num)]
    norm_num
  have h8 : fl ((1012208380725503 / 4503599627370496) * 104) = 3289677237357885 / 140737488355328 := by
    rw [fl_eq_of_bounds (e := 4) (m := 6579354474715770) (by norm_num) (by norm_num)
      (by norm_num) (roundTiesEven_of_tie 6579354474715769 6579354474715770 (by norm_num) (by decide))]
    norm_num
  have h9 : fl ((3289677237357885 / 140737488355328) * 70) = 7196168956720373 / 4398046511104 := by
    rw [fl_eq_of_pos (e := 10) (m := 7196168956720373) (by norm_num) (by norm_num)
      (by norm_num) (by norm_num)]
    norm_num
  have h10 : fl ((7747174523199327 / 8796093022208) - (7196168956720373 / 4398046511104)) = (-6645163390241419 / 8796093022208) := by
    rw [fl_eq_of_neg (e := 9) (m := (-6645163390241419)) (by norm_num) (by norm_num)
      (by norm_num) (by norm_num)]
    norm_num
  have h11 : fl ((1970870312961459 / 288230376151711744) * 104) = 3202664258562371 / 4503599627370496 := by
    rw [fl_eq_of_pos (e := (-1)) (m := 6405328517124742) (by norm_num) (by norm_num)
      (by norm_num) (by norm_num)]
    norm_num
  have h12 : fl ((3202664258562371 / 4503599627370496) * 104) = 5204329420163853 / 70368744177664 := by
    rw [fl_eq_of_pos (e := 6) (m := 5204329420163853) (by norm_num) (by norm_num)
      (by norm_num) (by norm_num)]
    norm_num
  have h13 : fl ((-6645163390241419 / 8796093022208) - (5204329420163853 / 70368744177664)) = (-7295704567761901 / 8796093022208) := by
    rw [fl_eq_of_neg (e := 9) (m := (-7295704567761901)) (by norm_num) (by norm_num)
      (by norm_num) (by norm_num)]
    norm_num
  have h14 : fl ((1974996691084041 / 36028797018963968) * 70) = 8640610523492679 / 2251799813685248 := by
    rw [fl_eq_of_pos (e := 1) (m := 8640610523492679) (by norm_num) (by norm_num)
      (by norm_num) (by norm_num)]
    norm_num
  have h15 : fl ((8640610523492679 / 2251799813685248) * 70) = 4725333880035059 / 17592186044416 := by
    rw [fl_eq_of_pos (e := 8) (m := 4725333880035059) (by norm_num) (by norm_num)
      (by norm_num) (by norm_num)]
    norm_num
  have h16 : fl ((-7295704567761901 / 8796093022208) - (4725333880035059 / 17592186044416)) = (-4829185753889715 / 4398046511104) := by
    rw [fl_eq_of_neg (e := 10) (m := (-4829185753889715)) (by norm_num) (by norm_num)
      (by norm_num) (by norm_num)]
    norm_num
  have h17 : fl ((5666563078282469 / 4611686018427387904) * 104) = 2302041250552253 / 18014398509481984 := by
    rw [fl_eq_of_pos (e := (-3)) (m := 4604082501104506) (by norm_num) (by norm_num)
      (by norm_num) (by norm_num)]
    norm_num
  have h18 : fl ((2302041250552253 / 18014398509481984) * 104) = 3740817032147411 / 281474976710656 := by
    rw [fl_eq_of_pos (e := 3) (m := 7481634064294822) (by norm_num) (by norm_num)
      (by norm_num) (by norm_num)]
    norm_num
  have h19 : fl ((3740817032147411 / 281474976710656) * 70) = 4091518628911231 / 4398046511104 := by
    rw [fl_eq_of_pos (e := 9) (m := 8183037257822462) (by norm_num) (by norm_num)
      (by norm_num) (by norm_num)]
    norm_num
  have h20 : fl ((-4829185753889715 / 4398046511104) + (4091518628911231 / 4398046511104)) = (-184416781244621 / 1099511627776) := by
    rw [fl_eq_of_neg (e := 7) (m := (-5901336999827872)) (by norm_num) (by norm_num)
      (by norm_num) (by norm_num)]
    norm_num
  have h21 : fl ((3932938070235245 / 4611686018427387904) * 104) = 6391024364132273 / 72057594037927936 := by
    rw [fl_eq_of_pos (e := (-4)) (m := 6391024364132273) (by norm_num) (by norm_num)
      (by norm_num) (by norm_num)]
    norm_num
  have h22 : fl ((6391024364132273 / 72057594037927936) * 70) = 3495091449134837 / 562949953421312 := by
    rw [fl_eq_of_pos (e := 2) (m := 6990182898269674) (by norm_num) (by norm_num)
      (by norm_num) (by norm_num)]
    norm_num
  have h23 : fl ((3495091449134837 / 562949953421312) * 70) = 955689068122807 / 2199023255552 := by
    rw [fl_eq_of_pos (e := 8) (m := 7645512544982456) (by norm_num) (by norm_num)
      (by norm_num) (by norm_num)]
    norm_num
  have h24 : fl ((-184416781244621 / 1099511627776) + (955689068122807 / 2199023255552)) = 586855505633565 / 2199023255552 := by
    rw [fl_eq_of_pos (e := 8) (m := 4694844045068520) (by norm_num) (by norm_num)
      (by norm_num) (by norm_num)]
    norm_num
  have h25 : fl ((4698754650455297 / 2361183241434822606848) * 104) = 3817738153494929 / 18446744073709551616 := by
    rw [fl_eq_of_pos (e := (-13)) (m := 7635476306989858) (by norm_num) (by norm_num)
      (by norm_num) (by norm_num)]
    norm_num
  have h26 : fl ((3817738153494929 / 18446744073709551616) * 104) = 1550956124857315 / 72057594037927936 := by
    rw [fl_eq_of_pos (e := (-6)) (m := 6203824499429260) (by norm_num) (by norm_num)
      (by norm_num) (by norm_num)]
    norm_num
  have h27 : fl ((1550956124857315 / 72057594037927936) * 70) = 6785433046250753 / 4503599627370496 := by
    rw [fl_eq_of_pos (e := 0) (m := 6785433046250753) (by norm_num) (by norm_num)
      (by norm_num) (by norm_num)]
    norm_num
  have h28 : fl ((6785433046250753 / 4503599627370496) * 70) = 7421567394336761 / 70368744177664 := by
    rw [fl_eq_of_pos (e := 6) (m := 7421567394336761) (by norm_num) (by norm_num)
      (by norm_num) (by norm_num)]
    norm_num
  have h29 : fl ((586855505633565 / 2199023255552) - (7421567394336761 / 70368744177664)) = 1419726098242165 / 8796093022208 := by
    rw [fl_eq_of_bounds (e := 7) (m := 5678904392968660) (by norm_num) (by norm_num)
      (by norm_num) (roundTiesEven_of_tie 5678904392968659 5678904392968660 (by norm_num) (by decide))]
    norm_num
  have htF : fl (fl (fl (40 * 9) / 5) + 32) = 104 := by
    rw [h1, h2, h3]
  refine ⟨htF, ?_⟩
  rw [heatIndex_fin _ _ _ htF.symm]
  rw [fl_coefficient_constant, fl_coefficient_t, fl_coefficient_r, fl_coefficient_tr,
    fl_coefficient_tt, fl_coefficient_rr, fl_coefficient_ttr, fl_coefficient_trr,
    fl_coefficient_ttrr, h4, h5, h6, h7, h8, h9, h10, h11, h12, h13, h14, h15, h16, h17, h18,
    h19, h20, h21, h22, h23, h24, h25, h26, h27, h28, h29]

/-- The heat index at the mean temperature 35.29884821719117 and the mean humidity 40, step
by step in binary64 arithmetic: `tF` is 95.53792679094411 and the index is
100.00000000000003. -/
theorem heatIndex_near_hundred :
    fl (fl (fl ((4967871239923433 / 140737488355328) * 9) / 5) + 32) = 3361441964808169 / 35184372088832 ∧
    heatIndex (JSNum.fin (4967871239923433 / 140737488355328)) (JSNum.fin 40)
      = JSNum.fin (3518437208883201 / 35184372088832) := by
  have h1 : fl ((4967871239923433 / 140737488355328) * 9) = 2794427572456931 / 8796093022208 := by
    rw [fl_eq_of_pos (e := 8) (m := 5588855144913862) (by norm_num) (by norm_num)
      (by norm_num) (by norm_num)]
    norm_num
  have h2 : fl ((2794427572456931 / 8796093022208) / 5) = 8942168231862179 / 140737488355328 := by
    rw [fl_eq_of_pos (e := 5) (m := 8942168231862179) (by norm_num) (by norm_num)
      (by norm_num) (by norm_num)]
    norm_num
  have h3 : fl ((8942168231862179 / 140737488355328) + 32) = 3361441964808169 / 35184372088832 := by
    rw [fl_eq_of_bounds (e := 6) (m := 6722883929616338) (by norm_num) (by norm_num)
      (by norm_num) (roundTiesEven_of_tie 6722883929616337 6722883929616338 (by norm_num) (by decide))]
    norm_num
  have h4 : fl ((1153493028288059 / 562949953421312) * (3361441964808169 / 35184372088832)) = 6887645780653063 / 35184372088832 := by
    rw [fl_eq_of_pos (e := 7) (m := 6887645780653063) (by norm_num) (by norm_num)
      (by norm_num) (by norm_num)]
    norm_num
  have h5 : fl (-(5964314019010445 / 140737488355328) + (6887645780653063 / 35184372088832)) = 1349141818975113 / 8796093022208 := by
    rw [fl_eq_of_pos (e := 7) (m := 5396567275900452) (by norm_num) (by norm_num)
      (by norm_num) (by norm_num)]
    norm_num
  have h6 : fl ((5710187865983437 / 562949953421312) * 40) = 111527106757489 / 274877906944 := by
    rw [fl_eq_of_pos (e := 8) (m := 7137734832479296) (by norm_num) (by norm_num)
      (by norm_num) (by norm_num)]
    norm_num
  have h7 : fl ((1349141818975113 / 8796093022208) + (111527106757489 / 274877906944)) = 4918009235214761 / 8796093022208 := by
    rw [fl_eq_of_pos (e := 9) (m := 4918009235214761) (by norm_num) (by norm_num)
      (by norm_num) (by norm_num)]
    norm_num
  have h8 : fl ((1012208380725503 / 4503599627370496) * (3361441964808169 / 35184372088832)) = 1511004533983331 / 70368744177664 := by
    rw [fl_eq_of_pos (e := 4) (m := 6044018135933324) (by norm_num) (by norm_num)
      (by norm_num) (by norm_num)]
    norm_num
  have h9 : fl ((1511004533983331 / 70368744177664) * 40) = 7555022669916655 / 8796093022208 := by
    rw [fl_eq_of_pos (e := 9) (m := 7555022669916655) (by norm_num) (by norm_num)
      (by norm_num) (by norm_num)]
    norm_num
  have h10 : fl ((4918009235214761 / 8796093022208) - (7555022669916655 / 8796093022208)) = (-1318506717350947 / 4398046511104) := by
    rw [fl_eq_of_neg (e := 8) (m := (-5274026869403788)) (by norm_num) (by norm_num)
      (by norm_num) (by norm_num)]
    norm_num
  have h11 : fl ((1970870312961459 / 288230376151711744) * (3361441964808169 / 35184372088832)) = 2942075994908703 / 4503599627370496 := by
    rw [fl_eq_of_pos (e := (-1)) (m := 5884151989817406) (by norm_num) (by norm_num)
      (by norm_num) (by norm_num)]
    norm_num
  have h12 : fl ((2942075994908703 / 4503599627370496) * (3361441964808169 / 35184372088832)) = 8783745031718179 / 140737488355328 := by
    rw [fl_eq_of_pos (e := 5) (m := 8783745031718179) (by norm_num) (by norm_num)
      (by norm_num) (by norm_num)]
    norm_num
  have h13 : fl ((-1318506717350947 / 4398046511104) - (8783745031718179 / 140737488355328)) = (-398249687398035 / 1099511627776) := by
    rw [fl_eq_of_neg (e := 8) (m := (-6371994998368560)) (by norm_num) (by norm_num)
      (by norm_num) (by norm_num)]
    norm_num
  have h14 : fl ((1974996691084041 / 36028797018963968) * 40) = 2468745863855051 / 1125899906842624 := by
    rw [fl_eq_of_bounds (e := 1) (m := 4937491727710102) (by norm_num) (by norm_num)
      (by norm_num) (roundTiesEven_of_tie 4937491727710102 4937491727710102 (by norm_num) (by decide))]
    norm_num
  have h15 : fl ((2468745863855051 / 1125899906842624) * 40) = 1542966164909407 / 17592186044416 := by
    rw [fl_eq_of_bounds (e := 6) (m := 6171864659637628) (by norm_num) (by norm_num)
      (by norm_num) (roundTiesEven_of_tie 6171864659637627 6171864659637628 (by norm_num) (by decide))]
    norm_num
  have h16 : fl ((-398249687398035 / 1099511627776) - (1542966164909407 / 17592186044416)) = (-7914961163277967 / 17592186044416) := by
    rw [fl_eq_of_neg (e := 8) (m := (-7914961163277967)) (by norm_num) (by norm_num)
      (by norm_num) (by norm_num)]
    norm_num
  have h17 : fl ((5666563078282469 / 4611686018427387904) * (3361441964808169 / 35184372088832)) = 4229466316634511 / 36028797018963968 := by
    rw [fl_eq_of_pos (e := (-4)) (m := 8458932633269022) (by norm_num) (by norm_num)
      (by norm_num) (by norm_num)]
    norm_num
  have h18 : fl ((4229466316634511 / 36028797018963968) * (3361441964808169 / 35184372088832)) = 6313663176927999 / 562949953421312 := by
    rw [fl_eq_of_pos (e := 3) (m := 6313663176927999) (by norm_num) (by norm_num)
      (by norm_num) (by norm_num)]
    norm_num
  have h19 : fl ((6313663176927999 / 562949953421312) * 40) = 7892078971159999 / 17592186044416 := by
    rw [fl_eq_of_pos (e := 8) (m := 7892078971159999) (by norm_num) (by norm_num)
      (by norm_num) (by norm_num)]
    norm_num
  have h20 : fl ((-7914961163277967 / 17592186044416) + (7892078971159999 / 17592186044416)) = (-1430137007373 / 1099511627776) := by
    rw [fl_eq_of_neg (e := 0) (m := (-5857841182199808)) (by norm_num) (by norm_num)
      (by norm_num) (by norm_num)]
    norm_num
  have h21 : fl ((3932938070235245 / 4611686018427387904) * (3361441964808169 / 35184372088832)) = 5871011709803935 / 72057594037927936 := by
    rw [fl_eq_of_pos (e := (-4)) (m := 5871011709803935) (by norm_num) (by norm_num)
      (by norm_num) (by norm_num)]
    norm_num
  have h22 : fl ((5871011709803935 / 72057594037927936) * 40) = 7338764637254919 / 2251799813685248 := by
    rw [fl_eq_of_pos (e := 1) (m := 7338764637254919) (by norm_num) (by norm_num)
      (by norm_num) (by norm_num)]
    norm_num
  have h23 : fl ((7338764637254919 / 2251799813685248) * 40) = 1146681974571081 / 8796093022208 := by
    rw [fl_eq_of_pos (e := 7) (m := 4586727898284324) (by norm_num) (by norm_num)
      (by norm_num) (by norm_num)]
    norm_num
  have h24 : fl ((-1430137007373 / 1099511627776) + (1146681974571081 / 8796093022208)) = 1135240878512097 / 8796093022208 := by
    rw [fl_eq_of_pos (e := 7) (m := 4540963514048388) (by norm_num) (by norm_num)
      (by norm_num) (by norm_num)]
    norm_num
  have h25 : fl ((4698754650455297 / 2361183241434822606848) * (3361441964808169 / 35184372088832)) = 3507103732842237 / 18446744073709551616 := by
    rw [fl_eq_of_pos (e := (-13)) (m := 7014207465684474) (by norm_num) (by norm_num)
      (by norm_num) (by norm_num)]
    norm_num
  have h26 : fl ((3507103732842237 / 18446744073709551616) * (3361441964808169 / 35184372088832)) = 5235334682445757 / 288230376151711744 := by
    rw [fl_eq_of_pos (e := (-6)) (m := 5235334682445757) (by norm_num) (by norm_num)
      (by norm_num) (by norm_num)]
    norm_num
  have h27 : fl ((5235334682445757 / 288230376151711744) * 40) = 1636042088264299 / 2251799813685248 := by
    rw [fl_eq_of_pos (e := (-1)) (m := 6544168353057196) (by norm_num) (by norm_num)
      (by norm_num) (by norm_num)]
    norm_num
  have h28 : fl ((1636042088264299 / 2251799813685248) * 40) = 8180210441321495 / 281474976710656 := by
    rw [fl_eq_of_pos (e := 4) (m := 8180210441321495) (by norm_num) (by norm_num)
      (by norm_num) (by norm_num)]
    norm_num
  have h29 : fl ((1135240878512097 / 8796093022208) - (8180210441321495 / 281474976710656)) = 3518437208883201 / 35184372088832 := by
    rw [fl_eq_of_pos (e := 6) (m := 7036874417766402) (by norm_num) (by norm_num)
      (by norm_num) (by norm_num)]
    norm_num
  have htF : fl (fl (fl ((4967871239923433 / 140737488355328) * 9) / 5) + 32) = 3361441964808169 / 35184372088832 := by
    rw [h1, h2, h3]
  refine ⟨htF, ?_⟩
  rw [heatIndex_fin _ _ _ htF.symm]
  rw [fl_coefficient_constant, fl_coefficient_t, fl_coefficient_r, fl_coefficient_tr,
    fl_coefficient_tt, fl_coefficient_rr, fl_coefficient_ttr, fl_coefficient_trr,
    fl_coefficient_ttrr, h4, h5, h6, h7, h8, h9, h10, h11, h12, h13, h14, h15, h16, h17, h18,
    h19, h20, h21, h22, h23, h24, h25, h26, h27, h28, h29]

theorem heatIndex_nan_left (rh : JSNum) : heatIndex JSNum.nan rh = JSNum.nan := by
  cases rh <;> rfl

theorem heatIndex_nan_right (tC : JSNum) : heatIndex tC JSNum.nan = JSNum.nan := by
  cases tC <;> rfl

theorem heatIndex_ge_iff (a b : JSNum) :
    JSNum.ge (heatIndex a b) 100 = true ↔
      ∃ tC rh tF : ℚ, a = JSNum.fin tC ∧ b = JSNum.fin rh ∧
        tF = fl (fl (fl (tC * 9) / 5) + 32) ∧
        100 ≤ fl (fl (fl (fl (fl (fl (fl (fl (-(fl 42.379) + fl (fl 2.04901523 * tF))
            + fl (fl 10.14333127 * rh))
            - fl (fl (fl 0.22475541 * tF) * rh))
            - fl (fl (fl 0.00683783 * tF) * tF))
            - fl (fl (fl 0.05481717 * rh) * rh))
            + fl (fl (fl (fl 0.00122874 * tF) * tF) * rh))
            + fl (fl (fl (fl 0.00085282 * tF) * rh) * rh))
            - fl (fl (fl (fl (fl 0.00000199 * tF) * tF) * rh) * rh)) := by
  cases a with
  | nan => simp [heatIndex_nan_left, JSNum.ge]
  | fin tC =>
    cases b with
    | nan => simp [heatIndex_nan_right, JSNum.ge]
    | fin rh =>
      rw [heatIndex_fin tC rh _ rfl]
      simp only [JSNum.ge, JSNum.ofNat_eq, Nat.cast_ofNat, decide_eq_true_eq, JSNum.fin.injEq]
      constructor
      · intro h
        exact ⟨tC, rh, _, rfl, rfl, rfl, h⟩
      · rintro ⟨tC1, rh1, tF, h1, h2, h3, h⟩
        rw [h1, h2, ← h3]
        exact h

theorem mem_uncomfortable (st : DashboardState) (pd : ProbMap)
    (hpd : st.probabilityData = some pd) :
    "very uncomfortable" ∈ getConditionTags st ↔
      ∃ t u : ProbabilityResult, pd.get "temperature" = some t ∧ pd.get "humidity" = some u ∧
        JSNum.ge (heatIndex t.mean u.mean) 100 = true := by
  unfold getConditionTags
  rw [hpd]
  simp only [List.mem_append]
  cases ht : pd.get "temperature" <;> cases hu : pd.get "humidity" <;>
    cases hw : pd.get "windSpeed" <;> cases hp : pd.get "precipitation" <;>
    simp

/-- C4 (as the code computes it): for every results mapping, `getConditionTags` includes
"very uncomfortable" if and only if temperature and humidity results are both present,
their means `tC` and `rh` are numbers, and `HI >= 100`, where `tF = tC * 9 / 5 + 32` and
`HI` is the expression of the claim as binary64 arithmetic evaluates it: each literal, each
product, the quotient, each sum and each difference rounded to the nearest double, from left
to right. For `tC = 40` and `rh = 70`, `tF` is 104, the heat index is 161.4041705400001
(`1419726098242165 / 2 ^ 43`), above 100, and the tag is produced. -/
theorem very_uncomfortable_binary64 (st : DashboardState) (pd : ProbMap)
    (hpd : st.probabilityData = some pd) :
    ("very uncomfortable" ∈ getConditionTags st ↔
      ∃ t u : ProbabilityResult, pd.get "temperature" = some t ∧ pd.get "humidity" = some u ∧
        ∃ tC rh tF : ℚ, t.mean = JSNum.fin tC ∧ u.mean = JSNum.fin rh ∧
          tF = fl (fl (fl (tC * 9) / 5) + 32) ∧
          100 ≤ fl (fl (fl (fl (fl (fl (fl (fl (-(fl 42.379) + fl (fl 2.04901523 * tF))
              + fl (fl 10.14333127 * rh))
              - fl (fl (fl 0.22475541 * tF) * rh))
              - fl (fl (fl 0.00683783 * tF) * tF))
              - fl (fl (fl 0.05481717 * rh) * rh))
              + fl (fl (fl (fl 0.00122874 * tF) * tF) * rh))
              + fl (fl (fl (fl 0.00085282 * tF) * rh) * rh))
              - fl (fl (fl (fl (fl 0.00000199 * tF) * tF) * rh) * rh))) ∧
    (fl (fl (fl (40 * 9) / 5) + 32) = 104 ∧
      heatIndex (JSNum.fin 40) (JSNum.fin 70)
        = JSNum.fin (1419726098242165 / 8796093022208) ∧
      (100 : ℚ) < 1419726098242165 / 8796093022208 ∧
      "very uncomfortable" ∈ getConditionTags hotHumidState) := by
  refine ⟨?_, heatIndex_forty_seventy.1, heatIndex_forty_seventy.2, by norm_num, ?_⟩
  · rw [mem_uncomfortable st pd hpd]
    constructor
    · rintro ⟨t, u, ht, hu, hge⟩
      exact ⟨t, u, ht, hu, (heatIndex_ge_iff _ _).mp hge⟩
    · rintro ⟨t, u, ht, hu, hex⟩
      exact ⟨t, u, ht, hu, (heatIndex_ge_iff _ _).mpr hex⟩
  · rw [mem_uncomfortable hotHumidState _ rfl]
    refine ⟨resultWithMean temperatureConfig 40, resultWithMean humidityConfig 70, rfl, rfl, ?_⟩
    show JSNum.ge (heatIndex (JSNum.fin 40) (JSNum.fin 70)) 100 = true
    rw [heatIndex_forty_seventy.2]
    simp only [JSNum.ge, JSNum.ofNat_eq, Nat.cast_ofNat, decide_eq_true_eq]
    norm_num

theorem very_uncomfortable_binary64_witness :
    hotHumidState.probabilityData
        = some [("temperature", resultWithMean temperatureConfig 40),
                ("humidity", resultWithMean humidityConfig 70)] ∧
    "very uncomfortable" ∈ getConditionTags hotHumidState :=
  ⟨rfl,
    (very_uncomfortable_binary64 hotHumidState
      [("temperature", resultWithMean temperatureConfig 40),
       ("humidity", resultWithMean humidityConfig 70)] rfl).2.2.2.2⟩

/-- C4 fails as stated: with the mean temperature 35.29884821719117
(`4967871239923433 / 2 ^ 47`) and the mean humidity 40, the Rothfusz polynomial of the
claim is below 100 at `tF = tC * 9 / 5 + 32`, and yet the tag "very uncomfortable" is
produced: the code evaluates the expression in binary64 arithmetic and obtains
100.00000000000003 (`3518437208883201 / 2 ^ 45`). -/
theorem heat_index_rounds_past_hundred :
    rothfusz (4967871239923433 / 140737488355328 * 9 / 5 + 32) 40 < 100 ∧
    heatIndex (JSNum.fin (4967871239923433 / 140737488355328)) (JSNum.fin 40)
      = JSNum.fin (3518437208883201 / 35184372088832) ∧
    (100 : ℚ) ≤ 3518437208883201 / 35184372088832 ∧
    warmDryState.probabilityData
      = some [("temperature",
                resultWithMean temperatureConfig (4967871239923433 / 140737488355328)),
              ("humidity", resultWithMean humidityConfig 40)] ∧
    "very uncomfortable" ∈ getConditionTags warmDryState := by
  refine ⟨?_, heatIndex_near_hundred.2, by norm_num, rfl, ?_⟩
  · unfold rothfusz
    norm_num
  · rw [mem_uncomfortable warmDryState _ rfl]
    refine ⟨resultWithMean temperatureConfig (4967871239923433 / 140737488355328),
      resultWithMean humidityConfig 40, rfl, rfl, ?_⟩
    show JSNum.ge (heatIndex (JSNum.fin (4967871239923433 / 140737488355328)) (JSNum.fin 40))
      100 = true
    rw [heatIndex_near_hundred.2]
    simp only [JSNum.ge, JSNum.ofNat_eq, Nat.cast_ofNat, decide_eq_true_eq]
    norm_num

/-! ## calculateProbabilities: records whose field is missing -/

/-- C5 at the failing input: for each of the four measured variables the array `values`
holds one sample per record, the coercion `Number` of its field, so that a record whose
temperature is `null` contributes the sample 0 and one whose temperature is absent
contributes `NaN`. -/
theorem sampleValues_keeps_missing_fields :
    (∀ data : List WeatherRecord,
      sampleValues data "temperature"
          = data.map (fun d => JSVal.number d.temperature.toNumber) ∧
      sampleValues data "humidity" = data.map (fun d => JSVal.number d.humidity.toNumber) ∧
      sampleValues data "precipitation"
          = data.map (fun d => JSVal.number d.precipitation.toNumber) ∧
      sampleValues data "windSpeed" = data.map (fun d => JSVal.number d.windSpeed.toNumber)) ∧
    sampleValues [recordOfTemperature (JSVal.ofRat 20), recordOfTemperature JSVal.null]
        "temperature" = [JSVal.number (JSNum.fin 20), JSVal.number (JSNum.fin 0)] ∧
    sampleValues [recordOfTemperature (JSVal.ofRat 20), recordOfTemperature JSVal.undefined]
        "temperature" = [JSVal.number (JSNum.fin 20), JSVal.number JSNum.nan] := by
  refine ⟨fun data => ⟨?_, ?_, ?_, ?_⟩, ?_, ?_⟩
  · exact sampleValues_eq_map data _ (fun d => d.temperature) (fun d => by simp [sampleOf])
  · exact sampleValues_eq_map data _ (fun d => d.humidity) (fun d => by simp [sampleOf])
  · exact sampleValues_eq_map data _ (fun d => d.precipitation) (fun d => by simp [sampleOf])
  · exact sampleValues_eq_map data _ (fun d => d.windSpeed) (fun d => by simp [sampleOf])
  · rw [sampleValues_eq_map _ _ (fun d => d.temperature) (fun d => by simp [sampleOf])]
    rfl
  · rw [sampleValues_eq_map _ _ (fun d => d.temperature) (fun d => by simp [sampleOf])]
    rfl

/-- C6 at the failing input: for a dataset whose only record has a `null` temperature,
`calculateProbabilities` stores a temperature entry, with mean 0, threshold 35,
exceedance probability 0 and the single sample 0. -/
theorem null_field_yields_zero_mean :
    (calculateProbabilities initialState [recordOfTemperature JSVal.null] ["temperature"]
        weatherVariables).get "temperature"
      = some { mean := JSNum.fin 0, threshold := JSNum.fin 35,
               exceedanceProbability := JSNum.fin 0,
               values := [JSVal.number (JSNum.fin 0)], config := temperatureConfig } := by
  rw [get_calculateProbabilities, if_pos (by simp)]
  rw [analyzeVariable_of_config (c := temperatureConfig) (by decide) (by decide)]
  rw [sampleValues_eq_map _ _ (fun d => d.temperature) (fun d => by simp [sampleOf])]
  simp [resultFor, recordOfTemperature, JSVal.toNumber, sumValues, JSNum.add, JSNum.div,
    JSNum.ofNat, exceedanceCount, thresholdFor, initialState, initialStateAt, initialThresholds,
    JSVal.orElse, JSVal.ofRat, JSNum.gt, JSNum.mul, temperatureConfig, fl_zero]

/-! ## The threshold of a result -/

theorem analyzeVariable_eq_some {st : DashboardState} {data : List WeatherRecord}
    {cfgs : List VariableConfig} {v : String} {r : ProbabilityResult}
    (h : analyzeVariable st data cfgs v = some r) :
    ∃ c : VariableConfig, cfgs.find? (fun x => decide (x.id = v)) = some c ∧
      sampleValues data v ≠ [] ∧ r = resultFor st (sampleValues data v) v c := by
  unfold analyzeVariable at h
  cases hc : cfgs.find? (fun x => decide (x.id = v)) with
  | none => rw [hc] at h; exact absurd h (by simp)
  | some c =>
    rw [hc] at h
    by_cases hlen : (sampleValues data v).length > 0
    · simp only [hlen, if_true, Option.some.injEq] at h
      exact ⟨c, rfl, List.length_pos.mp hlen, h.symm⟩
    · simp only [hlen, if_false] at h
      exact absurd h (by simp)

theorem get_calculateProbabilities_eq_some {st : DashboardState} {data : List WeatherRecord}
    {vars : List String} {cfgs : List VariableConfig} {v : String} {r : ProbabilityResult}
    (h : (calculateProbabilities st data vars cfgs).get v = some r) :
    v ∈ vars ∧ ∃ c : VariableConfig, cfgs.find? (fun x => decide (x.id = v)) = some c ∧
      sampleValues data v ≠ [] ∧ r = resultFor st (sampleValues data v) v c := by
  rw [get_calculateProbabilities] at h
  by_cases hv : v ∈ vars
  · rw [if_pos hv] at h
    exact ⟨hv, analyzeVariable_eq_some h⟩
  · rw [if_neg hv] at h
    exact absurd h (by simp)

theorem recalculate_of_data (tza : ℤ → ℤ) (st : DashboardState)
    (hd : st.historicalData ≠ []) :
    (recalculate tza st).probabilityData
        = some (calculateProbabilities st (getDatasetForStats tza st st.historicalData)
            (varsToUse st) weatherVariables) ∧
    (recalculate tza st).autoThresholdValues
        = (if st.useAutoThresholds
            then computeAutoThresholds (getDatasetForStats tza st st.historicalData)
            else st.autoThresholdValues) := by
  have hlen : st.historicalData.length ≠ 0 := fun h => hd (List.length_eq_zero.mp h)
  unfold recalculate
  rw [if_neg hlen]
  exact ⟨rfl, rfl⟩

theorem getDatasetForStats_fiveTemperatures (tza : ℤ → ℤ) (held : ThresholdSet) :
    getDatasetForStats tza (autoModeState held) fiveTemperatures = fiveTemperatures := by
  simp [getDatasetForStats, autoModeState, initialState, initialStateAt, fiveTemperatures,
    keepRecord, recordOfTemperature]

theorem finiteSeries_fiveTemperatures :
    finiteSeries fiveTemperatures (fun d => d.temperature) = [10, 20, 30, 40, 50] := by
  rfl

theorem storedThreshold_autoModeState (tza : ℤ → ℤ) (held : ThresholdSet) :
    storedTemperatureThreshold (recalculate tza (autoModeState held))
      = some ((held "temperature").orElse (JSVal.ofRat 35)).toNumber := by
  have hd : (autoModeState held).historicalData ≠ [] := by
    simp [autoModeState, fiveTemperatures]
  unfold storedTemperatureThreshold
  rw [(recalculate_of_data tza _ hd).1]
  simp only []
  rw [get_calculateProbabilities, if_pos (by simp [varsToUse, autoModeState])]
  have hh : (autoModeState held).historicalData = fiveTemperatures := rfl
  rw [hh, getDatasetForStats_fiveTemperatures]
  have hne : sampleValues fiveTemperatures "temperature" ≠ [] := by decide
  rw [analyzeVariable_of_config (c := temperatureConfig) (by decide) hne]
  simp [resultFor, thresholdFor, autoModeState, temperatureConfig]

/-- C8 at the failing input: in auto-threshold mode, with the temperatures 10, 20, 30, 40,
50 loaded, one run of the effect computes the auto threshold 40 and stores it for the
next render, but the temperature result it stores has the threshold read from the auto
thresholds held before the run: the default 35 when none is held, 5 when 5 is held. -/
theorem auto_threshold_from_earlier_pass :
    computeAutoThresholds
        (getDatasetForStats utcZone (autoModeState ThresholdSet.empty)
          (autoModeState ThresholdSet.empty).historicalData) "temperature" = JSVal.ofRat 40 ∧
    (recalculate utcZone (autoModeState ThresholdSet.empty)).autoThresholdValues "temperature"
        = JSVal.ofRat 40 ∧
    storedTemperatureThreshold (recalculate utcZone (autoModeState ThresholdSet.empty))
        = some (JSNum.fin 35) ∧
    storedTemperatureThreshold
        (recalculate utcZone (autoModeState (fun _ => JSVal.ofRat 5))) = some (JSNum.fin 5) := by
  have h40 : computeAutoThresholds fiveTemperatures "temperature" = JSVal.ofRat 40 := by
    have hs : sortAscending [10, 20, 30, 40, 50] = [10, 20, 30, 40, 50] :=
      sortAscending_of_sorted (by simp [List.Sorted]; norm_num)
    simp [computeAutoThresholds, finiteSeries_fiveTemperatures, pct, hs, pctIndex_eighty_five,
      arrayAt]
  have hd : (autoModeState ThresholdSet.empty).historicalData ≠ [] := by
    simp [autoModeState, fiveTemperatures]
  have hh : (autoModeState ThresholdSet.empty).historicalData = fiveTemperatures := rfl
  refine ⟨?_, ?_, ?_, ?_⟩
  · rw [hh, getDatasetForStats_fiveTemperatures, h40]
  · rw [(recalculate_of_data utcZone _ hd).2, hh, getDatasetForStats_fiveTemperatures]
    simp [autoModeState, h40]
  · rw [storedThreshold_autoModeState]
    simp [ThresholdSet.empty, JSVal.orElse, JSVal.ofRat, JSVal.toNumber]
  · rw [storedThreshold_autoModeState]
    simp [JSVal.orElse, JSVal.ofRat, JSVal.toNumber]

/-! ## computeAutoThresholds: records whose field is missing -/

theorem finiteSeries_cons (d : WeatherRecord) (data : List WeatherRecord)
    (field : WeatherRecord → JSVal) :
    finiteSeries (d :: data) field
      = (match (field d).toNumber.finite? with
          | some q => q :: finiteSeries data field
          | none => finiteSeries data field) := by
  unfold finiteSeries
  rw [List.map_cons, List.filterMap_cons]
  cases (field d).toNumber.finite? <;> rfl

theorem finiteSeries_append (xs ys : List WeatherRecord) (field : WeatherRecord → JSVal) :
    finiteSeries (xs ++ ys) field = finiteSeries xs field ++ finiteSeries ys field := by
  unfold finiteSeries
  rw [List.map_append, List.filterMap_append]

theorem pctIndex_one (p : ℚ) : pctIndex p 1 = 0 := by
  unfold pctIndex
  simp [fl_zero]

theorem pctIndex_eighty_two : pctIndex 80 2 = 0 := by
  unfold pctIndex
  rw [fl_eighty]
  rw [fl_eq_of_bounds (e := -1) (m := 7205759403792794) (by norm_num) (by norm_num) (by norm_num)]
  · rw [Int.floor_eq_iff]
    norm_num
  · unfold roundTiesEven
    norm_num

/-- C9 at the failing input: a record whose temperature is `null` enters the temperature
series of `computeAutoThresholds` as the value 0, so that adding such a record to a
dataset holding the single temperature 10 changes the auto threshold from 10 to 0;
a record whose field is absent (`undefined`) does leave the series unchanged. -/
theorem null_field_enters_series :
    finiteSeries [recordOfTemperature (JSVal.ofRat 10), recordOfTemperature JSVal.null]
        (fun d => d.temperature) = [10, 0] ∧
    computeAutoThresholds [recordOfTemperature (JSVal.ofRat 10)] "temperature"
        = JSVal.ofRat 10 ∧
    computeAutoThresholds
        [recordOfTemperature (JSVal.ofRat 10), recordOfTemperature JSVal.null] "temperature"
        = JSVal.ofRat 0 ∧
    (∀ (xs ys : List WeatherRecord) (d : WeatherRecord) (field : WeatherRecord → JSVal),
      field d = JSVal.undefined →
        finiteSeries (xs ++ d :: ys) field = finiteSeries (xs ++ ys) field) := by
  have h1 : finiteSeries [recordOfTemperature (JSVal.ofRat 10)] (fun d => d.temperature)
      = [10] := rfl
  have h2 : finiteSeries [recordOfTemperature (JSVal.ofRat 10), recordOfTemperature JSVal.null]
      (fun d => d.temperature) = [10, 0] := rfl
  have hs1 : sortAscending [10] = [10] := sortAscending_of_sorted (by simp [List.Sorted])
  have hs2 : sortAscending [10, 0] = [0, 10] := by
    simp [sortAscending, List.insertionSort, List.orderedInsert]
  refine ⟨h2, ?_, ?_, ?_⟩
  · simp [computeAutoThresholds, h1, pct, hs1, pctIndex_one, arrayAt]
  · simp [computeAutoThresholds, h2, pct, hs2, pctIndex_eighty_two, arrayAt]
  · intro xs ys d field hd
    rw [finiteSeries_append, finiteSeries_append, finiteSeries_cons, hd]
    rfl

/-! ## calculateProbabilities: the threshold and its fallback -/

theorem thresholdFor_eq_active (st : DashboardState) (v : String) (c : VariableConfig) :
    thresholdFor st v c = ((activeThresholds st v).orElse c.threshold).toNumber := by
  unfold thresholdFor activeThresholds
  cases st.useAutoThresholds <;> simp

theorem pct_nil (p : ℚ) : pct [] p = JSVal.undefined := by
  simp [pct]

/-- C10: the threshold of every result stored by `calculateProbabilities` is the entry of
the active ThresholdSet for that variable (the manual thresholds in manual mode, the auto
thresholds in auto mode), as a number, and it is the threshold of the variable's
configuration whenever that entry is absent (`undefined` or `null`), as happens for an
auto threshold when the series of the variable is empty. -/
theorem result_threshold_is_active_entry (st : DashboardState) (data : List WeatherRecord)
    (vars : List String) (cfgs : List VariableConfig) (v : String) (r : ProbabilityResult)
    (h : (calculateProbabilities st data vars cfgs).get v = some r) :
    cfgs.find? (fun x => decide (x.id = v)) = some r.config ∧
    (st.useAutoThresholds = false → activeThresholds st = st.thresholds) ∧
    (st.useAutoThresholds = true → activeThresholds st = st.autoThresholdValues) ∧
    (∀ x : JSNum, activeThresholds st v = JSVal.number x → r.threshold = x) ∧
    (activeThresholds st v = JSVal.undefined ∨ activeThresholds st v = JSVal.null →
      r.threshold = r.config.threshold.toNumber) ∧
    (∀ (base : List WeatherRecord),
      (finiteSeries base (fun d => d.temperature) = [] →
        computeAutoThresholds base "temperature" = JSVal.undefined) ∧
      (finiteSeries base (fun d => d.humidity) = [] →
        computeAutoThresholds base "humidity" = JSVal.undefined) ∧
      (finiteSeries base (fun d => d.precipitation) = [] →
        computeAutoThresholds base "precipitation" = JSVal.undefined) ∧
      (finiteSeries base (fun d => d.windSpeed) = [] →
        computeAutoThresholds base "windSpeed" = JSVal.undefined)) := by
  obtain ⟨_, c, hc, _, hr⟩ := get_calculateProbabilities_eq_some h
  have hcfg : r.config = c := by rw [hr]; rfl
  have hthr : r.threshold = ((activeThresholds st v).orElse c.threshold).toNumber := by
    rw [hr]
    exact thresholdFor_eq_active st v c
  refine ⟨by rw [hcfg]; exact hc, ?_, ?_, ?_, ?_, ?_⟩
  · intro hm
    simp [activeThresholds, hm]
  · intro ha
    simp [activeThresholds, ha]
  · intro x hx
    rw [hthr, hx]
    rfl
  · rintro (hx | hx) <;> rw [hthr, hx, hcfg] <;> rfl
  · intro base
    refine ⟨?_, ?_, ?_, ?_⟩ <;> intro hs <;> simp [computeAutoThresholds, hs, pct_nil]

theorem result_threshold_is_active_entry_witness :
    (calculateProbabilities initialState [recordOfTemperature (JSVal.ofRat 40)] ["temperature"]
        weatherVariables).get "temperature"
      = some (resultFor initialState
          (sampleValues [recordOfTemperature (JSVal.ofRat 40)] "temperature") "temperature"
          temperatureConfig) ∧
    weatherVariables.find? (fun x => decide (x.id = "temperature"))
      = some (resultFor initialState
          (sampleValues [recordOfTemperature (JSVal.ofRat 40)] "temperature") "temperature"
          temperatureConfig).config :=
  have h : (calculateProbabilities initialState [recordOfTemperature (JSVal.ofRat 40)]
      ["temperature"] weatherVariables).get "temperature"
      = some (resultFor initialState
          (sampleValues [recordOfTemperature (JSVal.ofRat 40)] "temperature") "temperature"
          temperatureConfig) := by
    rw [get_calculateProbabilities, if_pos (by simp)]
    exact analyzeVariable_of_config (by decide) (by decide)
  ⟨h, (result_threshold_is_active_entry initialState _ _ _ _ _ h).1⟩

/-! ## getConditionTags: the five tags -/

theorem JSNum.ge_iff (a b : JSNum) :
    JSNum.ge a b = true ↔ ∃ x y : ℚ, a = JSNum.fin x ∧ b = JSNum.fin y ∧ y ≤ x := by
  cases a <;> cases b <;> simp [JSNum.ge]

theorem JSNum.le_iff (a b : JSNum) :
    JSNum.le a b = true ↔ ∃ x y : ℚ, a = JSNum.fin x ∧ b = JSNum.fin y ∧ x ≤ y := by
  cases a <;> cases b <;> simp [JSNum.le]

theorem mem_very_hot (st : DashboardState) (pd : ProbMap) (hpd : st.probabilityData = some pd) :
    "very hot" ∈ getConditionTags st ↔
      ∃ t : ProbabilityResult, pd.get "temperature" = some t ∧
        JSNum.ge t.mean (st.thresholds "temperature").toNumber = true := by
  unfold getConditionTags
  rw [hpd]
  simp only [List.mem_append]
  cases ht : pd.get "temperature" <;> cases hu : pd.get "humidity" <;>
    cases hw : pd.get "windSpeed" <;> cases hp : pd.get "precipitation" <;>
    simp

theorem mem_very_cold (st : DashboardState) (pd : ProbMap) (hpd : st.probabilityData = some pd) :
    "very cold" ∈ getConditionTags st ↔
      ∃ t : ProbabilityResult, pd.get "temperature" = some t ∧ JSNum.le t.mean 10 = true := by
  unfold getConditionTags
  rw [hpd]
  simp only [List.mem_append]
  cases ht : pd.get "temperature" <;> cases hu : pd.get "humidity" <;>
    cases hw : pd.get "windSpeed" <;> cases hp : pd.get "precipitation" <;>
    simp

theorem mem_very_windy (st : DashboardState) (pd : ProbMap) (hpd : st.probabilityData = some pd) :
    "very windy" ∈ getConditionTags st ↔
      ∃ w : ProbabilityResult, pd.get "windSpeed" = some w ∧
        (JSNum.ge w.exceedanceProbability 40 = true ∨
          JSNum.ge w.mean (st.thresholds "windSpeed").toNumber = true) := by
  unfold getConditionTags
  rw [hpd]
  simp only [List.mem_append]
  cases ht : pd.get "temperature" <;> cases hu : pd.get "humidity" <;>
    cases hw : pd.get "windSpeed" <;> cases hp : pd.get "precipitation" <;>
    simp

theorem mem_very_wet (st : DashboardState) (pd : ProbMap) (hpd : st.probabilityData = some pd) :
    "very wet" ∈ getConditionTags st ↔
      ∃ r : ProbabilityResult, pd.get "precipitation" = some r ∧
        (JSNum.ge r.exceedanceProbability 40 = true ∨
          JSNum.ge r.mean (st.thresholds "precipitation").toNumber = true) := by
  unfold getConditionTags
  rw [hpd]
  simp only [List.mem_append]
  cases ht : pd.get "temperature" <;> cases hu : pd.get "humidity" <;>
    cases hw : pd.get "windSpeed" <;> cases hp : pd.get "precipitation" <;>
    simp

/-- C11: for every results mapping and manual thresholds, `getConditionTags` includes
"very hot" if and only if a temperature result is present and its mean is at least the
manual temperature threshold (as a number); a temperature mean of 36 with the manual
threshold 35 yields "very hot". -/
theorem very_hot_iff (st : DashboardState) (pd : ProbMap) (hpd : st.probabilityData = some pd) :
    ("very hot" ∈ getConditionTags st ↔
      ∃ t : ProbabilityResult, pd.get "temperature" = some t ∧
        ∃ m th : ℚ, t.mean = JSNum.fin m ∧
          (st.thresholds "temperature").toNumber = JSNum.fin th ∧ th ≤ m) ∧
    ((temperatureMeanState 36).thresholds "temperature" = JSVal.ofRat 35 ∧
      "very hot" ∈ getConditionTags (temperatureMeanState 36)) := by
  refine ⟨?_, rfl, ?_⟩
  · rw [mem_very_hot st pd hpd]
    constructor
    · rintro ⟨t, ht, hge⟩
      exact ⟨t, ht, (JSNum.ge_iff _ _).mp hge⟩
    · rintro ⟨t, ht, hex⟩
      exact ⟨t, ht, (JSNum.ge_iff _ _).mpr hex⟩
  · rw [mem_very_hot (temperatureMeanState 36) _ rfl]
    refine ⟨resultWithMean temperatureConfig 36, rfl, ?_⟩
    rw [JSNum.ge_iff]
    exact ⟨36, 35, rfl, rfl, by norm_num⟩

theorem very_hot_iff_witness :
    (temperatureMeanState 36).probabilityData
        = some [("temperature", resultWithMean temperatureConfig 36)] ∧
    "very hot" ∈ getConditionTags (temperatureMeanState 36) :=
  ⟨rfl,
    ((very_hot_iff (temperatureMeanState 36)
      [("temperature", resultWithMean temperatureConfig 36)] rfl).1).mpr
      ⟨resultWithMean temperatureConfig 36, rfl, 36, 35, rfl, rfl, by norm_num⟩⟩

/-- C12: for every results mapping, `getConditionTags` includes "very cold" if and only if
a temperature result is present and its mean is at most 10, whatever the threshold
settings of the state; a temperature mean of 5 yields "very cold". -/
theorem very_cold_iff (st : DashboardState) (pd : ProbMap) (hpd : st.probabilityData = some pd) :
    ("very cold" ∈ getConditionTags st ↔
      ∃ t : ProbabilityResult, pd.get "temperature" = some t ∧
        ∃ m : ℚ, t.mean = JSNum.fin m ∧ m ≤ 10) ∧
    (∀ st2 : DashboardState, st2.probabilityData = some pd →
      ("very cold" ∈ getConditionTags st2 ↔ "very cold" ∈ getConditionTags st)) ∧
    "very cold" ∈ getConditionTags (temperatureMeanState 5) := by
  have key : ∀ s : DashboardState, s.probabilityData = some pd →
      ("very cold" ∈ getConditionTags s ↔
        ∃ t : ProbabilityResult, pd.get "temperature" = some t ∧
          ∃ m : ℚ, t.mean = JSNum.fin m ∧ m ≤ 10) := by
    intro s hs
    rw [mem_very_cold s pd hs]
    constructor
    · rintro ⟨t, ht, hle⟩
      obtain ⟨x, y, hx, hy, hxy⟩ := (JSNum.le_iff _ _).mp hle
      have hy10 : y = 10 := by
        have h10 : (10 : JSNum) = JSNum.fin 10 := rfl
        rw [h10] at hy
        simp only [JSNum.fin.injEq] at hy
        exact hy.symm
      exact ⟨t, ht, x, hx, by rw [← hy10]; exact hxy⟩
    · rintro ⟨t, ht, m, hm, hle⟩
      exact ⟨t, ht, (JSNum.le_iff _ _).mpr ⟨m, 10, hm, rfl, hle⟩⟩
  refine ⟨key st hpd, ?_, ?_⟩
  · intro st2 h2
    rw [key st2 h2, key st hpd]
  · rw [mem_very_cold (temperatureMeanState 5) _ rfl]
    refine ⟨resultWithMean temperatureConfig 5, rfl, ?_⟩
    rw [JSNum.le_iff]
    exact ⟨5, 10, rfl, rfl, by norm_num⟩

theorem very_cold_iff_witness :
    (temperatureMeanState 5).probabilityData
        = some [("temperature", resultWithMean temperatureConfig 5)] ∧
    "very cold" ∈ getConditionTags (temperatureMeanState 5) :=
  ⟨rfl,
    (very_cold_iff (temperatureMeanState 5)
      [("temperature", resultWithMean temperatureConfig 5)] rfl).2.2⟩

theorem JSNum.ge_forty_iff (a : JSNum) :
    JSNum.ge a 40 = true ↔ ∃ p : ℚ, a = JSNum.fin p ∧ 40 ≤ p := by
  cases a with
  | nan => simp [JSNum.ge]
  | fin q =>
    have h40 : (40 : JSNum) = JSNum.fin 40 := rfl
    rw [h40]
    simp [JSNum.ge]

/-- C13: for every results mapping, `getConditionTags` includes "very windy" if and only
if a windSpeed result is present and either its exceedanceProbability is at least 40 or
its mean is at least the manual windSpeed threshold, and it includes "very wet" if and
only if a precipitation result is present and either its exceedanceProbability is at
least 40 or its mean is at least the manual precipitation threshold. -/
theorem very_windy_very_wet_iff (st : DashboardState) (pd : ProbMap)
    (hpd : st.probabilityData = some pd) :
    ("very windy" ∈ getConditionTags st ↔
      ∃ w : ProbabilityResult, pd.get "windSpeed" = some w ∧
        ((∃ p : ℚ, w.exceedanceProbability = JSNum.fin p ∧ 40 ≤ p) ∨
          (∃ m th : ℚ, w.mean = JSNum.fin m ∧
            (st.thresholds "windSpeed").toNumber = JSNum.fin th ∧ th ≤ m))) ∧
    ("very wet" ∈ getConditionTags st ↔
      ∃ r : ProbabilityResult, pd.get "precipitation" = some r ∧
        ((∃ p : ℚ, r.exceedanceProbability = JSNum.fin p ∧ 40 ≤ p) ∨
          (∃ m th : ℚ, r.mean = JSNum.fin m ∧
            (st.thresholds "precipitation").toNumber = JSNum.fin th ∧ th ≤ m))) := by
  constructor
  · rw [mem_very_windy st pd hpd]
    constructor
    · rintro ⟨w, hw, h⟩
      refine ⟨w, hw, ?_⟩
      rcases h with h | h
      · exact Or.inl ((JSNum.ge_forty_iff _).mp h)
      · exact Or.inr ((JSNum.ge_iff _ _).mp h)
    · rintro ⟨w, hw, h⟩
      refine ⟨w, hw, ?_⟩
      rcases h with h | h
      · exact Or.inl ((JSNum.ge_forty_iff _).mpr h)
      · exact Or.inr ((JSNum.ge_iff _ _).mpr h)
  · rw [mem_very_wet st pd hpd]
    constructor
    · rintro ⟨r, hr, h⟩
      refine ⟨r, hr, ?_⟩
      rcases h with h | h
      · exact Or.inl ((JSNum.ge_forty_iff _).mp h)
      · exact Or.inr ((JSNum.ge_iff _ _).mp h)
    · rintro ⟨r, hr, h⟩
      refine ⟨r, hr, ?_⟩
      rcases h with h | h
      · exact Or.inl ((JSNum.ge_forty_iff _).mpr h)
      · exact Or.inr ((JSNum.ge_iff _ _).mpr h)

theorem very_windy_very_wet_iff_witness :
    windyState.probabilityData = some [("windSpeed", resultWithMean windSpeedConfig 30)] ∧
    "very windy" ∈ getConditionTags windyState ∧ "very wet" ∉ getConditionTags windyState :=
  ⟨rfl,
    ((very_windy_very_wet_iff windyState
      [("windSpeed", resultWithMean windSpeedConfig 30)] rfl).1).mpr
      ⟨resultWithMean windSpeedConfig 30, rfl, Or.inr ⟨30, 25, rfl, rfl, by norm_num⟩⟩,
    fun h => by
      obtain ⟨r, hr, _⟩ := ((very_windy_very_wet_iff windyState
        [("windSpeed", resultWithMean windSpeedConfig 30)] rfl).2).mp h
      simp [ProbMap.get] at hr⟩

/-- C14: "very hot" and "very cold" co-occur only for contradictory inputs: for every
results mapping, `getConditionTags` returns both tags if and only if a temperature
result is present and manual temperature threshold <= mean <= 10, so the two tags never
appear together when the manual temperature threshold is greater than 10. -/
theorem hot_and_cold_iff (st : DashboardState) (pd : ProbMap)
    (hpd : st.probabilityData = some pd) :
    (("very hot" ∈ getConditionTags st ∧ "very cold" ∈ getConditionTags st) ↔
      ∃ t : ProbabilityResult, pd.get "temperature" = some t ∧
        ∃ m th : ℚ, t.mean = JSNum.fin m ∧
          (st.thresholds "temperature").toNumber = JSNum.fin th ∧ th ≤ m ∧ m ≤ 10) ∧
    (∀ th : ℚ, (st.thresholds "temperature").toNumber = JSNum.fin th → 10 < th →
      ¬ ("very hot" ∈ getConditionTags st ∧ "very cold" ∈ getConditionTags st)) := by
  have h10 : (10 : JSNum) = JSNum.fin 10 := rfl
  have key : ("very hot" ∈ getConditionTags st ∧ "very cold" ∈ getConditionTags st) ↔
      ∃ t : ProbabilityResult, pd.get "temperature" = some t ∧
        ∃ m th : ℚ, t.mean = JSNum.fin m ∧
          (st.thresholds "temperature").toNumber = JSNum.fin th ∧ th ≤ m ∧ m ≤ 10 := by
    rw [mem_very_hot st pd hpd, mem_very_cold st pd hpd]
    constructor
    · rintro ⟨⟨t, ht, hge⟩, ⟨t2, ht2, hle⟩⟩
      have ht12 : t2 = t := by
        rw [ht] at ht2
        exact (Option.some.inj ht2).symm
      subst ht12
      obtain ⟨x, y, hx, hy, hxy⟩ := (JSNum.ge_iff _ _).mp hge
      obtain ⟨x2, y2, hx2, hy2, hxy2⟩ := (JSNum.le_iff _ _).mp hle
      rw [h10] at hy2
      rw [hx] at hx2
      simp only [JSNum.fin.injEq] at hx2 hy2
      refine ⟨t2, ht, x, y, hx, hy, hxy, ?_⟩
      rw [hx2, hy2]
      exact hxy2
    · rintro ⟨t, ht, m, th, hm, hth, h1, h2⟩
      exact ⟨⟨t, ht, (JSNum.ge_iff _ _).mpr ⟨m, th, hm, hth, h1⟩⟩,
        ⟨t, ht, (JSNum.le_iff _ _).mpr ⟨m, 10, hm, h10, h2⟩⟩⟩
  refine ⟨key, ?_⟩
  intro th hth hgt hboth
  obtain ⟨t, _, m, th2, _, hth2, h1, h2⟩ := key.mp hboth
  rw [hth] at hth2
  simp only [JSNum.fin.injEq] at hth2
  subst hth2
  linarith

theorem hot_and_cold_iff_witness :
    contradictoryState.probabilityData
        = some [("temperature", resultWithMean temperatureConfig 9)] ∧
    ("very hot" ∈ getConditionTags contradictoryState ∧
      "very cold" ∈ getConditionTags contradictoryState) :=
  ⟨rfl,
    ((hot_and_cold_iff contradictoryState
      [("temperature", resultWithMean temperatureConfig 9)] rfl).1).mpr
      ⟨resultWithMean temperatureConfig 9, rfl, 9, 8, rfl, rfl, by norm_num, by norm_num⟩⟩

theorem sublist_five (b1 b2 b3 b4 b5 : Bool) :
    List.Sublist
      ((if b1 then ["very hot"] else []) ++ (if b2 then ["very cold"] else []) ++
        (if b3 then ["very windy"] else []) ++ (if b4 then ["very wet"] else []) ++
        (if b5 then ["very uncomfortable"] else []))
      tagVocabulary := by
  cases b1 <;> cases b2 <;> cases b3 <;> cases b4 <;> cases b5 <;> decide

theorem getConditionTags_shape (st : DashboardState) :
    getConditionTags st = [] ∨
    ∃ b1 b2 b3 b4 b5 : Bool, getConditionTags st =
      (if b1 then ["very hot"] else []) ++ (if b2 then ["very cold"] else []) ++
        (if b3 then ["very windy"] else []) ++ (if b4 then ["very wet"] else []) ++
        (if b5 then ["very uncomfortable"] else []) := by
  unfold getConditionTags
  cases st.probabilityData with
  | none => exact Or.inl rfl
  | some pd =>
    right
    simp only []
    refine ⟨match pd.get "temperature" with
        | some t => JSNum.ge t.mean (st.thresholds "temperature").toNumber
        | none => false,
      match pd.get "temperature" with
        | some t => JSNum.le t.mean 10
        | none => false,
      match pd.get "windSpeed" with
        | some w => JSNum.ge w.exceedanceProbability 40 ||
            JSNum.ge w.mean (st.thresholds "windSpeed").toNumber
        | none => false,
      match pd.get "precipitation" with
        | some r => JSNum.ge r.exceedanceProbability 40 ||
            JSNum.ge r.mean (st.thresholds "precipitation").toNumber
        | none => false,
      match pd.get "temperature", pd.get "humidity" with
        | some t, some h => JSNum.ge (heatIndex t.mean h.mean) 100
        | _, _ => false, ?_⟩
    cases pd.get "temperature" <;> cases pd.get "humidity" <;>
      cases pd.get "windSpeed" <;> cases pd.get "precipitation" <;> rfl

/-- C15: for every input, the list returned by `getConditionTags` is a duplicate-free
subsequence of the fixed order "very hot", "very cold", "very windy", "very wet",
"very uncomfortable": it contains only tags of that vocabulary, each at most once, in
that order, and it is empty when there is no ProbabilityResult mapping. -/
theorem tags_sublist_of_vocabulary (st : DashboardState) :
    List.Sublist (getConditionTags st) tagVocabulary ∧
    (getConditionTags st).Nodup ∧
    (∀ tag ∈ getConditionTags st, tag ∈ tagVocabulary) ∧
    tagVocabulary = ["very hot", "very cold", "very windy", "very wet", "very uncomfortable"] ∧
    (st.probabilityData = none → getConditionTags st = []) := by
  have hsub : List.Sublist (getConditionTags st) tagVocabulary := by
    rcases getConditionTags_shape st with h | ⟨b1, b2, b3, b4, b5, h⟩
    · rw [h]; exact List.nil_sublist _
    · rw [h]; exact sublist_five b1 b2 b3 b4 b5
  have hnd : tagVocabulary.Nodup := by decide
  refine ⟨hsub, hsub.nodup hnd, fun tag htag => hsub.subset htag, rfl, ?_⟩
  intro hnone
  unfold getConditionTags
  rw [hnone]

/-! ## getDatasetForStats: the day-of-year, the order of the records -/

/-- C16 at the failing input: on a machine whose local time is five hours behind UTC the
filter computes day-of-year 0 for 2023-01-01 and 364 for 2023-12-31, whose ordinals are
1 and 365. For a year from 100 on, the computed value is the ordinal of the calendar day
when local time is UTC or up to a day ahead of it, and one less than the ordinal when
local time is behind UTC. -/
theorem dayOfYear_behind_utc :
    ordinalDay 2023 1 1 = 1 ∧ ordinalDay 2023 12 31 = 365 ∧ ordinalDay 2024 12 31 = 366 ∧
    dayOfYear fiveHoursWest (DateFormatted.ymd 2023 1 1) = JSNum.fin 0 ∧
    dayOfYear fiveHoursWest (DateFormatted.ymd 2023 12 31) = JSNum.fin 364 ∧
    dayOfYear utcZone (DateFormatted.ymd 2023 1 1) = JSNum.fin 1 ∧
    (∀ (tza : ℤ → ℤ) (y m d : ℕ), 100 ≤ y →
      0 ≤ tza (makeDay y 0 0 * msPerDay) → tza (makeDay y 0 0 * msPerDay) < msPerDay →
      dayOfYear tza (DateFormatted.ymd y m d) = JSNum.fin ((ordinalDay y m d : ℕ) : ℚ)) ∧
    (∀ (tza : ℤ → ℤ) (y m d : ℕ), 100 ≤ y →
      -msPerDay ≤ tza (makeDay y 0 0 * msPerDay) → tza (makeDay y 0 0 * msPerDay) < 0 →
      dayOfYear tza (DateFormatted.ymd y m d)
        = JSNum.fin (((ordinalDay y m d : ℕ) : ℚ) - 1)) := by
  refine ⟨by decide, by decide, by decide, by decide, by decide, by decide, ?_, ?_⟩
  · exact fun tza y m d hy h0 h1 => dayOfYear_east tza y m d hy h0 h1
  · exact fun tza y m d hy h0 h1 => dayOfYear_west tza y m d hy h0 h1

theorem sampleValues_nil (v : String) : sampleValues [] v = [] := rfl

theorem analyzeVariable_nil (st : DashboardState) (cfgs : List VariableConfig) (v : String) :
    analyzeVariable st [] cfgs v = none := by
  unfold analyzeVariable
  cases cfgs.find? (fun x => decide (x.id = v)) with
  | none => rfl
  | some c => simp [sampleValues_nil]

/-- C17: for every selection of variable ids and every configs list,
`calculateProbabilities` over zero records returns the empty mapping; the function
is total, so no error is raised. -/
theorem calculateProbabilities_nil (st : DashboardState) (vars : List String)
    (cfgs : List VariableConfig) :
    calculateProbabilities st [] vars cfgs = [] ∧
    (∀ v : String, (calculateProbabilities st [] vars cfgs).get v = none) := by
  have h : calculateProbabilities st [] vars cfgs = [] := by
    unfold calculateProbabilities
    induction vars with
    | nil => rfl
    | cons w ws ih =>
      rw [List.foldl_cons, analyzeVariable_nil]
      exact ih
  refine ⟨h, fun v => ?_⟩
  rw [h]
  rfl

theorem getDatasetForStats_eq (tza : ℤ → ℤ) (st : DashboardState) (data : List WeatherRecord) :
    getDatasetForStats tza st data = data ∨
    ∃ n : JSNum, getDatasetForStats tza st data = data.filter (keepRecord tza n) := by
  unfold getDatasetForStats
  split_ifs
  · exact Or.inl rfl
  · cases st.selectedDate with
    | empty => exact Or.inl rfl
    | text n => exact Or.inr ⟨n, rfl⟩

/-- C18: for every input sequence of records and every setting, the output of
`getDatasetForStats` is a subsequence of its input (kept records in their original
relative order, each occurrence at most once), and duplicates are not merged: a record
that is kept occurs in the output as many times as in the input. -/
theorem getDatasetForStats_sublist (tza : ℤ → ℤ) (st : DashboardState)
    (data : List WeatherRecord) :
    List.Sublist (getDatasetForStats tza st data) data ∧
    (∀ r ∈ getDatasetForStats tza st data,
      (getDatasetForStats tza st data).count r = data.count r) := by
  rcases getDatasetForStats_eq tza st data with h | ⟨n, h⟩
  · rw [h]
    exact ⟨List.Sublist.refl _, fun _ _ => rfl⟩
  · rw [h]
    refine ⟨List.filter_sublist _, fun r hr => ?_⟩
    have hk : keepRecord tza n r = true := (List.mem_filter.mp hr).2
    rw [List.count_filter hk]

theorem ordinalDay_leap_december (y : ℕ) (h : inLeapYear (y : ℤ) = true) :
    ordinalDay y 12 31 = 366 := by
  unfold ordinalDay
  rw [h]
  decide

theorem keepRecord_leap_december (tza : ℤ → ℤ) (y : ℕ) (t k : ℤ) (hy : 100 ≤ y)
    (hl : inLeapYear (y : ℤ) = true) (hk : tza (makeDay y 0 0 * msPerDay) / msPerDay = k)
    (h1 : 1 ≤ t) (h365 : t ≤ 365) (hk0 : -1 ≤ k) (hk1 : k ≤ 0) :
    keepRecord tza (JSNum.fin (t : ℚ)) (recordDated (DateFormatted.ymd y 12 31)) = true ↔
      (336 + k ≤ t ∨ t ≤ 31 + k) := by
  rw [keepRecord_of_offset tza t _ y 12 31 rfl hy, hk, ordinalDay_leap_december y hl]
  have habs : |((366 : ℕ) : ℤ) + k - t| = 366 + k - t := by
    rw [abs_of_nonneg (by push_cast; omega)]
    push_cast
    ring
  rw [habs]
  constructor
  · rintro (h | h)
    · left; omega
    · right; omega
  · rintro (h | h)
    · left; omega
    · right; omega

/-- C20 at the failing input: on a machine whose local time is five hours behind UTC the
filter computes 365, not 366, for 2024-12-31 (31 December of a leap year); the record is
dropped at target day 31 and kept at target day 335, where the claim has it kept and
dropped. The window test itself is defined at day-of-year 366 and holds there, for an
integer target `t` in 1..365, if and only if `t >= 336` or `t <= 31`. For 31 December of
every leap year from 100 on, the filter computes 366 and keeps the record exactly for
`t >= 336` or `t <= 31` when local time is UTC or up to a day ahead of it, and computes 365
and keeps the record exactly for `t >= 335` or `t <= 30` when local time is behind UTC. -/
theorem leap_day_behind_utc :
    ordinalDay 2024 12 31 = 366 ∧
    dayOfYear fiveHoursWest (DateFormatted.ymd 2024 12 31) = JSNum.fin 365 ∧
    keepRecord fiveHoursWest (JSNum.fin 31) (recordDated (DateFormatted.ymd 2024 12 31))
      = false ∧
    keepRecord fiveHoursWest (JSNum.fin 335) (recordDated (DateFormatted.ymd 2024 12 31))
      = true ∧
    (∀ t : ℤ, 1 ≤ t → t ≤ 365 →
      (inWindow (JSNum.fin (t : ℚ)) (JSNum.fin 366) = true ↔ (336 ≤ t ∨ t ≤ 31))) ∧
    (∀ (tza : ℤ → ℤ) (y : ℕ) (t : ℤ), 100 ≤ y → inLeapYear (y : ℤ) = true →
      0 ≤ tza (makeDay y 0 0 * msPerDay) → tza (makeDay y 0 0 * msPerDay) < msPerDay →
      1 ≤ t → t ≤ 365 →
      dayOfYear tza (DateFormatted.ymd y 12 31) = JSNum.fin 366 ∧
      (keepRecord tza (JSNum.fin (t : ℚ)) (recordDated (DateFormatted.ymd y 12 31)) = true ↔
        (336 ≤ t ∨ t ≤ 31))) ∧
    (∀ (tza : ℤ → ℤ) (y : ℕ) (t : ℤ), 100 ≤ y → inLeapYear (y : ℤ) = true →
      -msPerDay ≤ tza (makeDay y 0 0 * msPerDay) → tza (makeDay y 0 0 * msPerDay) < 0 →
      1 ≤ t → t ≤ 365 →
      dayOfYear tza (DateFormatted.ymd y 12 31) = JSNum.fin 365 ∧
      (keepRecord tza (JSNum.fin (t : ℚ)) (recordDated (DateFormatted.ymd y 12 31)) = true ↔
        (335 ≤ t ∨ t ≤ 30))) := by
  have hwest : fiveHoursWest (makeDay (2024 : ℕ) 0 0 * msPerDay) / msPerDay = -1 := by decide
  have h31 := keepRecord_leap_december fiveHoursWest 2024 31 (-1) (by norm_num) (by decide)
    hwest (by norm_num) (by norm_num) (by norm_num) (by norm_num)
  have h335 := keepRecord_leap_december fiveHoursWest 2024 335 (-1) (by norm_num) (by decide)
    hwest (by norm_num) (by norm_num) (by norm_num) (by norm_num)
  simp only [Int.cast_ofNat] at h31 h335
  refine ⟨by decide, by decide, ?_, ?_, ?_, ?_, ?_⟩
  · rw [Bool.eq_false_iff, Ne, h31]
    decide
  · rw [h335]
    decide
  · intro t h1 h365
    have h := inWindow_int t 366
    simp only [Int.cast_ofNat] at h
    rw [h, abs_of_nonneg (by omega)]
    constructor
    · rintro (h | h)
      · left; omega
      · right; omega
    · rintro (h | h)
      · left; omega
      · right; omega
  · intro tza y t hy hl h0 h1 ht1 ht365
    constructor
    · rw [dayOfYear_east tza y 12 31 hy h0 h1, ordinalDay_leap_december y hl]
      norm_num
    · have := keepRecord_leap_december tza y t 0 hy hl (Int.ediv_eq_zero_of_lt h0 h1)
        ht1 ht365 (by norm_num) (by norm_num)
      simpa using this
  · intro tza y t hy hl h0 h1 ht1 ht365
    have hdiv : tza (makeDay y 0 0 * msPerDay) / msPerDay = -1 := by
      have hms : (86400000 : ℤ) = msPerDay := by decide
      rw [← hms] at h0 h1 ⊢
      omega
    constructor
    · rw [dayOfYear_west tza y 12 31 hy h0 h1, ordinalDay_leap_december y hl]
      norm_num
    · have := keepRecord_leap_december tza y t (-1) hy hl hdiv
        ht1 ht365 (by norm_num) (by norm_num)
      rw [this]
      constructor
      · rintro (h | h)
        · left; omega
        · right; omega
      · rintro (h | h)
        · left; omega
        · right; omega

/-! ## The effect and the controls -/

theorem thresholdFor_congr {s1 s2 : DashboardState}
    (h1 : s1.useAutoThresholds = s2.useAutoThresholds)
    (h2 : s1.autoThresholdValues = s2.autoThresholdValues)
    (h3 : s1.thresholds = s2.thresholds) (v : String) (c : VariableConfig) :
    thresholdFor s1 v c = thresholdFor s2 v c := by
  unfold thresholdFor
  rw [h1, h2, h3]

theorem calculateProbabilities_congr {s1 s2 : DashboardState}
    (h1 : s1.useAutoThresholds = s2.useAutoThresholds)
    (h2 : s1.autoThresholdValues = s2.autoThresholdValues)
    (h3 : s1.thresholds = s2.thresholds) (data : List WeatherRecord) (vars : List String)
    (cfgs : List VariableConfig) :
    calculateProbabilities s1 data vars cfgs = calculateProbabilities s2 data vars cfgs := by
  have ha : analyzeVariable s1 data cfgs = analyzeVariable s2 data cfgs := by
    funext v
    unfold analyzeVariable resultFor
    simp only [thresholdFor_congr h1 h2 h3]
  unfold calculateProbabilities
  rw [ha]

theorem getDatasetForStats_congr (tza : ℤ → ℤ) {s1 s2 : DashboardState}
    (h1 : s1.useSeasonalWindow = s2.useSeasonalWindow) (h2 : s1.selectedDate = s2.selectedDate)
    (data : List WeatherRecord) :
    getDatasetForStats tza s1 data = getDatasetForStats tza s2 data := by
  unfold getDatasetForStats
  rw [h1, h2]

theorem varsToUse_congr {s1 s2 : DashboardState}
    (h : s1.selectedVariables = s2.selectedVariables) : varsToUse s1 = varsToUse s2 := by
  unfold varsToUse
  rw [h]

theorem recalculate_inputs (tza : ℤ → ℤ) (st : DashboardState) :
    (recalculate tza st).selectedDate = st.selectedDate ∧
    (recalculate tza st).selectedVariables = st.selectedVariables ∧
    (recalculate tza st).historicalData = st.historicalData ∧
    (recalculate tza st).thresholds = st.thresholds ∧
    (recalculate tza st).useAutoThresholds = st.useAutoThresholds ∧
    (recalculate tza st).useSeasonalWindow = st.useSeasonalWindow := by
  unfold recalculate
  split_ifs <;> exact ⟨rfl, rfl, rfl, rfl, rfl, rfl⟩

theorem resultsCurrent_recalculate (tza : ℤ → ℤ) (st : DashboardState)
    (hd : st.historicalData ≠ []) (hm : st.useAutoThresholds = false) :
    ResultsCurrent tza (recalculate tza st) := by
  obtain ⟨h1, h2, h3, h4, h5, h6⟩ := recalculate_inputs tza st
  obtain ⟨hp, ha⟩ := recalculate_of_data tza st hd
  have ha2 : (recalculate tza st).autoThresholdValues = st.autoThresholdValues := by
    rw [ha, hm]
    rfl
  unfold ResultsCurrent
  rw [hp, h3, getDatasetForStats_congr tza h6 h1, varsToUse_congr h2,
    calculateProbabilities_congr h5 ha2 h4]

theorem getDatasetForStats_of_missing (tza : ℤ → ℤ) (st : DashboardState)
    (data : List WeatherRecord) (h : ∀ r ∈ data, r.dateFormatted = DateFormatted.missing) :
    getDatasetForStats tza st data = data := by
  rcases getDatasetForStats_eq tza st data with h1 | ⟨n, h1⟩
  · exact h1
  · rw [h1, List.filter_eq_self]
    intro r hr
    simp [keepRecord, h r hr]

theorem fiveTemperatures_missing :
    ∀ r ∈ fiveTemperatures, r.dateFormatted = DateFormatted.missing := by
  intro r hr
  simp only [fiveTemperatures, List.mem_cons, List.mem_singleton, List.not_mem_nil,
    or_false] at hr
  rcases hr with h | h | h | h | h <;> rw [h] <;> rfl

theorem temperature_threshold_of_calc (st : DashboardState) (data : List WeatherRecord)
    (hne : sampleValues data "temperature" ≠ []) :
    ((calculateProbabilities st data ["temperature"] weatherVariables).get "temperature").map
        (fun r => r.threshold)
      = some (thresholdFor st "temperature" temperatureConfig) := by
  rw [get_calculateProbabilities, if_pos (by simp)]
  rw [analyzeVariable_of_config (c := temperatureConfig) (by decide) hne]
  rfl

theorem keepRecord_july (t : ℤ) :
    keepRecord utcZone (JSNum.fin (t : ℚ)) julyRecord = true ↔
      (|(182 : ℤ) - t| ≤ 30 ∨ 335 ≤ |(182 : ℤ) - t|) := by
  have hdoy : dayOfYear utcZone (DateFormatted.ymd 2023 7 1) = JSNum.fin ((182 : ℤ) : ℚ) := by
    decide
  have hk : keepRecord utcZone (JSNum.fin (t : ℚ)) julyRecord
      = inWindow (JSNum.fin (t : ℚ)) (dayOfYear utcZone (DateFormatted.ymd 2023 7 1)) := rfl
  rw [hk, hdoy, inWindow_int]

theorem manualStateWith_loaded (data : List WeatherRecord) (hd : data ≠ []) :
    (recalculate utcZone (manualStateWith data)).historicalData = data ∧
    (recalculate utcZone (manualStateWith data)).selectedVariables = ["temperature"] ∧
    (recalculate utcZone (manualStateWith data)).useAutoThresholds = false ∧
    (recalculate utcZone (manualStateWith data)).thresholds = initialThresholds ∧
    (recalculate utcZone (manualStateWith data)).useSeasonalWindow = true ∧
    (recalculate utcZone (manualStateWith data)).selectedDate
      = SelectedDate.text (JSNum.fin 1) ∧
    (recalculate utcZone (manualStateWith data)).probabilityData
      = some (calculateProbabilities initialState
          (getDatasetForStats utcZone initialState data) ["temperature"] weatherVariables) := by
  obtain ⟨h1, h2, h3, h4, h5, h6⟩ := recalculate_inputs utcZone (manualStateWith data)
  refine ⟨h3, h2, h5, h4, h6, h1, ?_⟩
  have hd2 : (manualStateWith data).historicalData ≠ [] := hd
  rw [(recalculate_of_data utcZone _ hd2).1]
  have hv : varsToUse (manualStateWith data) = ["temperature"] := by
    simp [varsToUse, manualStateWith]
  have hh : (manualStateWith data).historicalData = data := rfl
  have hg : getDatasetForStats utcZone (manualStateWith data) data
      = getDatasetForStats utcZone initialState data :=
    getDatasetForStats_congr utcZone rfl rfl data
  have hc : calculateProbabilities (manualStateWith data)
        (getDatasetForStats utcZone initialState data) ["temperature"] weatherVariables
      = calculateProbabilities initialState
        (getDatasetForStats utcZone initialState data) ["temperature"] weatherVariables :=
    calculateProbabilities_congr rfl rfl rfl _ _ _
  rw [hv, hh, hg, hc]

theorem stored_of_current (tza : ℤ → ℤ) (st : DashboardState) (h : ResultsCurrent tza st)
    (hv : varsToUse st = ["temperature"])
    (hne : sampleValues (getDatasetForStats tza st st.historicalData) "temperature" ≠ []) :
    storedTemperatureThreshold st = some (thresholdFor st "temperature" temperatureConfig) := by
  unfold ResultsCurrent at h
  unfold storedTemperatureThreshold
  rw [h, hv]
  exact temperature_threshold_of_calc st _ hne

theorem getDatasetForStats_july_day_one (st : DashboardState)
    (hs : st.useSeasonalWindow = true) (hd : st.selectedDate = SelectedDate.text (JSNum.fin 1)) :
    getDatasetForStats utcZone st [julyRecord] = [] := by
  have hk : keepRecord utcZone (JSNum.fin 1) julyRecord = false := by
    have h := keepRecord_july 1
    simp only [Int.cast_one] at h
    rw [Bool.eq_false_iff, Ne, h]
    decide
  simp [getDatasetForStats, hs, hd, hk]

theorem getDatasetForStats_july_day_182 (st : DashboardState)
    (hd : st.selectedDate = SelectedDate.text (JSNum.fin 182)) :
    getDatasetForStats utcZone st [julyRecord] = [julyRecord] := by
  have hk : keepRecord utcZone (JSNum.fin 182) julyRecord = true := by
    have h := keepRecord_july 182
    simp only [Int.cast_ofNat] at h
    rw [h]
    decide
  unfold getDatasetForStats
  split_ifs
  · rfl
  · rw [hd]
    simp [hk]

theorem getDatasetForStats_window_off (tza : ℤ → ℤ) (st : DashboardState)
    (hs : st.useSeasonalWindow = false) (data : List WeatherRecord) :
    getDatasetForStats tza st data = data := by
  simp [getDatasetForStats, hs]

/-- C19 at the failing inputs: the effect depends on `historicalData`,
`selectedVariables` and `useAutoThresholds` only. With the temperatures 10 to 50 loaded
in manual mode the stored results are current, with threshold 35; after the temperature
threshold is set to 20 the stored threshold is still 35 and the results are not current.
With the record of 1 July loaded and target day 1 the stored mapping is empty and
current; after the target day is set to 182, or the seasonal window is switched off,
it is still empty and not current. A change that is a dependency of the effect does
leave the results current when it ends in manual mode with data loaded. -/
theorem results_stale_after_control_change :
    (ResultsCurrent utcZone manualLoadedState ∧
      storedTemperatureThreshold manualLoadedState = some (JSNum.fin 35)) ∧
    (storedTemperatureThreshold
        (dispatch utcZone (Event.setThreshold "temperature" (JSVal.ofRat 20)) manualLoadedState)
        = some (JSNum.fin 35) ∧
      ¬ ResultsCurrent utcZone
        (dispatch utcZone (Event.setThreshold "temperature" (JSVal.ofRat 20))
          manualLoadedState)) ∧
    (ResultsCurrent utcZone julyLoadedState ∧ julyLoadedState.probabilityData = some []) ∧
    ((dispatch utcZone (Event.setSelectedDate (SelectedDate.text (JSNum.fin 182)))
        julyLoadedState).probabilityData = some [] ∧
      ¬ ResultsCurrent utcZone
        (dispatch utcZone (Event.setSelectedDate (SelectedDate.text (JSNum.fin 182)))
          julyLoadedState)) ∧
    ((dispatch utcZone (Event.setUseSeasonalWindow false) julyLoadedState).probabilityData
        = some [] ∧
      ¬ ResultsCurrent utcZone
        (dispatch utcZone (Event.setUseSeasonalWindow false) julyLoadedState)) ∧
    (∀ (tza : ℤ → ℤ) (e : Event) (st : DashboardState), effectRuns e st = true →
      (applySetters e st).historicalData ≠ [] → (applySetters e st).useAutoThresholds = false →
      ResultsCurrent tza (dispatch tza e st)) := by
  have h5 : fiveTemperatures ≠ [] := by simp [fiveTemperatures]
  have hj : [julyRecord] ≠ [] := by simp
  obtain ⟨m1, m2, m3, m4, m5, m6, m7⟩ := manualStateWith_loaded fiveTemperatures h5
  obtain ⟨j1, j2, j3, j4, j5, j6, j7⟩ := manualStateWith_loaded [julyRecord] hj
  rw [getDatasetForStats_of_missing _ _ _ fiveTemperatures_missing] at m7
  rw [getDatasetForStats_july_day_one initialState rfl rfl, (calculateProbabilities_nil _ _ _).1]
    at j7
  have hne5 : sampleValues fiveTemperatures "temperature" ≠ [] := by decide
  have hnej : sampleValues [julyRecord] "temperature" ≠ [] := by decide
  have hstored : storedTemperatureThreshold manualLoadedState = some (JSNum.fin 35) := by
    unfold storedTemperatureThreshold manualLoadedState
    rw [m7]
    simp only []
    rw [temperature_threshold_of_calc initialState _ hne5]
    simp [thresholdFor, initialState, initialStateAt, initialThresholds, temperatureConfig,
      JSVal.orElse, JSVal.ofRat, JSVal.toNumber]
  have hjstored : ∀ st : DashboardState, st.probabilityData = some [] →
      storedTemperatureThreshold st = none := by
    intro st hst
    unfold storedTemperatureThreshold
    rw [hst]
    rfl
  have e1 : dispatch utcZone (Event.setThreshold "temperature" (JSVal.ofRat 20))
      manualLoadedState
      = applySetters (Event.setThreshold "temperature" (JSVal.ofRat 20)) manualLoadedState := rfl
  have e2 : dispatch utcZone (Event.setSelectedDate (SelectedDate.text (JSNum.fin 182)))
      julyLoadedState
      = applySetters (Event.setSelectedDate (SelectedDate.text (JSNum.fin 182)))
          julyLoadedState := rfl
  have e3 : dispatch utcZone (Event.setUseSeasonalWindow false) julyLoadedState
      = applySetters (Event.setUseSeasonalWindow false) julyLoadedState := rfl
  rw [e1, e2, e3]
  refine ⟨⟨?_, hstored⟩, ⟨?_, ?_⟩, ⟨?_, j7⟩, ⟨?_, ?_⟩, ⟨?_, ?_⟩, ?_⟩
  · exact resultsCurrent_recalculate utcZone _ h5 rfl
  · exact hstored
  · intro hcur
    have hv : varsToUse (applySetters (Event.setThreshold "temperature" (JSVal.ofRat 20))
        manualLoadedState) = ["temperature"] := by
      have : varsToUse (applySetters (Event.setThreshold "temperature" (JSVal.ofRat 20))
          manualLoadedState) = varsToUse manualLoadedState := rfl
      rw [this]
      unfold varsToUse manualLoadedState
      rw [m2]
      rfl
    have hdata : getDatasetForStats utcZone
        (applySetters (Event.setThreshold "temperature" (JSVal.ofRat 20)) manualLoadedState)
        (applySetters (Event.setThreshold "temperature" (JSVal.ofRat 20))
          manualLoadedState).historicalData = fiveTemperatures := by
      have : (applySetters (Event.setThreshold "temperature" (JSVal.ofRat 20))
          manualLoadedState).historicalData = fiveTemperatures := m1
      rw [this, getDatasetForStats_of_missing _ _ _ fiveTemperatures_missing]
    have hs := stored_of_current utcZone _ hcur hv (by rw [hdata]; exact hne5)
    have hold : storedTemperatureThreshold
        (applySetters (Event.setThreshold "temperature" (JSVal.ofRat 20)) manualLoadedState)
        = some (JSNum.fin 35) := hstored
    rw [hold] at hs
    have hthr : thresholdFor
        (applySetters (Event.setThreshold "temperature" (JSVal.ofRat 20)) manualLoadedState)
        "temperature" temperatureConfig = JSNum.fin 20 := by
      have hauto : (applySetters (Event.setThreshold "temperature" (JSVal.ofRat 20))
          manualLoadedState).useAutoThresholds = false := m3
      unfold thresholdFor
      rw [hauto]
      simp [applySetters, JSVal.orElse, JSVal.ofRat, JSVal.toNumber]
    rw [hthr] at hs
    simp only [Option.some.injEq, JSNum.fin.injEq] at hs
    norm_num at hs
  · exact resultsCurrent_recalculate utcZone _ hj rfl
  · exact j7
  · intro hcur
    have hv : varsToUse (applySetters (Event.setSelectedDate (SelectedDate.text (JSNum.fin 182)))
        julyLoadedState) = ["temperature"] := by
      have : varsToUse (applySetters (Event.setSelectedDate (SelectedDate.text (JSNum.fin 182)))
          julyLoadedState) = varsToUse julyLoadedState := rfl
      rw [this]
      unfold varsToUse julyLoadedState
      rw [j2]
      rfl
    have hdata : getDatasetForStats utcZone
        (applySetters (Event.setSelectedDate (SelectedDate.text (JSNum.fin 182)))
          julyLoadedState)
        (applySetters (Event.setSelectedDate (SelectedDate.text (JSNum.fin 182)))
          julyLoadedState).historicalData = [julyRecord] := by
      have : (applySetters (Event.setSelectedDate (SelectedDate.text (JSNum.fin 182)))
          julyLoadedState).historicalData = [julyRecord] := j1
      rw [this, getDatasetForStats_july_day_182 _ rfl]
    have hs := stored_of_current utcZone _ hcur hv (by rw [hdata]; exact hnej)
    have hnone : storedTemperatureThreshold
        (applySetters (Event.setSelectedDate (SelectedDate.text (JSNum.fin 182)))
          julyLoadedState) = none := hjstored _ j7
    rw [hnone] at hs
    exact absurd hs (by simp)
  · exact j7
  · intro hcur
    have hv : varsToUse (applySetters (Event.setUseSeasonalWindow false) julyLoadedState)
        = ["temperature"] := by
      have : varsToUse (applySetters (Event.setUseSeasonalWindow false) julyLoadedState)
          = varsToUse julyLoadedState := rfl
      rw [this]
      unfold varsToUse julyLoadedState
      rw [j2]
      rfl
    have hdata : getDatasetForStats utcZone
        (applySetters (Event.setUseSeasonalWindow false) julyLoadedState)
        (applySetters (Event.setUseSeasonalWindow false) julyLoadedState).historicalData
        = [julyRecord] := by
      have : (applySetters (Event.setUseSeasonalWindow false) julyLoadedState).historicalData
          = [julyRecord] := j1
      rw [this, getDatasetForStats_window_off _ _ rfl]
    have hs := stored_of_current utcZone _ hcur hv (by rw [hdata]; exact hnej)
    have hnone : storedTemperatureThreshold
        (applySetters (Event.setUseSeasonalWindow false) julyLoadedState) = none :=
      hjstored _ j7
    rw [hnone] at hs
    exact absurd hs (by simp)
  · intro tza e st hrun hd hm
    unfold dispatch
    rw [if_pos hrun]
    exact resultsCurrent_recalculate tza _ hd hm

/-! ## Risk labels -/

theorem riskLabel_cases (p : ℚ) :
    getProbabilityText (JSNum.fin p)
      = (if 70 ≤ p then "High Risk" else if 40 ≤ p then "Moderate Risk" else "Low Risk") := by
  have h70 : (70 : JSNum) = JSNum.fin 70 := rfl
  have h40 : (40 : JSNum) = JSNum.fin 40 := rfl
  unfold getProbabilityText
  rw [h70, h40]
  simp only [JSNum.ge, decide_eq_true_eq]

/-- C21: for every exceedance probability `p`, those in [0, 100] among them,
`getProbabilityText` of the dashboard and `getRiskLevel` of the chart return the same
label, which is "Low Risk" for `p < 40`, "Moderate Risk" for `40 <= p < 70` and
"High Risk" for `p >= 70`; it is the label the legend of the chart shows for the bounds
that contain `p` (0-39, 40-69, 70-100). The two functions agree on `NaN` as well. -/
theorem risk_labels_agree (p : ℚ) :
    getProbabilityText (JSNum.fin p) = getRiskLevel (JSNum.fin p) ∧
    (p < 40 → getRiskLevel (JSNum.fin p) = "Low Risk") ∧
    (40 ≤ p → p < 70 → getRiskLevel (JSNum.fin p) = "Moderate Risk") ∧
    (70 ≤ p → getRiskLevel (JSNum.fin p) = "High Risk") ∧
    (∀ row ∈ riskLegend, row.2.1 ≤ p → p ≤ row.2.2 → getRiskLevel (JSNum.fin p) = row.1) ∧
    (∀ x : JSNum, getProbabilityText x = getRiskLevel x) := by
  have hsame : ∀ x : JSNum, getProbabilityText x = getRiskLevel x := fun _ => rfl
  have hc : getRiskLevel (JSNum.fin p)
      = (if 70 ≤ p then "High Risk" else if 40 ≤ p then "Moderate Risk" else "Low Risk") := by
    rw [← hsame]
    exact riskLabel_cases p
  refine ⟨hsame _, ?_, ?_, ?_, ?_, hsame⟩
  · intro h
    rw [hc, if_neg (by linarith), if_neg (by linarith)]
  · intro h1 h2
    rw [hc, if_neg (by linarith), if_pos h1]
  · intro h
    rw [hc, if_pos h]
  · intro row hrow hlo hhi
    simp only [riskLegend, List.mem_cons, List.mem_singleton, List.not_mem_nil, or_false] at hrow
    rcases hrow with h | h | h <;> subst h <;> simp only at hlo hhi ⊢
    · rw [hc, if_neg (by linarith), if_neg (by linarith)]
    · rw [hc, if_neg (by linarith), if_pos hlo]
    · rw [hc, if_pos hlo]

/-! ## pct: the order statistic -/

theorem sorted_order_statistic (a : List ℚ) (hs : List.Sorted (fun x y => x ≤ y) a) :
    ∀ (i : ℕ) (q : ℚ), a[i]? = some q →
      i + 1 ≤ (a.filter (fun x => decide (x ≤ q))).length ∧
      (a.filter (fun x => decide (q < x))).length + i + 1 ≤ a.length := by
  induction a with
  | nil => intro i q h; simp at h
  | cons x xs ih =>
    intro i q h
    have hxs : List.Sorted (fun x y => x ≤ y) xs := hs.of_cons
    cases i with
    | zero =>
      simp only [List.getElem?_cons_zero, Option.some.injEq] at h
      subst h
      constructor
      · simp [List.filter_cons]
      · have hle := List.length_filter_le (fun y => decide (x < y)) xs
        simp [List.filter_cons]
        omega
    | succ j =>
      simp only [List.getElem?_cons_succ] at h
      have hq : q ∈ xs := List.getElem?_mem h
      have hxq : x ≤ q := List.rel_of_sorted_cons hs q hq
      obtain ⟨h1, h2⟩ := ih hxs j q h
      constructor
      · simp [List.filter_cons, hxq]
        omega
      · have hnot : ¬ q < x := not_lt.mpr hxq
        simp [List.filter_cons, hnot]
        omega

theorem sortAscending_congr {s1 s2 : List ℚ} (h : List.Perm s1 s2) :
    sortAscending s1 = sortAscending s2 := by
  apply List.eq_of_perm_of_sorted (r := fun x y : ℚ => x ≤ y)
  · exact (sortAscending_perm s1).trans (h.trans (sortAscending_perm s2).symm)
  · exact sortAscending_sorted s1
  · exact sortAscending_sorted s2

theorem pct_congr {s1 s2 : List ℚ} (h : List.Perm s1 s2) (p : ℚ) : pct s1 p = pct s2 p := by
  unfold pct
  rw [sortAscending_congr h, h.length_eq]

/-- C22 (as the code computes it): for every non-empty series of `n` finite values and `p`
in {70, 80}, the subscript `idx` that `pct` computes, `Math.floor((p/100) * (n - 1))` in
binary64 arithmetic, lies in `0..n-1`, and `pct` returns an element of the series that is
its `idx`-th order statistic: it stands at subscript `idx` of the ascending sort, at least
`idx + 1` elements of the series are at most the returned threshold and at most
`n - 1 - idx` are strictly greater, whatever the order of the input. For an array (at most
`2 ^ 32` elements) `idx` is the exact `floor((p/100) * (n - 1))` or one less, and it is that
floor when `p = 80` and when `n - 1` is not a multiple of 10. -/
theorem pct_order_statistic_binary64 (s : List ℚ) (p : ℚ) (hs : s ≠ [])
    (hp : p = 70 ∨ p = 80) :
    0 ≤ pctIndex p s.length ∧ pctIndex p s.length < s.length ∧
    (∃ q : ℚ, pct s p = JSVal.ofRat q ∧ q ∈ s ∧
      (sortAscending s)[(pctIndex p s.length).toNat]? = some q ∧
      pctIndex p s.length + 1 ≤ ((s.filter (fun x => decide (x ≤ q))).length : ℤ) ∧
      ((s.filter (fun x => decide (q < x))).length : ℤ)
        ≤ (s.length : ℤ) - 1 - pctIndex p s.length) ∧
    (∀ s2 : List ℚ, List.Perm s2 s → pct s2 p = pct s p) ∧
    (s.length ≤ 2 ^ 32 →
      ⌊(p / 100) * ((s.length : ℚ) - 1)⌋ - 1 ≤ pctIndex p s.length ∧
      pctIndex p s.length ≤ ⌊(p / 100) * ((s.length : ℚ) - 1)⌋ ∧
      (p = 80 ∨ ¬ 10 ∣ (s.length - 1) →
        pctIndex p s.length = ⌊(p / 100) * ((s.length : ℚ) - 1)⌋)) := by
  have hlen : 0 < s.length := List.length_pos.mpr hs
  have hp0 : 0 ≤ p := by rcases hp with h | h <;> rw [h] <;> norm_num
  have hlt : ∀ n : ℕ, 0 < n → pctIndex p n < n := by
    rcases hp with h | h <;> rw [h]
    · exact pctIndex_seventy_lt
    · exact pctIndex_eighty_lt
  have h0 := pctIndex_nonneg p s.length hp0 hlen
  have h1 := hlt s.length hlen
  obtain ⟨i, q, hi, hin, hget, hpct⟩ := (pct_isPercentileOf p s hp0 hlt).2 hs
  have hidx : (pctIndex p s.length).toNat = i := by omega
  obtain ⟨c1, c2⟩ := sorted_order_statistic _ (sortAscending_sorted s) i q hget
  have hperm := sortAscending_perm s
  have e1 : ((sortAscending s).filter (fun x => decide (x ≤ q))).length
      = (s.filter (fun x => decide (x ≤ q))).length := (hperm.filter _).length_eq
  have e2 : ((sortAscending s).filter (fun x => decide (q < x))).length
      = (s.filter (fun x => decide (q < x))).length := (hperm.filter _).length_eq
  rw [e1] at c1
  rw [e2, sortAscending_length] at c2
  refine ⟨h0, h1, ⟨q, hpct, ?_, ?_, ?_, ?_⟩, fun s2 h2 => pct_congr h2 p, ?_⟩
  · exact hperm.subset (List.getElem?_mem hget)
  · rw [hidx]; exact hget
  · omega
  · omega
  · intro hmax
    rcases hp with h | h
    · rw [h]
      obtain ⟨a, b, c⟩ := pctIndex_seventy_near s.length hlen hmax
      refine ⟨a, b, ?_⟩
      rintro (h80 | h10)
      · norm_num at h80
      · exact c h10
    · rw [h]
      have e := pctIndex_eighty_exact s.length hlen hmax
      refine ⟨by omega, by omega, fun _ => e⟩

theorem pct_order_statistic_binary64_witness :
    (([10, 20, 30, 40, 50] : List ℚ) ≠ [] ∧ ((80 : ℚ) = 70 ∨ (80 : ℚ) = 80)) ∧
    pctIndex 80 ([10, 20, 30, 40, 50] : List ℚ).length
      < (([10, 20, 30, 40, 50] : List ℚ).length : ℤ) :=
  ⟨⟨by simp, Or.inr rfl⟩,
    (pct_order_statistic_binary64 [10, 20, 30, 40, 50] 80 (by simp) (Or.inr rfl)).2.1⟩

theorem rampSeries_filter_length (c : ℕ) (p : ℚ → Bool) (p' : ℕ → Bool)
    (h : ∀ i : ℕ, p (i : ℚ) = p' i) :
    (((List.range c).map (fun (i : ℕ) => (i : ℚ))).filter p).length
      = ((List.range c).filter p').length := by
  rw [List.filter_map, List.length_map]
  congr 1
  apply List.filter_congr
  intro i _
  exact h i

/-- C22 fails as stated: for the series 0, 1, ..., 90 and `p = 70` the index of the claim is
`floor((70/100) * 90) = 63`, but `pct` returns 62, the element at subscript 62, because the
binary64 product is `62.99999999999999`. Only 63 elements of the series are at most 62, fewer
than `idx + 1 = 64`, and 28 are strictly greater, more than `n - 1 - idx = 27`. -/
theorem pct_below_claimed_rank :
    ((List.range 91).map (fun (i : ℕ) => (i : ℚ))).length = 91 ∧
    ⌊((70 : ℚ) / 100) * ((91 : ℚ) - 1)⌋ = 63 ∧
    pct ((List.range 91).map (fun (i : ℕ) => (i : ℚ))) 70 = JSVal.ofRat 62 ∧
    (((List.range 91).map (fun (i : ℕ) => (i : ℚ))).filter
      (fun x => decide (x ≤ 62))).length = 63 ∧
    (((List.range 91).map (fun (i : ℕ) => (i : ℚ))).filter
      (fun x => decide (62 < x))).length = 28 := by
  have hs : sortAscending ((List.range 91).map (fun (i : ℕ) => (i : ℚ)))
      = (List.range 91).map (fun (i : ℕ) => (i : ℚ)) :=
    sortAscending_of_sorted (sorted_range_cast 91)
  refine ⟨by simp, ?_, ?_, ?_, ?_⟩
  · rw [Int.floor_eq_iff]
    norm_num
  · simp [pct, hs, pctIndex_seventy_ninetyOne, arrayAt]
  · rw [rampSeries_filter_length 91 _ (fun i => decide (i ≤ 62))
      (fun i => by
        have : ((i : ℚ) ≤ 62) ↔ (i ≤ 62) := by exact_mod_cast Iff.rfl
        simp [this])]
    decide
  · rw [rampSeries_filter_length 91 _ (fun i => decide (62 < i))
      (fun i => by
        have : ((62 : ℚ) < (i : ℚ)) ↔ (62 < i) := by exact_mod_cast Iff.rfl
        simp [this])]
    decide

/-! ## inWindow: the size of the window -/

theorem inWindow_nat (t d : ℕ) :
    inWindow (JSNum.fin (t : ℚ)) (JSNum.fin (d : ℚ))
      = (decide (d ≤ t + 30 ∧ t ≤ d + 30) || decide (t + 335 ≤ d ∨ d + 335 ≤ t)) := by
  rw [Bool.eq_iff_iff]
  have h := inWindow_int (t : ℤ) (d : ℤ)
  simp only [Int.cast_natCast] at h
  rw [h]
  simp only [Bool.or_eq_true, decide_eq_true_eq]
  constructor
  · rintro (h | h)
    · left; rw [abs_le] at h; omega
    · right; rw [le_abs] at h; omega
  · rintro (h | h)
    · left; rw [abs_le]; omega
    · right; rw [le_abs]; omega

theorem filter_range_length_true (p : ℕ → Bool) (s n : ℕ)
    (h : ∀ d, s ≤ d → d < s + n → p d = true) :
    ((List.range' s n).filter p).length = n := by
  rw [List.filter_eq_self.mpr, List.length_range']
  intro d hd
  rw [List.mem_range'_1] at hd
  exact h d hd.1 hd.2

theorem filter_range_length_false (p : ℕ → Bool) (s n : ℕ)
    (h : ∀ d, s ≤ d → d < s + n → p d = false) :
    ((List.range' s n).filter p).length = 0 := by
  rw [List.length_eq_zero, List.filter_eq_nil_iff]
  intro d hd
  rw [List.mem_range'_1] at hd
  rw [h d hd.1 hd.2]
  simp

theorem filter_three_segments (p : ℕ → Bool) (s a b c : ℕ) :
    ((List.range' s (a + b + c)).filter p).length
      = ((List.range' s a).filter p).length + ((List.range' (s + a) b).filter p).length
        + ((List.range' (s + a + b) c).filter p).length := by
  have h1 : List.range' s (a + b + c)
      = List.range' s a ++ List.range' (s + a) b ++ List.range' (s + a + b) c := by
    have e1 : List.range' s a ++ List.range' (s + a) b = List.range' s (b + a) :=
      List.range'_append_1 s a b
    have e2 : List.range' s (b + a) ++ List.range' (s + (b + a)) c
        = List.range' s (c + (b + a)) := List.range'_append_1 s (b + a) c
    have e3 : s + a + b = s + (b + a) := by omega
    have e4 : a + b + c = c + (b + a) := by omega
    rw [e1, e3, e2, e4]
  rw [h1, List.filter_append, List.filter_append, List.length_append, List.length_append]

theorem window_count_nat (t : ℕ) (h1 : 1 ≤ t) (h365 : t ≤ 365) :
    ((List.range' 1 365).filter
      (fun d => decide (d ≤ t + 30 ∧ t ≤ d + 30) || decide (t + 335 ≤ d ∨ d + 335 ≤ t))).length
      = 61 := by
  rcases Nat.lt_or_ge t 31 with hA | hA
  · have hsplit : 365 = (t + 30) + 304 + (31 - t) := by omega
    rw [hsplit, filter_three_segments]
    rw [filter_range_length_true _ _ _ (fun d hd1 hd2 => by
          simp only [Bool.or_eq_true, decide_eq_true_eq]; omega),
      filter_range_length_false _ _ _ (fun d hd1 hd2 => by
          simp only [Bool.or_eq_false_iff, decide_eq_false_iff_not]; omega),
      filter_range_length_true _ _ _ (fun d hd1 hd2 => by
          simp only [Bool.or_eq_true, decide_eq_true_eq]; omega)]
    omega
  · rcases Nat.lt_or_ge t 336 with hB | hC
    · have hsplit : 365 = (t - 31) + 61 + (335 - t) := by omega
      rw [hsplit, filter_three_segments]
      rw [filter_range_length_false _ _ _ (fun d hd1 hd2 => by
            simp only [Bool.or_eq_false_iff, decide_eq_false_iff_not]; omega),
        filter_range_length_true _ _ _ (fun d hd1 hd2 => by
            simp only [Bool.or_eq_true, decide_eq_true_eq]; omega),
        filter_range_length_false _ _ _ (fun d hd1 hd2 => by
            simp only [Bool.or_eq_false_iff, decide_eq_false_iff_not]; omega)]
    · have hsplit : 365 = (t - 335) + 304 + (396 - t) := by omega
      rw [hsplit, filter_three_segments]
      rw [filter_range_length_true _ _ _ (fun d hd1 hd2 => by
            simp only [Bool.or_eq_true, decide_eq_true_eq]; omega),
        filter_range_length_false _ _ _ (fun d hd1 hd2 => by
            simp only [Bool.or_eq_false_iff, decide_eq_false_iff_not]; omega),
        filter_range_length_true _ _ _ (fun d hd1 hd2 => by
            simp only [Bool.or_eq_true, decide_eq_true_eq]; omega)]
      omega

/-- C23: for every target day in 1..365, exactly 61 of the days-of-year 1..365 pass the
window test `inWindow` of `getDatasetForStats` with the window of 30 days: the target
day, the 30 days before and the 30 days after, counted round a year of 365 days. -/
theorem window_has_sixty_one_days (t : ℕ) (h1 : 1 ≤ t) (h365 : t ≤ 365) :
    seasonalWindowDays = 30 ∧
    ((List.range' 1 365).filter
      (fun (d : ℕ) => inWindow (JSNum.fin (t : ℚ)) (JSNum.fin (d : ℚ)))).length = 61 ∧
    (∀ d : ℕ, inWindow (JSNum.fin (t : ℚ)) (JSNum.fin (d : ℚ)) = true ↔
      ((d ≤ t + 30 ∧ t ≤ d + 30) ∨ (t + 335 ≤ d ∨ d + 335 ≤ t))) := by
  refine ⟨rfl, ?_, ?_⟩
  · have hf : (fun d : ℕ => inWindow (JSNum.fin (t : ℚ)) (JSNum.fin (d : ℚ)))
        = (fun d : ℕ =>
            decide (d ≤ t + 30 ∧ t ≤ d + 30) || decide (t + 335 ≤ d ∨ d + 335 ≤ t)) :=
      funext (fun d => inWindow_nat t d)
    rw [hf]
    exact window_count_nat t h1 h365
  · intro d
    rw [inWindow_nat]
    simp only [Bool.or_eq_true, decide_eq_true_eq]

theorem window_has_sixty_one_days_witness :
    (1 ≤ 1 ∧ 1 ≤ 365) ∧
    ((List.range' 1 365).filter
      (fun (d : ℕ) => inWindow (JSNum.fin ((1 : ℕ) : ℚ)) (JSNum.fin (d : ℚ)))).length = 61 :=
  ⟨⟨by decide, by decide⟩, (window_has_sixty_one_days 1 (by decide) (by decide)).2.1⟩

/-! ## downloadCSV: the shape of the table -/

theorem csvRow_length (location : String) (item : ExportItem) :
    (csvRow location item).length = 8 := rfl

theorem csvHeaders_length (variableIds : List String) :
    (csvHeaders variableIds).length = 3 + variableIds.length := by
  simp [csvHeaders]
  omega

/-- C24: for every non-empty data array and every list of selected variables,
`downloadCSV` writes a header row of `3 + |variables|` fields (Date, Date_Formatted,
Location, then the selected variables in selection order) and data rows of exactly 8
fields each, always in the order date, dateFormatted, location, temperature, humidity,
precipitation, windSpeed, airQuality; the header and the data rows have the same number
of fields if and only if `|variables| = 5`. -/
theorem downloadCSV_field_counts (data : List ExportItem) (location : String)
    (variableIds : List String) (hd : data ≠ []) :
    ∃ (header : List CsvField) (rows : List (List CsvField)),
      downloadCSV data location variableIds = some (header :: rows) ∧
      header = [CsvField.text "Date", CsvField.text "Date_Formatted", CsvField.text "Location"]
        ++ variableIds.map (fun v => CsvField.text v.capitalize) ∧
      header.length = 3 + variableIds.length ∧
      rows = data.map (fun item =>
        [CsvField.text item.date, CsvField.dateText item.dateFormatted, CsvField.text location,
         orEmptyString item.temperature, orEmptyString item.humidity,
         orEmptyString item.precipitation, orEmptyString item.windSpeed,
         orEmptyString item.airQuality]) ∧
      rows.length = data.length ∧
      (∀ row ∈ rows, row.length = 8) ∧
      ((∀ row ∈ rows, row.length = header.length) ↔ variableIds.length = 5) := by
  have hlen : data.length ≠ 0 := fun h => hd (List.length_eq_zero.mp h)
  have h8 : ∀ row ∈ data.map (csvRow location), row.length = 8 := by
    intro row hrow
    obtain ⟨item, _, rfl⟩ := List.mem_map.mp hrow
    exact csvRow_length location item
  refine ⟨csvHeaders variableIds, data.map (csvRow location), ?_, rfl, csvHeaders_length _,
    rfl, List.length_map _ _, h8, ?_⟩
  · unfold downloadCSV
    rw [if_neg hlen]
  · rw [csvHeaders_length]
    constructor
    · intro h
      obtain ⟨item, hitem⟩ := List.exists_mem_of_ne_nil data hd
      have := h (csvRow location item) (List.mem_map.mpr ⟨item, hitem, rfl⟩)
      rw [csvRow_length] at this
      omega
    · intro h row hrow
      rw [h8 row hrow, h]

theorem downloadCSV_field_counts_witness :
    [julyItem] ≠ [] ∧
    ∃ (header : List CsvField) (rows : List (List CsvField)),
      downloadCSV [julyItem] "Pune" ["temperature", "humidity", "precipitation", "windSpeed"]
        = some (header :: rows) ∧ header.length = 7 ∧ (∀ row ∈ rows, row.length = 8) :=
  ⟨by simp, by
    obtain ⟨header, rows, h1, _, h3, _, _, h6, _⟩ :=
      downloadCSV_field_counts [julyItem] "Pune"
        ["temperature", "humidity", "precipitation", "windSpeed"] (by simp)
    exact ⟨header, rows, h1, h3, h6⟩⟩

end WeatherExplorer
